import Mathlib

/-!
# StudyHub front end: a shallow embedding of the React components

Each component is embedded as a record of its `useState` cells together with
a log of the HTTP requests it issued and of the toasts it showed.  An `async`
handler is embedded as a function that receives the outcome of every request
it awaits as an argument and returns the state reached when the handler has
finished.  The rendered tree is embedded by the pieces of it that decide which
actions are offered (buttons, labels, banners).
-/

namespace StudyHub

/-! ## HTTP client and toasts (the collaborators `axios` and `sonner`) -/

/-- HTTP verbs used through `axios`. -/
inductive Method
  | GET
  | POST
  | DELETE
  deriving DecidableEq, Repr

/-- A `File` object chosen in a file input. -/
structure File where
  name : String
  size : Nat
  type : String
  deriving DecidableEq, Repr

/-- One value appended to a `FormData`. -/
inductive FormValue
  | file (f : File)
  | text (s : String)
  deriving DecidableEq, Repr

/-- A JSON value that is a string or an array of strings. -/
inductive JsonValue
  | str (s : String)
  | arr (items : List String)
  deriving DecidableEq, Repr

/-- Request bodies and query parameters: none, a `FormData` (fields in append
order), a flat JSON object whose values are strings, a JSON object with string
and string-array values, a JSON array of strings, or the `params` object of a
GET request. -/
inductive Body
  | empty
  | formData (fields : List (String × FormValue))
  | json (fields : List (String × String))
  | object (fields : List (String × JsonValue))
  | array (items : List String)
  | params (fields : List (String × String))
  deriving DecidableEq, Repr

/-- One call of `axios.get` / `axios.post` / `axios.delete`. -/
structure Request where
  method : Method
  url : String
  body : Body
  deriving DecidableEq, Repr

/-- One call of `toast.success` / `toast.error`.  The argument of
`toast.success` may be `undefined` (`none`) when it is read from a response. -/
inductive Toast
  | success (msg : Option String)
  | error (msg : String)
  deriving DecidableEq, Repr

/-- Outcome of an awaited request: it resolves with `response.data`, or rejects
with an error whose `error.response?.data?.detail` is `detail` (`none` when any
link of the optional chain is missing). -/
inductive HttpResult (α : Type)
  | ok (data : α)
  | fail (detail : Option String)
  deriving DecidableEq, Repr

/-- The JavaScript expression `detail || dflt` for a string-or-missing `detail`:
the empty string is falsy, like `undefined`. -/
def orDefault (detail : Option String) (dflt : String) : String :=
  match detail with
  | some d => if d = "" then dflt else d
  | none => dflt

/-! ## Records received from the server -/

/-- A workspace as listed by `GET /workspaces`. -/
structure Workspace where
  id : String
  name : String
  deriving DecidableEq, Repr

/-- A workspace task as listed by `GET /workspaces/{id}/tasks`.  The field
`deadline` is the time value of `new Date(task.deadline)` in milliseconds,
`none` for an invalid date; absent JSON fields are `none`. -/
structure Task where
  id : String
  title : String
  description : String
  deadline : Option Int
  submission_type : Option String
  submission_status : Option String
  submitted_at : Option String
  deriving DecidableEq, Repr

/-! ## `components/student/WorkspaceTasksTab.js` -/

namespace StudentTasks

/-- The `useState` cells of the component, with the request and toast logs. -/
structure State where
  workspaces : List Workspace
  selectedWorkspace : Option Workspace
  tasks : List Task
  loading : Bool
  submitOpen : Bool
  selectedTask : Option Task
  submitting : Bool
  submissionType : String
  file : Option File
  link : String
  requests : List Request
  toasts : List Toast
  deriving DecidableEq, Repr

/-- Initial values of the `useState` cells. -/
def init : State :=
  { workspaces := [], selectedWorkspace := none, tasks := [], loading := true,
    submitOpen := false, selectedTask := none, submitting := false,
    submissionType := "file", file := none, link := "",
    requests := [], toasts := [] }

/-- Body of `fetchTasks`: nothing without a selected workspace; otherwise one
GET, storing the list on success and showing a toast on failure. -/
def fetchTasks (API : String) (s : State) (resp : HttpResult (List Task)) : State :=
  match s.selectedWorkspace with
  | none => s
  | some w =>
    let s1 := { s with requests := s.requests ++
      [Request.mk Method.GET (API ++ "/workspaces/" ++ w.id ++ "/tasks") Body.empty] }
    match resp with
    | HttpResult.ok data => { s1 with tasks := data }
    | HttpResult.fail _ => { s1 with toasts := s1.toasts ++ [Toast.error "Failed to fetch tasks"] }

/-- The effect `useEffect(() => { if (selectedWorkspace) fetchTasks(); },
[selectedWorkspace])`: it runs after a render in which `selectedWorkspace`
differs from its previous value `old` (object identity is rendered as equality
of the records). -/
def selectedWorkspaceEffect (API : String) (old : Option Workspace) (s : State)
    (resp : HttpResult (List Task)) : State :=
  if s.selectedWorkspace = old then s else fetchTasks API s resp

/-- Body of `fetchWorkspaces`. -/
def fetchWorkspaces (API : String) (s : State) (resp : HttpResult (List Workspace)) : State :=
  let s1 := { s with requests := s.requests ++
    [Request.mk Method.GET (API ++ "/workspaces") Body.empty] }
  let s2 :=
    match resp with
    | HttpResult.ok data =>
      let s' := { s1 with workspaces := data }
      match data with
      | w :: _ => { s' with selectedWorkspace := some w }
      | [] => s'
    | HttpResult.fail _ => { s1 with toasts := s1.toasts ++ [Toast.error "Failed to load workspaces"] }
  { s2 with loading := false }

/-- Body of `openSubmitDialog`. -/
def openSubmitDialog (s : State) (task : Task) : State :=
  { s with selectedTask := some task, submissionType := "file", file := none, link := "",
           submitOpen := true }

/-- The `FormData` built inside `handleSubmit`, `none` when the `else` branch
(error toast and early return) is taken. -/
def submitFormData (submissionType : String) (file : Option File) (link : String) :
    Option (List (String × FormValue)) :=
  match decide (submissionType = "file"), file with
  | true, some f => some [("file", FormValue.file f)]
  | _, _ =>
    if submissionType = "link" ∧ link ≠ "" then some [("link", FormValue.text link)]
    else none

/-- Body of `handleSubmit`.  `resp` is the outcome of the awaited POST and
`tasksResp` that of the `fetchTasks()` started after a success. -/
def handleSubmit (API : String) (s : State) (resp : HttpResult Unit)
    (tasksResp : HttpResult (List Task)) : State :=
  match s.selectedTask with
  | none => s
  | some task =>
    let s1 := { s with submitting := true }
    match submitFormData s1.submissionType s1.file s1.link with
    | none =>
      { s1 with toasts := s1.toasts ++ [Toast.error "Please provide a file or link"],
                submitting := false }
    | some formData =>
      let s2 := { s1 with requests := s1.requests ++
        [Request.mk Method.POST (API ++ "/tasks/" ++ task.id ++ "/submit")
          (Body.formData formData)] }
      let s3 :=
        match resp with
        | HttpResult.ok _ =>
          let s' := { s2 with
            toasts := s2.toasts ++ [Toast.success (some "Submission uploaded successfully!")],
            submitOpen := false }
          fetchTasks API s' tasksResp
        | HttpResult.fail detail =>
          { s2 with toasts := s2.toasts ++ [Toast.error (orDefault detail "Failed to submit task")] }
      { s3 with submitting := false }

/-- The record returned by `getStatusInfo` (icon given by its component name). -/
structure StatusInfo where
  icon : String
  text : String
  color : String
  bgColor : String
  badge : String
  deriving DecidableEq, Repr

/-- The `switch` of `getStatusInfo`. -/
def getStatusInfo (status : Option String) : StatusInfo :=
  if status = some "approved" then
    { icon := "CheckCircle2", text := "Approved", color := "text-green-600",
      bgColor := "bg-green-50", badge := "bg-green-500" }
  else if status = some "rejected" then
    { icon := "XCircle", text := "Rejected", color := "text-red-600",
      bgColor := "bg-red-50", badge := "bg-red-500" }
  else if status = some "pending" then
    { icon := "Clock", text := "Pending Review", color := "text-yellow-600",
      bgColor := "bg-yellow-50", badge := "bg-yellow-500" }
  else
    { icon := "AlertCircle", text := "Not Submitted", color := "text-gray-600",
      bgColor := "bg-gray-50", badge := "bg-gray-500" }

/-- The comparison `new Date(task.deadline) < new Date()` at current time `now`
(milliseconds); an invalid date compares false. -/
def deadlinePassed (task : Task) (now : Int) : Bool :=
  match task.deadline with
  | some d => decide (d < now)
  | none => false

/-- What the card rendered for one task shows: the status badge, the overdue
flag used for styling, the label of the submit button when it is rendered, and
whether the overdue banner is rendered. -/
structure TaskCard where
  statusInfo : StatusInfo
  isOverdue : Bool
  submitButton : Option String
  overdueBanner : Bool
  deriving DecidableEq, Repr

/-- The body of `tasks.map((task) => ...)` in the render. -/
def renderTaskCard (task : Task) (now : Int) : TaskCard :=
  let statusInfo := getStatusInfo task.submission_status
  let isOverdue := deadlinePassed task now && decide (task.submission_status = some "not_submitted")
  { statusInfo := statusInfo,
    isOverdue := isOverdue,
    submitButton :=
      if task.submission_status = some "not_submitted" ∨ task.submission_status = some "rejected" then
        some (if task.submission_status = some "rejected" then "Resubmit" else "Submit")
      else none,
    overdueBanner := isOverdue && decide (task.submission_status = some "not_submitted") }

/-- The `accept` attribute of the file input in the submit dialog. -/
def fileInputAccept (selectedTask : Option Task) : String :=
  match selectedTask with
  | some task => if task.submission_type = some "image" then "image/*" else "*"
  | none => "*"

/-- Whether the component renders its main tree (task list and dialog) rather
than the spinner or the "No workspaces yet" card. -/
def mainShown (s : State) : Bool :=
  !s.loading && decide (s.workspaces ≠ [])

/-- User and environment events of the component. -/
inductive Event
  /-- The mount effect: `fetchWorkspaces`, then the `selectedWorkspace` effect. -/
  | mount (wsResp : HttpResult (List Workspace)) (tasksResp : HttpResult (List Task))
  /-- The workspace selector's `onValueChange(id)`, then the effect. -/
  | selectWorkspace (id : String) (tasksResp : HttpResult (List Task))
  /-- A click on the submit button of the `i`-th task card at time `now`. -/
  | clickSubmit (i : Nat) (now : Int)
  /-- The submission-type selector's `onValueChange`; its items are `file` and `link`. -/
  | setSubmissionType (isLink : Bool)
  /-- The file input's `onChange` (`e.target.files[0]`, possibly undefined). -/
  | setFile (f : Option File)
  /-- The link input's `onChange`. -/
  | setLink (v : String)
  /-- The dialog's `onOpenChange`; without a trigger it only ever closes. -/
  | closeDialog
  /-- The form's `onSubmit`. -/
  | submitForm (resp : HttpResult Unit) (tasksResp : HttpResult (List Task))

/-- One event applied to a state; an event whose control is not rendered
leaves the state unchanged. -/
def step (API : String) (s : State) : Event → State
  | Event.mount wsResp tasksResp =>
    let old := s.selectedWorkspace
    selectedWorkspaceEffect API old (fetchWorkspaces API s wsResp) tasksResp
  | Event.selectWorkspace id tasksResp =>
    if mainShown s then
      let old := s.selectedWorkspace
      selectedWorkspaceEffect API old
        { s with selectedWorkspace := s.workspaces.find? (fun w => w.id == id) } tasksResp
    else s
  | Event.clickSubmit i now =>
    if mainShown s then
      match s.tasks.get? i with
      | some task =>
        if (renderTaskCard task now).submitButton.isSome then openSubmitDialog s task else s
      | none => s
    else s
  | Event.setSubmissionType isLink =>
    if mainShown s && s.submitOpen then
      { s with submissionType := if isLink then "link" else "file" }
    else s
  | Event.setFile f =>
    if mainShown s && s.submitOpen && decide (s.submissionType = "file") then { s with file := f } else s
  | Event.setLink v =>
    if mainShown s && s.submitOpen && decide (s.submissionType ≠ "file") then { s with link := v } else s
  | Event.closeDialog =>
    if mainShown s && s.submitOpen then { s with submitOpen := false } else s
  | Event.submitForm resp tasksResp =>
    if mainShown s && s.submitOpen then handleSubmit API s resp tasksResp else s

/-- The state reached from `s` by a sequence of events. -/
def runFrom (API : String) (s : State) (evs : List Event) : State :=
  evs.foldl (step API) s

/-- The state reached from the initial state. -/
def run (API : String) (evs : List Event) : State :=
  runFrom API init evs

end StudentTasks

/-! ## `components/admin/WorkspaceTasksTab.js` -/

namespace AdminTasks

/-- One entry of `submissions.submissions` as returned by
`GET /tasks/{id}/submissions`. -/
structure Submission where
  id : String
  student_name : String
  status : Option String
  submission_type : Option String
  file_path : Option String
  link : Option String
  review_comment : Option String
  submitted_at : Option String
  deriving DecidableEq, Repr

/-- The value of the `submissions` cell: the response object of
`GET /tasks/{id}/submissions`; every field is missing in the initial `[]`. -/
structure SubmissionsData where
  total_students : Option Nat
  submitted_count : Option Nat
  approved_count : Option Nat
  rejected_count : Option Nat
  pending_count : Option Nat
  submissions : Option (List Submission)
  deriving DecidableEq, Repr

/-- The `taskData` form object. -/
structure TaskData where
  title : String
  description : String
  deadline : String
  submission_type : String
  deriving DecidableEq, Repr

/-- The `useState` cells of the component, with the request and toast logs. -/
structure State where
  workspaces : List Workspace
  selectedWorkspace : Option Workspace
  tasks : List Task
  loading : Bool
  creating : Bool
  dialogOpen : Bool
  submissionsOpen : Bool
  reviewOpen : Bool
  selectedTask : Option Task
  submissions : SubmissionsData
  selectedSubmission : Option Submission
  reviewComment : String
  taskData : TaskData
  requests : List Request
  toasts : List Toast
  deriving DecidableEq, Repr

/-- The empty form `{ title: '', description: '', deadline: '', submission_type: 'any' }`. -/
def emptyTaskData : TaskData :=
  { title := "", description := "", deadline := "", submission_type := "any" }

/-- Initial values of the `useState` cells. -/
def init : State :=
  { workspaces := [], selectedWorkspace := none, tasks := [], loading := true,
    creating := false, dialogOpen := false, submissionsOpen := false, reviewOpen := false,
    selectedTask := none,
    submissions := { total_students := none, submitted_count := none, approved_count := none,
                     rejected_count := none, pending_count := none, submissions := none },
    selectedSubmission := none, reviewComment := "", taskData := emptyTaskData,
    requests := [], toasts := [] }

/-- Body of `fetchTasks`. -/
def fetchTasks (API : String) (s : State) (resp : HttpResult (List Task)) : State :=
  match s.selectedWorkspace with
  | none => s
  | some w =>
    let s1 := { s with requests := s.requests ++
      [Request.mk Method.GET (API ++ "/workspaces/" ++ w.id ++ "/tasks") Body.empty] }
    match resp with
    | HttpResult.ok data => { s1 with tasks := data }
    | HttpResult.fail _ => { s1 with toasts := s1.toasts ++ [Toast.error "Failed to fetch tasks"] }

/-- The effect on `[selectedWorkspace]`: it runs after a render in which the
cell differs from its previous value `old` (object identity is rendered as
equality of the records). -/
def selectedWorkspaceEffect (API : String) (old : Option Workspace) (s : State)
    (resp : HttpResult (List Task)) : State :=
  if s.selectedWorkspace = old then s else fetchTasks API s resp

/-- Body of `fetchWorkspaces`. -/
def fetchWorkspaces (API : String) (s : State) (resp : HttpResult (List Workspace)) : State :=
  let s1 := { s with requests := s.requests ++
    [Request.mk Method.GET (API ++ "/workspaces") Body.empty] }
  let s2 :=
    match resp with
    | HttpResult.ok data =>
      let s' := { s1 with workspaces := data }
      match data with
      | w :: _ => { s' with selectedWorkspace := some w }
      | [] => s'
    | HttpResult.fail _ => { s1 with toasts := s1.toasts ++ [Toast.error "Failed to load workspaces"] }
  { s2 with loading := false }

/-- Body of `handleCreateTask`.  The posted object is `{...taskData,
workspace_id}`, its keys in insertion order. -/
def handleCreateTask (API : String) (s : State) (resp : HttpResult Unit)
    (tasksResp : HttpResult (List Task)) : State :=
  match s.selectedWorkspace with
  | none => { s with toasts := s.toasts ++ [Toast.error "Please select a workspace"] }
  | some w =>
    let s1 := { s with creating := true }
    let payload : List (String × String) :=
      [("title", s1.taskData.title), ("description", s1.taskData.description),
       ("deadline", s1.taskData.deadline), ("submission_type", s1.taskData.submission_type),
       ("workspace_id", w.id)]
    let s2 := { s1 with requests := s1.requests ++
      [Request.mk Method.POST (API ++ "/workspaces/" ++ w.id ++ "/tasks") (Body.json payload)] }
    let s3 :=
      match resp with
      | HttpResult.ok _ =>
        let s' := { s2 with
          toasts := s2.toasts ++ [Toast.success (some "Task created successfully!")],
          dialogOpen := false, taskData := emptyTaskData }
        fetchTasks API s' tasksResp
      | HttpResult.fail detail =>
        { s2 with toasts := s2.toasts ++ [Toast.error (orDefault detail "Failed to create task")] }
    { s3 with creating := false }

/-- Body of `viewSubmissions(task)`.  With a null `task` the URL template
throws inside the `try`, which the `catch` turns into the error toast. -/
def viewSubmissions (API : String) (s : State) (task : Option Task)
    (resp : HttpResult SubmissionsData) : State :=
  let s1 := { s with selectedTask := task, submissionsOpen := true }
  match task with
  | none => { s1 with toasts := s1.toasts ++ [Toast.error "Failed to fetch submissions"] }
  | some t =>
    let s2 := { s1 with requests := s1.requests ++
      [Request.mk Method.GET (API ++ "/tasks/" ++ t.id ++ "/submissions") Body.empty] }
    match resp with
    | HttpResult.ok data => { s2 with submissions := data }
    | HttpResult.fail _ => { s2 with toasts := s2.toasts ++ [Toast.error "Failed to fetch submissions"] }

/-- Body of `handleReview`. -/
def handleReview (s : State) (submission : Submission) : State :=
  { s with selectedSubmission := some submission, reviewComment := "", reviewOpen := true }

/-- Body of `submitReview(status)`.  With a null `selectedSubmission` the URL
template throws inside the `try` before any request is made. -/
def submitReview (API : String) (s : State) (status : String) (resp : HttpResult Unit)
    (subsResp : HttpResult SubmissionsData) : State :=
  match s.selectedSubmission with
  | none => { s with toasts := s.toasts ++ [Toast.error "Failed to review submission"] }
  | some sub =>
    let s1 := { s with requests := s.requests ++
      [Request.mk Method.POST (API ++ "/submissions/" ++ sub.id ++ "/review")
        (Body.json [("status", status), ("comment", s.reviewComment)])] }
    match resp with
    | HttpResult.ok _ =>
      let s2 := { s1 with
        toasts := s1.toasts ++ [Toast.success (some ("Submission " ++ status ++ "!"))],
        reviewOpen := false }
      viewSubmissions API s2 s2.selectedTask subsResp
    | HttpResult.fail _ =>
      { s1 with toasts := s1.toasts ++ [Toast.error "Failed to review submission"] }

/-- Text of the badge returned by `getStatusBadge`. -/
def getStatusBadge (status : Option String) : String :=
  if status = some "approved" then "Approved"
  else if status = some "rejected" then "Rejected"
  else if status = some "pending" then "Pending"
  else "Unknown"

/-- Whether the card of a submission renders the Review button
(`submission.status === 'pending' && ...`). -/
def reviewButtonShown (submission : Submission) : Bool :=
  decide (submission.status = some "pending")

/-- Whether the component renders its main tree rather than the spinner or the
"No workspaces yet" card. -/
def mainShown (s : State) : Bool :=
  !s.loading && decide (s.workspaces ≠ [])

/-- The four items of the submission-type selector of the create-task form. -/
inductive SubmissionTypeItem
  | any
  | image
  | file
  | link
  deriving DecidableEq, Repr

/-- The `value` of a selector item. -/
def SubmissionTypeItem.value : SubmissionTypeItem → String
  | SubmissionTypeItem.any => "any"
  | SubmissionTypeItem.image => "image"
  | SubmissionTypeItem.file => "file"
  | SubmissionTypeItem.link => "link"

/-- User and environment events of the component. -/
inductive Event
  /-- The mount effect: `fetchWorkspaces`, then the `selectedWorkspace` effect. -/
  | mount (wsResp : HttpResult (List Workspace)) (tasksResp : HttpResult (List Task))
  /-- The workspace selector's `onValueChange(id)`, then the effect. -/
  | selectWorkspace (id : String) (tasksResp : HttpResult (List Task))
  /-- The create dialog's `onOpenChange` (trigger, empty-list button, dismissal). -/
  | setDialogOpen (b : Bool)
  /-- The title input's `onChange`. -/
  | setTitle (v : String)
  /-- The description input's `onChange`. -/
  | setDescription (v : String)
  /-- The deadline input's `onChange`. -/
  | setDeadline (v : String)
  /-- The submission-type selector's `onValueChange`. -/
  | setSubmissionType (item : SubmissionTypeItem)
  /-- The create form's `onSubmit`. -/
  | submitCreate (resp : HttpResult Unit) (tasksResp : HttpResult (List Task))
  /-- A click on "View Submissions" of the `i`-th task card. -/
  | clickViewSubmissions (i : Nat) (resp : HttpResult SubmissionsData)
  /-- Dismissal of the submissions dialog. -/
  | closeSubmissions
  /-- A click on the Review button of the `j`-th submission card. -/
  | clickReview (j : Nat)
  /-- The comment textarea's `onChange`. -/
  | setReviewComment (v : String)
  /-- Dismissal of the review dialog. -/
  | closeReview
  /-- A click on Reject or Approve in the review dialog. -/
  | clickDecision (approve : Bool) (resp : HttpResult Unit) (subsResp : HttpResult SubmissionsData)

/-- One event applied to a state; an event whose control is not rendered
leaves the state unchanged. -/
def step (API : String) (s : State) : Event → State
  | Event.mount wsResp tasksResp =>
    let old := s.selectedWorkspace
    selectedWorkspaceEffect API old (fetchWorkspaces API s wsResp) tasksResp
  | Event.selectWorkspace id tasksResp =>
    if mainShown s then
      let old := s.selectedWorkspace
      selectedWorkspaceEffect API old
        { s with selectedWorkspace := s.workspaces.find? (fun w => w.id == id) } tasksResp
    else s
  | Event.setDialogOpen b =>
    if mainShown s then { s with dialogOpen := b } else s
  | Event.setTitle v =>
    if mainShown s && s.dialogOpen then { s with taskData := { s.taskData with title := v } } else s
  | Event.setDescription v =>
    if mainShown s && s.dialogOpen then
      { s with taskData := { s.taskData with description := v } }
    else s
  | Event.setDeadline v =>
    if mainShown s && s.dialogOpen then { s with taskData := { s.taskData with deadline := v } } else s
  | Event.setSubmissionType item =>
    if mainShown s && s.dialogOpen then
      { s with taskData := { s.taskData with submission_type := item.value } }
    else s
  | Event.submitCreate resp tasksResp =>
    if mainShown s && s.dialogOpen then handleCreateTask API s resp tasksResp else s
  | Event.clickViewSubmissions i resp =>
    if mainShown s then
      match s.tasks.get? i with
      | some task => viewSubmissions API s (some task) resp
      | none => s
    else s
  | Event.closeSubmissions =>
    if mainShown s && s.submissionsOpen then { s with submissionsOpen := false } else s
  | Event.clickReview j =>
    if mainShown s && s.submissionsOpen then
      match s.submissions.submissions with
      | some subs =>
        match subs.get? j with
        | some submission => if reviewButtonShown submission then handleReview s submission else s
        | none => s
      | none => s
    else s
  | Event.setReviewComment v =>
    if mainShown s && s.reviewOpen then { s with reviewComment := v } else s
  | Event.closeReview =>
    if mainShown s && s.reviewOpen then { s with reviewOpen := false } else s
  | Event.clickDecision approve resp subsResp =>
    if mainShown s && s.reviewOpen then
      submitReview API s (if approve then "approved" else "rejected") resp subsResp
    else s

/-- The state reached from `s` by a sequence of events. -/
def runFrom (API : String) (s : State) (evs : List Event) : State :=
  evs.foldl (step API) s

/-- The state reached from the initial state. -/
def run (API : String) (evs : List Event) : State :=
  runFrom API init evs

end AdminTasks

/-! ## `components/student/WorkspaceJoinTab.js` -/

namespace JoinTab

/-- The `response.data` of `POST /workspaces/join`; `message` may be missing. -/
structure JoinData where
  message : Option String
  deriving DecidableEq, Repr

/-- The `useState` cells of the component, with the request and toast logs. -/
structure State where
  workspaces : List Workspace
  loading : Bool
  joinOpen : Bool
  inviteCode : String
  joining : Bool
  requests : List Request
  toasts : List Toast
  deriving DecidableEq, Repr

/-- Initial values of the `useState` cells. -/
def init : State :=
  { workspaces := [], loading := true, joinOpen := false, inviteCode := "", joining := false,
    requests := [], toasts := [] }

/-- Body of `fetchWorkspaces`. -/
def fetchWorkspaces (API : String) (s : State) (resp : HttpResult (List Workspace)) : State :=
  let s1 := { s with requests := s.requests ++
    [Request.mk Method.GET (API ++ "/workspaces") Body.empty] }
  let s2 :=
    match resp with
    | HttpResult.ok data => { s1 with workspaces := data }
    | HttpResult.fail _ => { s1 with toasts := s1.toasts ++ [Toast.error "Failed to load workspaces"] }
  { s2 with loading := false }

/-- Body of `handleJoin`.  `resp` is the outcome of the awaited POST (its data
`none` when `response.data` is null, in which case reading `.message` throws
inside the `try`); `wsResp` is the outcome of the `fetchWorkspaces()` started
after a success. -/
def handleJoin (API : String) (s : State) (resp : HttpResult (Option JoinData))
    (wsResp : HttpResult (List Workspace)) : State :=
  let s1 := { s with joining := true }
  let s2 := { s1 with requests := s1.requests ++
    [Request.mk Method.POST (API ++ "/workspaces/join")
      (Body.json [("invite_code", s1.inviteCode)])] }
  let s3 :=
    match resp with
    | HttpResult.ok (some data) =>
      let s' := { s2 with toasts := s2.toasts ++ [Toast.success data.message],
                          joinOpen := false, inviteCode := "" }
      fetchWorkspaces API s' wsResp
    | HttpResult.ok none =>
      { s2 with toasts := s2.toasts ++ [Toast.error (orDefault none "Failed to join workspace")] }
    | HttpResult.fail detail =>
      { s2 with toasts := s2.toasts ++ [Toast.error (orDefault detail "Failed to join workspace")] }
  { s3 with joining := false }

/-- User and environment events of the component. -/
inductive Event
  /-- The mount effect `fetchWorkspaces()`. -/
  | mount (wsResp : HttpResult (List Workspace))
  /-- The dialog's `onOpenChange` (trigger, empty-list button, dismissal). -/
  | setJoinOpen (b : Bool)
  /-- The invite-code input's `onChange` with `e.target.value = v`. -/
  | changeInviteCode (v : String)
  /-- The form's `onSubmit`. -/
  | submitForm (resp : HttpResult (Option JoinData)) (wsResp : HttpResult (List Workspace))

/-- One event applied to a state; `toUpperCase` is the runtime's
`String.prototype.toUpperCase`.  An event whose control is not rendered leaves
the state unchanged. -/
def step (toUpperCase : String → String) (API : String) (s : State) : Event → State
  | Event.mount wsResp => fetchWorkspaces API s wsResp
  | Event.setJoinOpen b => if !s.loading then { s with joinOpen := b } else s
  | Event.changeInviteCode v =>
    if !s.loading && s.joinOpen then { s with inviteCode := toUpperCase v } else s
  | Event.submitForm resp wsResp =>
    if !s.loading && s.joinOpen then handleJoin API s resp wsResp else s

/-- The state reached from `s` by a sequence of events. -/
def runFrom (toUpperCase : String → String) (API : String) (s : State) (evs : List Event) : State :=
  evs.foldl (step toUpperCase API) s

/-- The state reached from the initial state. -/
def run (toUpperCase : String → String) (API : String) (evs : List Event) : State :=
  runFrom toUpperCase API init evs

/-- The values of `invite_code` carried by the join requests of a log. -/
def postedInviteCodes (API : String) (requests : List Request) : List String :=
  requests.filterMap (fun r =>
    if r.method = Method.POST ∧ r.url = API ++ "/workspaces/join" then
      match r.body with
      | Body.json [("invite_code", code)] => some code
      | _ => none
    else none)

/-- Upper-casing of one of the letters `a`..`z`; other characters are kept. -/
def asciiUpperChar (c : Char) : Char :=
  if 'a' ≤ c ∧ c ≤ 'z' then Char.ofNat (c.toNat - 32) else c

/-- Upper-casing of the letters `a`..`z` only, the restriction of
`toUpperCase` to ASCII. -/
def asciiUpper (s : String) : String :=
  String.mk (s.data.map asciiUpperChar)

/-- The invariant of the join form: the stored invite code is a fixed point of
`toUpperCase`, and so is every invite code posted so far. -/
def Inv (toUpperCase : String → String) (API : String) (s : State) : Prop :=
  toUpperCase s.inviteCode = s.inviteCode ∧
  ∀ code ∈ postedInviteCodes API s.requests, toUpperCase code = code

end JoinTab

/-! ## `pages/StudentDashboard.js` -/

namespace StudentDashboard

/-- A learning material as listed by `GET /materials`. -/
structure Material where
  id : String
  title : String
  type : String
  filename : String
  file_path : String
  deriving DecidableEq, Repr

/-- A course-wide task as listed by `GET /tasks`. -/
structure SimpleTask where
  id : String
  title : String
  completed : Bool
  deriving DecidableEq, Repr

/-- The `useState` cells of the page, with the request and toast logs. -/
structure State where
  materials : List Material
  tasks : List SimpleTask
  loading : Bool
  requests : List Request
  toasts : List Toast
  deriving DecidableEq, Repr

/-- Initial values of the `useState` cells. -/
def init : State :=
  { materials := [], tasks := [], loading := true, requests := [], toasts := [] }

/-- Body of `fetchData`: both GETs are issued; `resp` is the outcome of the
`Promise.all` over them. -/
def fetchData (API : String) (s : State) (resp : HttpResult (List Material × List SimpleTask)) :
    State :=
  let s1 := { s with requests := s.requests ++
    [Request.mk Method.GET (API ++ "/materials") Body.empty,
     Request.mk Method.GET (API ++ "/tasks") Body.empty] }
  let s2 :=
    match resp with
    | HttpResult.ok (materials, tasks) => { s1 with materials := materials, tasks := tasks }
    | HttpResult.fail _ => { s1 with toasts := s1.toasts ++ [Toast.error "Failed to fetch data"] }
  { s2 with loading := false }

/-- Body of `toggleTaskCompletion(taskId, completed)`.  `resp` is the outcome
of the awaited DELETE or POST, `dataResp` that of the `fetchData()` started
after a success. -/
def toggleTaskCompletion (API : String) (s : State) (taskId : String) (completed : Bool)
    (resp : HttpResult Unit) (dataResp : HttpResult (List Material × List SimpleTask)) : State :=
  let url := API ++ "/tasks/" ++ taskId ++ "/complete"
  let s1 := { s with requests := s.requests ++
    [Request.mk (if completed then Method.DELETE else Method.POST) url Body.empty] }
  match resp with
  | HttpResult.ok _ =>
    let s2 := { s1 with toasts := s1.toasts ++
      [Toast.success (some (if completed then "Task marked as incomplete"
                            else "Task marked as complete!"))] }
    fetchData API s2 dataResp
  | HttpResult.fail detail =>
    { s1 with toasts := s1.toasts ++ [Toast.error (orDefault detail "Failed to update task")] }

/-- The requests to `url` that a handler added to the log between the states
`s` and `s'`. -/
def requestsTo (url : String) (s s' : State) : List Request :=
  (s'.requests.drop s.requests.length).filter (fun r => r.url == url)

end StudentDashboard

/-! ## `components/student/StudentLeaderboardTab.js` -/

namespace StudentLeaderboard

/-- One entry of `myStats.recent_activities`. -/
structure Activity where
  description : String
  points : Int
  timestamp : String
  deriving DecidableEq, Repr

/-- The object returned by `GET /leaderboard/my-stats`. -/
structure MyStats where
  rank : Int
  total_points : Int
  tasks_completed : Nat
  events_attended : Nat
  task_completion_rate : Nat
  recent_activities : List Activity
  deriving DecidableEq, Repr

/-- One row returned by `GET /leaderboard/top-performers`. -/
structure Performer where
  id : String
  user_id : String
  user_name : String
  section_ : Option String
  rank : Int
  total_points : Int
  tasks_completed : Nat
  events_attended : Nat
  task_completion_rate : Nat
  rank_change : Int
  deriving DecidableEq, Repr

/-- The `useState` cells of the component, with the request and toast logs. -/
structure State where
  myStats : Option MyStats
  topPerformers : List Performer
  loading : Bool
  requests : List Request
  toasts : List Toast
  deriving DecidableEq, Repr

/-- Initial values of the `useState` cells. -/
def init : State :=
  { myStats := none, topPerformers := [], loading := false, requests := [], toasts := [] }

/-- Body of `fetchLeaderboardData`: both GETs are issued; `resp` is the outcome
of the `Promise.all` over them. -/
def fetchLeaderboardData (API : String) (s : State)
    (resp : HttpResult (MyStats × List Performer)) : State :=
  let s1 := { s with loading := true }
  let s2 := { s1 with requests := s1.requests ++
    [Request.mk Method.GET (API ++ "/leaderboard/my-stats") Body.empty,
     Request.mk Method.GET (API ++ "/leaderboard/top-performers") Body.empty] }
  let s3 :=
    match resp with
    | HttpResult.ok (stats, top) => { s2 with myStats := some stats, topPerformers := top }
    | HttpResult.fail _ =>
      { s2 with toasts := s2.toasts ++ [Toast.error "Failed to fetch leaderboard data"] }
  { s3 with loading := false }

/-- The number rendered above "Total Points" (`{myStats.total_points}`), when
the "My Stats" card is rendered at all (`myStats && ...`, not loading). -/
def totalPointsShown (s : State) : Option Int :=
  if s.loading then none else s.myStats.map (fun stats => stats.total_points)

end StudentLeaderboard

/-! ## Observations and invariants used in the statements -/

namespace StudentTasks

/-- The POST requests that a handler added to the log between the states `s`
and `s'`. -/
def submissionsSent (s s' : State) : List Request :=
  (s'.requests.drop s.requests.length).filter (fun r => r.method == Method.POST)

/-- The invariant of the component: an open submit dialog has a selected
task, and the selected task was offered the submit action when it was chosen. -/
def Inv (s : State) : Prop :=
  (s.submitOpen = true → s.selectedTask ≠ none) ∧
  ∀ t, s.selectedTask = some t →
    t.submission_status = some "not_submitted" ∨ t.submission_status = some "rejected"

end StudentTasks

namespace AdminTasks

/-- The POST requests that a handler added to the log between the states `s`
and `s'`. -/
def postsSent (s s' : State) : List Request :=
  (s'.requests.drop s.requests.length).filter (fun r => r.method == Method.POST)

/-- The invariant of the component: an open review dialog has a selected
submission, and the selected submission was pending when it was chosen. -/
def Inv (s : State) : Prop :=
  (s.reviewOpen = true → s.selectedSubmission ≠ none) ∧
  ∀ sub, s.selectedSubmission = some sub → sub.status = some "pending"

end AdminTasks

/-! ## The engine behind the REST API

The server that answers the requests above is not part of the sources; the
definitions of this section follow the specification of the engine. -/

namespace Engine

/-- Modelled from the spec: the error taxonomy of the engine (section 7); the
server is not among the sources. -/
inductive EngineError
  | ValidationError
  | NotFoundError
  | ConflictError
  | PermissionError
  deriving DecidableEq, Repr

/-- Modelled from the spec: the part of a stored `Workspace` that the invite
registry uses (section 3); the server is not among the sources. -/
structure WorkspaceRecord where
  id : String
  invite_code : String
  owner_id : String
  deriving DecidableEq, Repr

/-- Modelled from the spec: a `Membership` record, the pair (workspace_id,
student_id) with `joined_at` (section 3); the server is not among the sources. -/
structure Membership where
  workspace_id : String
  student_id : String
  joined_at : Nat
  deriving DecidableEq, Repr

/-- Modelled from the spec: the state of the Workspace Membership and Invite
Registry (section 4.5); the server is not among the sources. -/
structure Registry where
  workspaces : List WorkspaceRecord
  memberships : List Membership
  deriving DecidableEq, Repr

/-- Modelled from the spec: `join(inviteCode, student) → Membership` (section
4.5), whose server code is not among the sources: it fails with
`NotFoundError` if no workspace has that code (exact match on the stored code),
returns the existing record and leaves the registry as it is if the student is
already a member, and otherwise appends one record stamped `now`. -/
def join (reg : Registry) (inviteCode : String) (student : String) (now : Nat) :
    Except EngineError (Membership × Registry) :=
  match reg.workspaces.find? (fun w => w.invite_code == inviteCode) with
  | none => Except.error EngineError.NotFoundError
  | some w =>
    match reg.memberships.find? (fun m => m.workspace_id == w.id && m.student_id == student) with
    | some m => Except.ok (m, reg)
    | none =>
      let m : Membership := { workspace_id := w.id, student_id := student, joined_at := now }
      Except.ok (m, { reg with memberships := reg.memberships ++ [m] })

/-- The number of `Membership` records of a (workspace, student) pair. -/
def membershipCount (reg : Registry) (workspace : String) (student : String) : Nat :=
  (reg.memberships.filter
    (fun m => m.workspace_id == workspace && m.student_id == student)).length

/-- The invariant "uniqueness per pair" of `Membership` (section 3). -/
def Registry.uniquePerPair (reg : Registry) : Prop :=
  ∀ workspace student, membershipCount reg workspace student ≤ 1

/-- Modelled from the spec: the `reason` enumeration of a `PointLedgerEntry`
(section 3); the server is not among the sources. -/
inductive Reason
  | task_on_time
  | task_late
  | task_missed
  | event_attended
  | event_won
  deriving DecidableEq, Repr

/-- Modelled from the spec: a `PointLedgerEntry` (section 3); the server is
not among the sources. -/
structure PointLedgerEntry where
  id : Nat
  student_id : String
  delta : Int
  reason : Reason
  description : String
  timestamp : Nat
  deriving DecidableEq, Repr

/-- Modelled from the spec: the Point Ledger, an append-only log (section
4.3); the server is not among the sources. -/
abbrev Ledger := List PointLedgerEntry

/-- Modelled from the spec: `award(student, reason, delta, description)`
(section 4.3), whose server code is not among the sources: a pure append.  The
failure on an invalid student or reason is outside this model (the reason is
typed and the ledger does not know the set of students). -/
def award (ledger : Ledger) (student : String) (reason : Reason) (delta : Int)
    (description : String) (timestamp : Nat) : Ledger :=
  ledger ++ [{ id := ledger.length, student_id := student, delta := delta, reason := reason,
               description := description, timestamp := timestamp }]

/-- The entries of one student, in ledger order. -/
def entriesOf (ledger : Ledger) (student : String) : Ledger :=
  ledger.filter (fun e => e.student_id == student)

/-- Modelled from the spec: `total_points` of a student's
`LeaderboardSnapshot`, "computed as a fold (sum) over a student's entries,
never cached/stored independently" (sections 3, 4.3, 4.4); the server is not
among the sources. -/
def totalPoints (ledger : Ledger) (student : String) : Int :=
  ledger.foldl (fun acc e => if e.student_id == student then acc + e.delta else acc) 0

/-- Modelled from the spec: the point values of section 6 ("fixed policy
constants"): task on-time +10, task late -5, task missed -10, event attended
+20, event won +30; the server is not among the sources. -/
def pointsFor : Reason → Int
  | Reason.task_on_time => 10
  | Reason.task_late => -5
  | Reason.task_missed => -10
  | Reason.event_attended => 20
  | Reason.event_won => 30

/-! ### Event attendance -/

/-- Modelled from the spec: what `markAttendance` works on, the (event,
student) pairs already marked (the `attending_user_ids` of the events, section
3) and the point ledger; the server is not among the sources. -/
structure AttendanceState where
  attendance : List (String × String)
  ledger : Ledger
  deriving DecidableEq, Repr

/-- Modelled from the spec: the treatment of one student by `markAttendance`
(section 6, "idempotent per (event, student)"), whose server code is not among
the sources: a pair already marked changes nothing, a new pair is recorded and
awarded `event_attended`. -/
def markOne (eventId : String) (now : Nat) (st : AttendanceState) (student : String) :
    AttendanceState :=
  if st.attendance.contains (eventId, student) then st
  else
    { attendance := st.attendance ++ [(eventId, student)],
      ledger := award st.ledger student Reason.event_attended (pointsFor Reason.event_attended)
        "Event attendance" now }

/-- Modelled from the spec: `POST markAttendance(eventId, studentIds[])`
(section 6), whose server code is not among the sources: it awards
`event_attended` (+20) per student, idempotently per (event, student). -/
def markAttendance (st : AttendanceState) (eventId : String) (studentIds : List String)
    (now : Nat) : AttendanceState :=
  studentIds.foldl (markOne eventId now) st

/-- Modelled from the spec: `events_attended`, the number of a student's ledger
entries with reason `event_attended` (section 4.4); the server is not among
the sources. -/
def attendedCount (ledger : Ledger) (student : String) : Nat :=
  ((entriesOf ledger student).filter (fun e => e.reason == Reason.event_attended)).length

/-! ### Review of submissions -/

/-- Modelled from the spec: the states of a stored `Submission` (section 3);
the server is not among the sources. -/
inductive SubmissionStatus
  | pending
  | approved
  | rejected
  deriving DecidableEq, Repr

/-- Modelled from the spec: the decision passed to `review` (section 4.1); the
server is not among the sources. -/
inductive ReviewDecision
  | approve
  | reject
  deriving DecidableEq, Repr

/-- Modelled from the spec: a stored `Task` (section 3); the server is not
among the sources. -/
structure TaskRecord where
  id : String
  workspace_id : Option String
  deadline : Nat
  submission_type : String
  deriving DecidableEq, Repr

/-- Modelled from the spec: a stored `Submission` (section 3); the server is
not among the sources. -/
structure SubmissionRecord where
  id : String
  task_id : String
  student_id : String
  submission_type : String
  payload : String
  status : SubmissionStatus
  review_comment : Option String
  submitted_at : Nat
  reviewed_at : Option Nat
  deriving DecidableEq, Repr

/-- Modelled from the spec: what `review` works on: workspaces (for the
owner), tasks (for the deadline), submissions and the point ledger; the server
is not among the sources. -/
structure ReviewState where
  workspaces : List WorkspaceRecord
  tasks : List TaskRecord
  submissions : List SubmissionRecord
  ledger : Ledger
  deriving DecidableEq, Repr

/-- Modelled from the spec: `classify` (section 4.2) for a submission that
exists, whose server code is not among the sources: `task_on_time` if it was
made at or before the deadline, `task_late` if after. -/
def classifySubmission (deadline submitted_at : Nat) : Reason :=
  if submitted_at ≤ deadline then Reason.task_on_time else Reason.task_late

/-- Modelled from the spec: the owner of the workspace of a task (section 3:
a workspace is owned by one teacher), if the task has a workspace that exists;
the server is not among the sources. -/
def ownerOf (st : ReviewState) (task : TaskRecord) : Option String :=
  match task.workspace_id with
  | none => none
  | some w => (st.workspaces.find? (fun x => x.id == w)).map (fun x => x.owner_id)

/-- Modelled from the spec: `review(submission, decision, comment?)` (section
4.1), whose server code is not among the sources.  An unknown submission or
task gives `NotFoundError`, a reviewer who is not the owner of the workspace
`PermissionError`; only a pending submission can be reviewed (the spec names
no error for the other states, this model answers `ConflictError`).
Approval stores the decision and appends one ledger entry, `task_on_time` or
`task_late` by `submitted_at` against the deadline; rejection stores the
decision and leaves the ledger as it is. -/
def review (st : ReviewState) (reviewer submissionId : String) (decision : ReviewDecision)
    (comment : Option String) (now : Nat) : Except EngineError ReviewState :=
  match st.submissions.find? (fun x => x.id == submissionId) with
  | none => Except.error EngineError.NotFoundError
  | some sub =>
    match st.tasks.find? (fun t => t.id == sub.task_id) with
    | none => Except.error EngineError.NotFoundError
    | some task =>
      if ownerOf st task ≠ some reviewer then Except.error EngineError.PermissionError
      else if sub.status ≠ SubmissionStatus.pending then Except.error EngineError.ConflictError
      else
        let reviewed : SubmissionRecord :=
          { sub with
            status := (match decision with
              | ReviewDecision.approve => SubmissionStatus.approved
              | ReviewDecision.reject => SubmissionStatus.rejected),
            review_comment := comment, reviewed_at := some now }
        let ledger : Ledger :=
          match decision with
          | ReviewDecision.approve =>
            award st.ledger sub.student_id (classifySubmission task.deadline sub.submitted_at)
              (pointsFor (classifySubmission task.deadline sub.submitted_at)) "Task reviewed" now
          | ReviewDecision.reject => st.ledger
        Except.ok
          { st with
            submissions := st.submissions.map (fun x => if x.id == submissionId then reviewed else x),
            ledger := ledger }

/-! ### Standings -/

/-- Modelled from the spec: a student as the ranking engine sees one, with the
department and section that define the scope (section 4.4); the server is not
among the sources. -/
structure StudentRecord where
  id : String
  name : String
  department : String
  section_ : Option String
  deriving DecidableEq, Repr

/-- Modelled from the spec: the `scope: {department, section?}` of
`computeStandings` (section 4.4); the server is not among the sources. -/
structure Scope where
  department : String
  section_ : Option String
  deriving DecidableEq, Repr

/-- Modelled from the spec: whether a student belongs to a scope, that is to
its department and, when the scope names a section, to that section (section
4.4); the server is not among the sources. -/
def inScope (scope : Scope) (st : StudentRecord) : Bool :=
  st.department == scope.department &&
    (match scope.section_ with
     | none => true
     | some sec => st.section_ == some sec)

/-- Modelled from the spec: what `computeStandings` reads (section 4.4): the
students, the point ledger, per student the number of completed tasks
(approved submissions plus simple-task completions) and of assigned tasks, and
the rank in the previously persisted snapshot; the server is not among the
sources. -/
structure StandingsInput where
  students : List StudentRecord
  ledger : Ledger
  tasksCompleted : String → Nat
  tasksAssigned : String → Nat
  previousRank : String → Option Nat

/-- Modelled from the spec: a `LeaderboardSnapshot` (section 3); the server is
not among the sources. -/
structure LeaderboardSnapshot where
  student_id : String
  total_points : Int
  tasks_completed : Nat
  events_attended : Nat
  task_completion_rate : Nat
  rank : Nat
  rank_change : Int
  deriving DecidableEq, Repr

/-- Modelled from the spec: the "earliest timestamp of first point-earning
entry" of a student (section 4.4), the least timestamp among the entries with
a positive delta, `none` when there is none; the server is not among the
sources. -/
def firstEarned (ledger : Ledger) (student : String) : Option Nat :=
  (((entriesOf ledger student).filter (fun e => decide (0 < e.delta))).map
    (fun e => e.timestamp)).min?

/-- Modelled from the spec: whether one first point-earning time is strictly
earlier than another (section 4.4); the spec does not place a student without
a point-earning entry, this model puts such a student after every student
with one.  The server is not among the sources. -/
def earlier : Option Nat → Option Nat → Bool
  | some x, some y => decide (x < y)
  | some _, none => true
  | none, _ => false

/-- Modelled from the spec: the order of the standings (section 4.4), whose
server code is not among the sources: descending by `total_points`, ties
broken by the earlier first point-earning entry, then by the lower student
identifier. -/
def standsBefore (ledger : Ledger) (a b : String) : Bool :=
  decide (totalPoints ledger b < totalPoints ledger a) ||
    (decide (totalPoints ledger a = totalPoints ledger b) &&
      (earlier (firstEarned ledger a) (firstEarned ledger b) ||
        (decide (firstEarned ledger a = firstEarned ledger b) && decide (a ≤ b))))

/-- Modelled from the spec: `task_completion_rate = tasks_completed /
tasks_assigned * 100`, 0 if no task is assigned (section 4.4), as a whole
percentage; the server is not among the sources. -/
def taskCompletionRate (completed assigned : Nat) : Nat :=
  if assigned = 0 then 0 else completed * 100 / assigned

/-- Modelled from the spec: the snapshot of one student at a given rank
(sections 3 and 4.4); `rank_change` is the previous rank minus the current one
and 0 for a student not ranked before.  The server is not among the sources. -/
def snapshot (input : StandingsInput) (student : String) (rank : Nat) : LeaderboardSnapshot :=
  { student_id := student,
    total_points := totalPoints input.ledger student,
    tasks_completed := input.tasksCompleted student,
    events_attended := attendedCount input.ledger student,
    task_completion_rate :=
      taskCompletionRate (input.tasksCompleted student) (input.tasksAssigned student),
    rank := rank,
    rank_change :=
      match input.previousRank student with
      | some previous => (previous : Int) - (rank : Int)
      | none => 0 }

/-- Modelled from the spec: "Assign `rank` = 1-based position" (section 4.4),
here from position `start` on; the server is not among the sources. -/
def assignRanks (input : StandingsInput) : Nat → List String → List LeaderboardSnapshot
  | _, [] => []
  | start, student :: rest => snapshot input student start :: assignRanks input (start + 1) rest

/-- Modelled from the spec: "gather all students in scope" (section 4.4), as
identifiers in the order of the input; the server is not among the sources. -/
def studentsInScope (input : StandingsInput) (scope : Scope) : List String :=
  (input.students.filter (inScope scope)).map (fun st => st.id)

/-- Modelled from the spec: `computeStandings(scope)` (section 4.4), whose
server code is not among the sources: the students of the scope, sorted by
`standsBefore`, each with its snapshot and its 1-based position as rank. -/
def computeStandings (input : StandingsInput) (scope : Scope) : List LeaderboardSnapshot :=
  assignRanks input 1
    ((studentsInScope input scope).insertionSort (fun a b => standsBefore input.ledger a b = true))

/-- Modelled from the spec: `top-performers`, "the first N (N=10) of this
ordering, scoped to the student's own department" (section 4.4); the server
is not among the sources. -/
def topPerformers (input : StandingsInput) (department : String) : List LeaderboardSnapshot :=
  (computeStandings input { department := department, section_ := none }).take 10

/-- The order of two rows of the standings, read off the rows: more points
first, then the earlier first point-earning entry, then the lower student
identifier. -/
def rowBefore (ledger : Ledger) (a b : LeaderboardSnapshot) : Prop :=
  b.total_points < a.total_points ∨
    (a.total_points = b.total_points ∧
      (earlier (firstEarned ledger a.student_id) (firstEarned ledger b.student_id) = true ∨
        (firstEarned ledger a.student_id = firstEarned ledger b.student_id ∧
          a.student_id ≤ b.student_id)))

end Engine

/-! ## Rank indicators of the two leaderboards -/

/-- What `getRankChangeIndicator` renders: the trend icon (if any), the colour
class and the text. -/
structure TrendIndicator where
  icon : Option String
  className : String
  text : String
  deriving DecidableEq, Repr

namespace StudentLeaderboard

/-- The function `getRankChangeIndicator` of the student leaderboard. -/
def getRankChangeIndicator (rankChange : Int) : TrendIndicator :=
  if rankChange > 0 then
    { icon := some "TrendingUp", className := "text-green-600", text := "+" ++ toString rankChange }
  else if rankChange < 0 then
    { icon := some "TrendingDown", className := "text-red-600", text := toString rankChange }
  else
    { icon := none, className := "text-gray-400", text := "New" }

/-- The rows rendered under "Top Performers" (`topPerformers.map(...)`); while
`loading` the whole tab is replaced by the spinner. -/
def topPerformersShown (s : State) : List Performer :=
  if s.loading then [] else s.topPerformers

end StudentLeaderboard

/-! ## `components/departmentAdmin/LeaderboardTab.js` -/

namespace DeptLeaderboard

/-- The `useState` cells of the component, with the request and toast logs.
The rows of both lists have the shape of `StudentLeaderboard.Performer`. -/
structure State where
  leaderboard : List StudentLeaderboard.Performer
  loading : Bool
  selectedSection : String
  topPerformers : List StudentLeaderboard.Performer
  requests : List Request
  toasts : List Toast
  deriving DecidableEq, Repr

/-- Initial values of the `useState` cells. -/
def init : State :=
  { leaderboard := [], loading := false, selectedSection := "All", topPerformers := [],
    requests := [], toasts := [] }

/-- The constant `SECTIONS`. -/
def SECTIONS : List String := ["All", "A", "B", "C", "D"]

/-- Body of `fetchLeaderboard` for a user of department `department`.  The
second request is awaited after the first, so it is issued only when the first
has succeeded; `resp` and `topResp` are the outcomes of the two. -/
def fetchLeaderboard (API : String) (department : String) (s : State)
    (resp topResp : HttpResult (List StudentLeaderboard.Performer)) : State :=
  let s1 := { s with loading := true }
  let params : List (String × String) :=
    [("department", department), ("limit", "100")] ++
      (if s1.selectedSection ≠ "All" then [("section", s1.selectedSection)] else [])
  let s2 := { s1 with requests := s1.requests ++
    [Request.mk Method.GET (API ++ "/leaderboard") (Body.params params)] }
  let s3 :=
    match resp with
    | HttpResult.ok data =>
      let s' := { s2 with leaderboard := data }
      let s'' := { s' with requests := s'.requests ++
        [Request.mk Method.GET (API ++ "/leaderboard/top-performers")
          (Body.params [("department", department)])] }
      match topResp with
      | HttpResult.ok top => { s'' with topPerformers := top }
      | HttpResult.fail _ =>
        { s'' with toasts := s''.toasts ++ [Toast.error "Failed to fetch leaderboard"] }
    | HttpResult.fail _ =>
      { s2 with toasts := s2.toasts ++ [Toast.error "Failed to fetch leaderboard"] }
  { s3 with loading := false }

/-- The function `getRankChangeIndicator` of the department leaderboard. -/
def getRankChangeIndicator (rankChange : Int) : TrendIndicator :=
  if rankChange > 0 then
    { icon := some "TrendingUp", className := "text-green-600", text := "+" ++ toString rankChange }
  else if rankChange < 0 then
    { icon := some "TrendingDown", className := "text-red-600", text := toString rankChange }
  else
    { icon := none, className := "text-gray-400", text := "-" }

/-- The rows of the "All Rankings" table (`leaderboard.map(...)`), each shown
with the `rank` it carries; while `loading` the spinner is shown instead. -/
def rowsShown (s : State) : List StudentLeaderboard.Performer :=
  if s.loading then [] else s.leaderboard

/-- The cards of the "Top 3 Performers" strip. -/
def topThreeShown (s : State) : List StudentLeaderboard.Performer :=
  if s.topPerformers.length ≥ 3 then s.topPerformers.take 3 else []

end DeptLeaderboard

/-! ## Department updates as received from the server -/

/-- A date string of a JSON document together with the time value (in
milliseconds) of `new Date(text)`, `none` for an invalid date. -/
structure DateString where
  text : String
  time : Option Int
  deriving DecidableEq, Repr

/-- An element of `GET /department-updates` and of its `calendar` variant.
A JSON `null` (or absent) field is `none`. -/
structure DepartmentUpdate where
  id : String
  title : String
  description : String
  category : String
  event_date : Option DateString
  visible_to_sections : Option (List String)
  interested_count : Option Nat
  attending_count : Option Nat
  is_interested : Bool
  is_attending : Bool
  interested_users : Option (List String)
  attending_users : Option (List String)
  created_by_name : String
  created_at : String
  deriving DecidableEq, Repr

/-- JavaScript truthiness of `update.event_date`: neither null nor the empty
string. -/
def DepartmentUpdate.hasEventDate (u : DepartmentUpdate) : Bool :=
  match u.event_date with
  | some d => d.text != ""
  | none => false

/-- The time value of `new Date(update.event_date)`: `new Date(null)` is the
epoch, an unparsable string gives an invalid date. -/
def DepartmentUpdate.eventTime (u : DepartmentUpdate) : Option Int :=
  match u.event_date with
  | some d => d.time
  | none => some 0

/-! ## `components/student/DepartmentFeedTab.js` -/

namespace DepartmentFeed

/-- The `response.data` of the interest request. -/
structure InterestData where
  marked : Bool
  deriving DecidableEq, Repr

/-- The `useState` cells of the component, with the request and toast logs and
the messages written with `console.error`. -/
structure State where
  updates : List DepartmentUpdate
  loading : Bool
  selectedCategory : String
  upcomingEvents : List DepartmentUpdate
  requests : List Request
  toasts : List Toast
  consoleErrors : List String
  deriving DecidableEq, Repr

/-- Initial values of the `useState` cells. -/
def init : State :=
  { updates := [], loading := false, selectedCategory := "All", upcomingEvents := [],
    requests := [], toasts := [], consoleErrors := [] }

/-- Body of `fetchUpdates`. -/
def fetchUpdates (API : String) (s : State) (resp : HttpResult (List DepartmentUpdate)) : State :=
  let s1 := { s with loading := true }
  let params : List (String × String) :=
    if s1.selectedCategory ≠ "All" then [("category", s1.selectedCategory)] else []
  let s2 := { s1 with requests := s1.requests ++
    [Request.mk Method.GET (API ++ "/department-updates") (Body.params params)] }
  let s3 :=
    match resp with
    | HttpResult.ok data => { s2 with updates := data }
    | HttpResult.fail _ => { s2 with toasts := s2.toasts ++ [Toast.error "Failed to fetch updates"] }
  { s3 with loading := false }

/-- The predicate `new Date(event.event_date) > now` of `fetchUpcomingEvents`. -/
def isUpcoming (now : Int) (event : DepartmentUpdate) : Bool :=
  match event.eventTime with
  | some t => decide (t > now)
  | none => false

/-- Body of `fetchUpcomingEvents` run at time `now`: the failure of the
request is written to the console and nothing else happens. -/
def fetchUpcomingEvents (API : String) (s : State) (now : Int)
    (resp : HttpResult (List DepartmentUpdate)) : State :=
  let s1 := { s with requests := s.requests ++
    [Request.mk Method.GET (API ++ "/department-updates/calendar") Body.empty] }
  match resp with
  | HttpResult.ok data => { s1 with upcomingEvents := (data.filter (isUpcoming now)).take 5 }
  | HttpResult.fail _ =>
    { s1 with consoleErrors := s1.consoleErrors ++ ["Failed to fetch upcoming events"] }

/-- Body of `handleInterest(updateId, action)`.  `resp` is the outcome of the
POST (its data `none` when `response.data` is null, in which case reading
`.marked` throws inside the `try`); the other two are the outcomes of the
refetches started after a success. -/
def handleInterest (API : String) (s : State) (updateId action : String) (now : Int)
    (resp : HttpResult (Option InterestData))
    (updatesResp calendarResp : HttpResult (List DepartmentUpdate)) : State :=
  let s1 := { s with requests := s.requests ++
    [Request.mk Method.POST
      (API ++ "/department-updates/" ++ updateId ++ "/interest?action=" ++ action) Body.empty] }
  match resp with
  | HttpResult.ok (some data) =>
    let s2 := { s1 with toasts := s1.toasts ++
      [Toast.success (some (if data.marked then "Marked as " ++ action ++ "!"
                            else "Unmarked as " ++ action))] }
    fetchUpcomingEvents API (fetchUpdates API s2 updatesResp) now calendarResp
  | HttpResult.ok none =>
    { s1 with toasts := s1.toasts ++ [Toast.error "Failed to update interest"] }
  | HttpResult.fail _ =>
    { s1 with toasts := s1.toasts ++ [Toast.error "Failed to update interest"] }

end DepartmentFeed

/-! ## `components/departmentAdmin/EventAttendanceTab.js` -/

namespace EventAttendance

/-- An element of the `students` list. -/
structure Student where
  id : String
  name : String
  email : String
  section_ : Option String
  deriving DecidableEq, Repr

/-- The `useState` cells of the component, with the request and toast logs. -/
structure State where
  updates : List DepartmentUpdate
  students : List Student
  selectedUpdate : Option DepartmentUpdate
  selectedStudents : List String
  searchQuery : String
  loading : Bool
  dialogOpen : Bool
  requests : List Request
  toasts : List Toast
  deriving DecidableEq, Repr

/-- Initial values of the `useState` cells. -/
def init : State :=
  { updates := [], students := [], selectedUpdate := none, selectedStudents := [],
    searchQuery := "", loading := false, dialogOpen := false, requests := [], toasts := [] }

/-- Body of `fetchUpdates`: of the updates received, those with a truthy
`event_date` are stored. -/
def fetchUpdates (API : String) (s : State) (resp : HttpResult (List DepartmentUpdate)) : State :=
  let s1 := { s with loading := true }
  let s2 := { s1 with requests := s1.requests ++
    [Request.mk Method.GET (API ++ "/department-updates") Body.empty] }
  let s3 :=
    match resp with
    | HttpResult.ok data => { s2 with updates := data.filter (fun u => u.hasEventDate) }
    | HttpResult.fail _ => { s2 with toasts := s2.toasts ++ [Toast.error "Failed to fetch events"] }
  { s3 with loading := false }

/-- Body of `fetchStudents`: the computed `attendingIds` is not used, no
request is made, and the empty list is stored. -/
def fetchStudents (s : State) : State :=
  { s with students := [] }

/-- Body of `handleOpenDialog`. -/
def handleOpenDialog (s : State) (update : DepartmentUpdate) : State :=
  fetchStudents
    { s with selectedUpdate := some update, selectedStudents := [], searchQuery := "",
             dialogOpen := true }

/-- Body of `handleMarkAttendance`.  With a null `selectedUpdate` the URL
template throws inside the `try` before any request is made. -/
def handleMarkAttendance (API : String) (s : State) (resp : HttpResult Unit)
    (updatesResp : HttpResult (List DepartmentUpdate)) : State :=
  if s.selectedStudents.length = 0 then
    { s with toasts := s.toasts ++ [Toast.error "Please select at least one student"] }
  else
    let s1 := { s with loading := true }
    let s2 :=
      match s1.selectedUpdate with
      | none =>
        { s1 with toasts := s1.toasts ++ [Toast.error (orDefault none "Failed to mark attendance")] }
      | some update =>
        let s' := { s1 with requests := s1.requests ++
          [Request.mk Method.POST (API ++ "/leaderboard/mark-attendance/" ++ update.id)
            (Body.array s1.selectedStudents)] }
        match resp with
        | HttpResult.ok _ =>
          let s'' := { s' with
            toasts := s'.toasts ++ [Toast.success (some ("Attendance marked for " ++
              toString s'.selectedStudents.length ++ " student(s)"))],
            dialogOpen := false, selectedStudents := [] }
          fetchUpdates API s'' updatesResp
        | HttpResult.fail detail =>
          { s' with toasts := s'.toasts ++
            [Toast.error (orDefault detail "Failed to mark attendance")] }
    { s2 with loading := false }

/-- Body of `toggleStudent`. -/
def toggleStudent (s : State) (studentId : String) : State :=
  { s with selectedStudents :=
      if s.selectedStudents.contains studentId then
        s.selectedStudents.filter (fun id => id != studentId)
      else s.selectedStudents ++ [studentId] }

/-- Body of `toggleAllStudents`. -/
def toggleAllStudents (s : State) : State :=
  if s.selectedStudents.length = s.students.length then { s with selectedStudents := [] }
  else { s with selectedStudents := s.students.map (fun st => st.id) }

/-- The event cards rendered by the tab (`updates.map(...)`). -/
def eventsShown (s : State) : List DepartmentUpdate :=
  s.updates

end EventAttendance

/-! ## `components/departmentAdmin/DepartmentUpdatesTab.js` -/

namespace DepartmentUpdates

/-- The constant `CATEGORIES`. -/
def CATEGORIES : List String := ["Workshop", "Sports", "Club", "Announcement", "General"]

/-- The constant `SECTIONS`. -/
def SECTIONS : List String := ["A", "B", "C", "D"]

/-- The `formData` object. -/
structure FormData where
  title : String
  description : String
  category : String
  event_date : String
  visible_to_sections : List String
  deriving DecidableEq, Repr

/-- The empty form to which `formData` is initialised and reset. -/
def emptyForm : FormData :=
  { title := "", description := "", category := "General", event_date := "",
    visible_to_sections := [] }

/-- The `useState` cells of the component, with the request and toast logs. -/
structure State where
  updates : List DepartmentUpdate
  loading : Bool
  dialogOpen : Bool
  formData : FormData
  requests : List Request
  toasts : List Toast
  deriving DecidableEq, Repr

/-- Initial values of the `useState` cells. -/
def init : State :=
  { updates := [], loading := false, dialogOpen := false, formData := emptyForm,
    requests := [], toasts := [] }

/-- Body of `fetchUpdates`. -/
def fetchUpdates (API : String) (s : State) (resp : HttpResult (List DepartmentUpdate)) : State :=
  let s1 := { s with loading := true }
  let s2 := { s1 with requests := s1.requests ++
    [Request.mk Method.GET (API ++ "/department-updates") Body.empty] }
  let s3 :=
    match resp with
    | HttpResult.ok data => { s2 with updates := data }
    | HttpResult.fail _ => { s2 with toasts := s2.toasts ++ [Toast.error "Failed to fetch updates"] }
  { s3 with loading := false }

/-- The JSON body posted for a form. -/
def formBody (f : FormData) : Body :=
  Body.object
    [("title", JsonValue.str f.title), ("description", JsonValue.str f.description),
     ("category", JsonValue.str f.category), ("event_date", JsonValue.str f.event_date),
     ("visible_to_sections", JsonValue.arr f.visible_to_sections)]

/-- Body of `handleSubmit`. -/
def handleSubmit (API : String) (s : State) (resp : HttpResult Unit)
    (updatesResp : HttpResult (List DepartmentUpdate)) : State :=
  let s1 := { s with loading := true }
  let s2 := { s1 with requests := s1.requests ++
    [Request.mk Method.POST (API ++ "/department-updates") (formBody s1.formData)] }
  let s3 :=
    match resp with
    | HttpResult.ok _ =>
      let s' := { s2 with
        toasts := s2.toasts ++ [Toast.success (some "Update posted successfully!")],
        dialogOpen := false, formData := emptyForm }
      fetchUpdates API s' updatesResp
    | HttpResult.fail detail =>
      { s2 with toasts := s2.toasts ++ [Toast.error (orDefault detail "Failed to post update")] }
  { s3 with loading := false }

/-- Body of `handleDelete(updateId)`; `confirmed` is the answer of
`window.confirm`. -/
def handleDelete (API : String) (s : State) (updateId : String) (confirmed : Bool)
    (resp : HttpResult Unit) (updatesResp : HttpResult (List DepartmentUpdate)) : State :=
  if !confirmed then s
  else
    let s1 := { s with requests := s.requests ++
      [Request.mk Method.DELETE (API ++ "/department-updates/" ++ updateId) Body.empty] }
    match resp with
    | HttpResult.ok _ =>
      fetchUpdates API
        { s1 with toasts := s1.toasts ++ [Toast.success (some "Update deleted successfully")] }
        updatesResp
    | HttpResult.fail _ =>
      { s1 with toasts := s1.toasts ++ [Toast.error "Failed to delete update"] }

/-- The updater passed to `setFormData` by `toggleSection(section)`. -/
def toggleSectionForm (prev : FormData) (section_ : String) : FormData :=
  { prev with visible_to_sections :=
      if prev.visible_to_sections.contains section_ then
        prev.visible_to_sections.filter (fun s => s != section_)
      else prev.visible_to_sections ++ [section_] }

/-- Body of `toggleSection(section)`. -/
def toggleSection (s : State) (section_ : String) : State :=
  { s with formData := toggleSectionForm s.formData section_ }

/-- User and environment events of the component. -/
inductive Event
  /-- The mount effect `fetchUpdates()`. -/
  | mount (resp : HttpResult (List DepartmentUpdate))
  /-- The dialog's `onOpenChange` and the Cancel button. -/
  | setDialogOpen (b : Bool)
  /-- The title input's `onChange`. -/
  | setTitle (v : String)
  /-- The description input's `onChange`. -/
  | setDescription (v : String)
  /-- The category selector's `onValueChange`, with the `i`-th of `CATEGORIES`. -/
  | setCategory (i : Fin 5)
  /-- The event-date input's `onChange`. -/
  | setEventDate (v : String)
  /-- A click on the button of the `i`-th of `SECTIONS`. -/
  | clickSection (i : Fin 4)
  /-- The form's `onSubmit`. -/
  | submitForm (resp : HttpResult Unit) (updatesResp : HttpResult (List DepartmentUpdate))
  /-- A click on the delete button of the `i`-th update, with the answer of the
  confirmation. -/
  | clickDelete (i : Nat) (confirmed : Bool) (resp : HttpResult Unit)
      (updatesResp : HttpResult (List DepartmentUpdate))

/-- Whether the list of updates is rendered rather than the spinner or the
empty card. -/
def listShown (s : State) : Bool :=
  decide (s.updates ≠ [])

/-- One event applied to a state; an event whose control is not rendered
leaves the state unchanged. -/
def step (API : String) (s : State) : Event → State
  | Event.mount resp => fetchUpdates API s resp
  | Event.setDialogOpen b => { s with dialogOpen := b }
  | Event.setTitle v =>
    if s.dialogOpen then { s with formData := { s.formData with title := v } } else s
  | Event.setDescription v =>
    if s.dialogOpen then { s with formData := { s.formData with description := v } } else s
  | Event.setCategory i =>
    if s.dialogOpen then { s with formData := { s.formData with category := CATEGORIES.get i } }
    else s
  | Event.setEventDate v =>
    if s.dialogOpen then { s with formData := { s.formData with event_date := v } } else s
  | Event.clickSection i =>
    if s.dialogOpen then toggleSection s (SECTIONS.get i) else s
  | Event.submitForm resp updatesResp =>
    if s.dialogOpen then handleSubmit API s resp updatesResp else s
  | Event.clickDelete i confirmed resp updatesResp =>
    if listShown s then
      match s.updates.get? i with
      | some update => handleDelete API s update.id confirmed resp updatesResp
      | none => s
    else s

/-- The state reached from `s` by a sequence of events. -/
def runFrom (API : String) (s : State) (evs : List Event) : State :=
  evs.foldl (step API) s

/-- The state reached from the initial state. -/
def run (API : String) (evs : List Event) : State :=
  runFrom API init evs

/-- The invariant of the form: the selected sections are distinct labels of
`SECTIONS`. -/
def Inv (s : State) : Prop :=
  s.formData.visible_to_sections.Nodup ∧
  ∀ x ∈ s.formData.visible_to_sections, x ∈ SECTIONS

end DepartmentUpdates

/-! ## Event dates in `components/student/DepartmentFeedTab.js` -/

namespace DepartmentFeed

/-- What `formatEventDate` returns: `Today`, `Tomorrow`, `in N days`, or the
date formatted by `toLocaleDateString('en-US', ...)`, kept as the time value
that is formatted (`none` for an invalid date). -/
inductive EventDateText
  | today
  | tomorrow
  | inDays (n : Int)
  | localeDate (time : Option Int)
  deriving DecidableEq, Repr

/-- The string of an `EventDateText`, given the runtime's formatting of a
date. -/
def EventDateText.text (toLocaleDateString : Option Int → String) : EventDateText → String
  | EventDateText.today => "Today"
  | EventDateText.tomorrow => "Tomorrow"
  | EventDateText.inDays n => "in " ++ toString n ++ " days"
  | EventDateText.localeDate time => toLocaleDateString time

/-- The value `Math.ceil(diffTime / (1000 * 60 * 60 * 24))` for integer times
in milliseconds: the ceiling of `(date - now) / 86400000`. -/
def diffDays (date now : Int) : Int :=
  -((now - date) / 86400000)

/-- The function `formatEventDate` evaluated at time `now`.  For an invalid
date `diffDays` is NaN, every comparison fails and the (invalid) date is
formatted. -/
def formatEventDate (dateString : DateString) (now : Int) : EventDateText :=
  match dateString.time with
  | none => EventDateText.localeDate none
  | some date =>
    if diffDays date now = 0 then EventDateText.today
    else if diffDays date now = 1 then EventDateText.tomorrow
    else if diffDays date now < 7 then EventDateText.inDays (diffDays date now)
    else EventDateText.localeDate (some date)

/-- The text of the calendar badge of an update card. -/
inductive EventBadge
  | pastEvent
  | date (text : EventDateText)
  deriving DecidableEq, Repr

/-- The calendar badge of an update card rendered at time `now` (`isEvent &&
...`): none for an update without event date, `Past Event` when the date is
before `now`, the result of `formatEventDate` otherwise.  The two readings of
the clock during one render are taken to be equal. -/
def eventBadge (update : DepartmentUpdate) (now : Int) : Option EventBadge :=
  match update.event_date with
  | none => none
  | some d =>
    if d.text = "" then none
    else
      let isPast : Bool :=
        match d.time with
        | some t => decide (t < now)
        | none => false
      some (if isPast then EventBadge.pastEvent else EventBadge.date (formatEventDate d now))

end DepartmentFeed

/-! ## Navigation of the dashboards (`pages/*.js`) -/

/-- An entry of a `navItems` or `tabs` list. -/
structure NavItem where
  path : String
  label : String
  deriving DecidableEq, Repr

/-- A `<Route path=... element=... />` of a dashboard, with the name of the
component it renders. -/
structure Route where
  path : String
  element : String
  deriving DecidableEq, Repr

/-- The part of a location below a dashboard's base path, as the nested
`Routes` sees it: the base path itself is the index path `/`; a path outside
the base has none. -/
def relativePath (base path : String) : Option String :=
  if base.data.isPrefixOf path.data then
    some (if path.data.drop base.data.length = [] then "/"
          else String.mk (path.data.drop base.data.length))
  else none

/-- The route of a dashboard that a navigation entry leads to, if any. -/
def routeFor (base : String) (routes : List Route) (item : NavItem) : Option Route :=
  match relativePath base item.path with
  | some p => routes.find? (fun r => r.path == p)
  | none => none

namespace AdminDashboard

/-- The path under which the dashboard is mounted. -/
def base : String := "/admin"

/-- The constant `navItems`. -/
def navItems : List NavItem :=
  [{ path := "/admin", label := "Overview" },
   { path := "/admin/workspaces", label := "Workspaces" },
   { path := "/admin/materials", label := "Materials" },
   { path := "/admin/tasks", label := "Assignments" }]

/-- The routes declared inside `<Routes>`. -/
def routes : List Route :=
  [{ path := "/", element := "OverviewTab" },
   { path := "/materials", element := "MaterialsTab" },
   { path := "/tasks", element := "TasksTab" }]

end AdminDashboard

namespace StudentDashboard

/-- The path under which the dashboard is mounted. -/
def base : String := "/student"

/-- The constant `navItems`. -/
def navItems : List NavItem :=
  [{ path := "/student", label := "Workspaces" },
   { path := "/student/tasks", label := "Tasks & Submissions" },
   { path := "/student/materials", label := "Materials" }]

/-- The routes declared inside `<Routes>`. -/
def routes : List Route :=
  [{ path := "/", element := "WorkspaceJoinTab" },
   { path := "/tasks", element := "WorkspaceTasksTab" },
   { path := "/materials", element := "materials-section" }]

end StudentDashboard

namespace DepartmentAdminDashboard

/-- The path under which the dashboard is mounted. -/
def base : String := "/department-admin"

/-- The constant `tabs`. -/
def tabs : List NavItem :=
  [{ path := "/department-admin/updates", label := "Department Updates" },
   { path := "/department-admin/leaderboard", label := "Leaderboard" },
   { path := "/department-admin/attendance", label := "Event Attendance" }]

/-- The routes declared inside `<Routes>`. -/
def routes : List Route :=
  [{ path := "/", element := "Navigate to /department-admin/updates" },
   { path := "/updates", element := "DepartmentUpdatesTab" },
   { path := "/leaderboard", element := "LeaderboardTab" },
   { path := "/attendance", element := "EventAttendanceTab" }]

end DepartmentAdminDashboard

/-! ## The submission type of the create-task form -/

namespace AdminTasks

/-- The four values of `submission_type` that the create-task form offers. -/
def submissionTypes : List String := ["any", "image", "file", "link"]

/-- The invariant of the create-task form: `taskData.submission_type` is one
of the four offered values. -/
def TypeInv (s : State) : Prop :=
  s.taskData.submission_type ∈ submissionTypes

end AdminTasks

/-! ## `components/admin/MaterialsTab.js` -/

namespace AdminMaterials

/-- The `uploadData` form object. -/
structure UploadData where
  title : String
  type : String
  file : Option File
  deriving DecidableEq, Repr

/-- The empty form `{ title: '', type: 'note', file: null }`. -/
def emptyUpload : UploadData :=
  { title := "", type := "note", file := none }

/-- The `useState` cells of the component, with the request and toast logs. -/
structure State where
  materials : List StudentDashboard.Material
  loading : Bool
  uploading : Bool
  dialogOpen : Bool
  uploadData : UploadData
  requests : List Request
  toasts : List Toast
  deriving DecidableEq, Repr

/-- Initial values of the `useState` cells. -/
def init : State :=
  { materials := [], loading := true, uploading := false, dialogOpen := false,
    uploadData := emptyUpload, requests := [], toasts := [] }

/-- Body of `fetchMaterials`. -/
def fetchMaterials (API : String) (s : State)
    (resp : HttpResult (List StudentDashboard.Material)) : State :=
  let s1 := { s with requests := s.requests ++
    [Request.mk Method.GET (API ++ "/materials") Body.empty] }
  let s2 :=
    match resp with
    | HttpResult.ok data => { s1 with materials := data }
    | HttpResult.fail _ => { s1 with toasts := s1.toasts ++ [Toast.error "Failed to fetch materials"] }
  { s2 with loading := false }

/-- Body of `handleUpload`.  Without a file it shows a toast and returns
before the busy flag is touched. -/
def handleUpload (API : String) (s : State) (resp : HttpResult Unit)
    (materialsResp : HttpResult (List StudentDashboard.Material)) : State :=
  match s.uploadData.file with
  | none => { s with toasts := s.toasts ++ [Toast.error "Please select a file"] }
  | some file =>
    let s1 := { s with uploading := true }
    let formData : List (String × FormValue) :=
      [("file", FormValue.file file), ("title", FormValue.text s1.uploadData.title),
       ("type", FormValue.text s1.uploadData.type)]
    let s2 := { s1 with requests := s1.requests ++
      [Request.mk Method.POST (API ++ "/materials") (Body.formData formData)] }
    let s3 :=
      match resp with
      | HttpResult.ok _ =>
        let s' := { s2 with
          toasts := s2.toasts ++ [Toast.success (some "Material uploaded successfully")],
          dialogOpen := false, uploadData := emptyUpload }
        fetchMaterials API s' materialsResp
      | HttpResult.fail detail =>
        { s2 with toasts := s2.toasts ++ [Toast.error (orDefault detail "Upload failed")] }
    { s3 with uploading := false }

/-- Body of `handleDelete(materialId)`; `confirmed` is the answer of
`window.confirm`. -/
def handleDelete (API : String) (s : State) (materialId : String) (confirmed : Bool)
    (resp : HttpResult Unit) (materialsResp : HttpResult (List StudentDashboard.Material)) :
    State :=
  if !confirmed then s
  else
    let s1 := { s with requests := s.requests ++
      [Request.mk Method.DELETE (API ++ "/materials/" ++ materialId) Body.empty] }
    match resp with
    | HttpResult.ok _ =>
      fetchMaterials API
        { s1 with toasts := s1.toasts ++ [Toast.success (some "Material deleted")] } materialsResp
    | HttpResult.fail _ =>
      { s1 with toasts := s1.toasts ++ [Toast.error "Failed to delete material"] }

end AdminMaterials

/-! ## `components/admin/TasksTab.js` -/

namespace AdminAssignments

/-- The `taskData` form object. -/
structure TaskData where
  title : String
  description : String
  deadline : String
  deriving DecidableEq, Repr

/-- The empty form `{ title: '', description: '', deadline: '' }`. -/
def emptyTaskData : TaskData :=
  { title := "", description := "", deadline := "" }

/-- The object returned by `GET /tasks/{id}/completions`. -/
structure CompletionsData where
  task_title : String
  completed_count : Nat
  total_students : Nat
  completions : List String
  deriving DecidableEq, Repr

/-- The `useState` cells of the component, with the request and toast logs. -/
structure State where
  tasks : List StudentDashboard.SimpleTask
  loading : Bool
  creating : Bool
  dialogOpen : Bool
  selectedTask : Option CompletionsData
  completions : List String
  taskData : TaskData
  requests : List Request
  toasts : List Toast
  deriving DecidableEq, Repr

/-- Initial values of the `useState` cells. -/
def init : State :=
  { tasks := [], loading := true, creating := false, dialogOpen := false, selectedTask := none,
    completions := [], taskData := emptyTaskData, requests := [], toasts := [] }

/-- Body of `fetchTasks`. -/
def fetchTasks (API : String) (s : State)
    (resp : HttpResult (List StudentDashboard.SimpleTask)) : State :=
  let s1 := { s with requests := s.requests ++
    [Request.mk Method.GET (API ++ "/tasks") Body.empty] }
  let s2 :=
    match resp with
    | HttpResult.ok data => { s1 with tasks := data }
    | HttpResult.fail _ => { s1 with toasts := s1.toasts ++ [Toast.error "Failed to fetch tasks"] }
  { s2 with loading := false }

/-- Body of `handleCreateTask`. -/
def handleCreateTask (API : String) (s : State) (resp : HttpResult Unit)
    (tasksResp : HttpResult (List StudentDashboard.SimpleTask)) : State :=
  let s1 := { s with creating := true }
  let s2 := { s1 with requests := s1.requests ++
    [Request.mk Method.POST (API ++ "/tasks")
      (Body.json [("title", s1.taskData.title), ("description", s1.taskData.description),
                  ("deadline", s1.taskData.deadline)])] }
  let s3 :=
    match resp with
    | HttpResult.ok _ =>
      let s' := { s2 with
        toasts := s2.toasts ++ [Toast.success (some "Assignment created and notifications sent!")],
        dialogOpen := false, taskData := emptyTaskData }
      fetchTasks API s' tasksResp
    | HttpResult.fail detail =>
      { s2 with toasts := s2.toasts ++
        [Toast.error (orDefault detail "Failed to create assignment")] }
  { s3 with creating := false }

/-- Body of `viewCompletions(taskId)`. -/
def viewCompletions (API : String) (s : State) (taskId : String)
    (resp : HttpResult CompletionsData) : State :=
  let s1 := { s with requests := s.requests ++
    [Request.mk Method.GET (API ++ "/tasks/" ++ taskId ++ "/completions") Body.empty] }
  match resp with
  | HttpResult.ok data => { s1 with selectedTask := some data }
  | HttpResult.fail _ =>
    { s1 with toasts := s1.toasts ++ [Toast.error "Failed to fetch completion status"] }

end AdminAssignments

/-! ## Selection and events in `components/departmentAdmin/EventAttendanceTab.js` -/

namespace EventAttendance

/-- One use of a selection control: `toggleStudent(studentId)` or
`toggleAllStudents()`. -/
inductive Toggle
  | student (studentId : String)
  | all
  deriving DecidableEq, Repr

/-- The handler that a selection control calls. -/
def applyToggle (s : State) : Toggle → State
  | Toggle.student studentId => toggleStudent s studentId
  | Toggle.all => toggleAllStudents s

/-- A sequence of uses of the selection controls. -/
def applyToggles (s : State) (toggles : List Toggle) : State :=
  toggles.foldl applyToggle s

/-- The request of `handleMarkAttendance` for `update` and the selection
`selected`. -/
def markRequest (API : String) (update : DepartmentUpdate) (selected : List String) : Request :=
  Request.mk Method.POST (API ++ "/leaderboard/mark-attendance/" ++ update.id)
    (Body.array selected)

/-- The request of `fetchUpdates`. -/
def updatesRequest (API : String) : Request :=
  Request.mk Method.GET (API ++ "/department-updates") Body.empty

/-- `text.includes(query)`: `query` occurs in `text` as a contiguous run of
characters. -/
def includes (text query : String) : Bool :=
  decide (query.toList <:+: text.toList)

/-- The derived list `filteredStudents`; `toLowerCase` stands for
`String.prototype.toLowerCase`. -/
def filteredStudents (toLowerCase : String → String) (s : State) : List Student :=
  s.students.filter (fun student =>
    includes (toLowerCase student.name) (toLowerCase s.searchQuery) ||
    includes (toLowerCase student.email) (toLowerCase s.searchQuery))

/-- The `open` attribute of the dialog on the card of `update`:
`dialogOpen && selectedUpdate?.id === update.id`. -/
def dialogOpenFor (s : State) (update : DepartmentUpdate) : Bool :=
  s.dialogOpen &&
    (match s.selectedUpdate with
     | some selected => selected.id == update.id
     | none => false)

/-- Whether the content of a dialog is rendered: the dialog of one of the
listed events is open. -/
def dialogShown (s : State) : Bool :=
  s.updates.any (dialogOpenFor s)

/-- The `disabled` attribute of the dialog's Mark Attendance button. -/
def markDisabled (s : State) : Bool :=
  s.loading || decide (s.selectedStudents.length = 0)

/-- User and environment events of the component. -/
inductive Event
  /-- The mount effect `fetchUpdates()`. -/
  | mount (resp : HttpResult (List DepartmentUpdate))
  /-- A click on the Mark Attendance button of the `i`-th event card. -/
  | clickOpenDialog (i : Nat)
  /-- The dialog's `onOpenChange` and the Cancel button. -/
  | setDialogOpen (b : Bool)
  /-- The search input's `onChange`. -/
  | setSearchQuery (v : String)
  /-- A click on the row or the checkbox of the `j`-th of `filteredStudents`. -/
  | clickStudent (j : Nat)
  /-- A click on the Select All checkbox or its label. -/
  | clickSelectAll
  /-- A click on the dialog's Mark Attendance button. -/
  | clickMark (resp : HttpResult Unit) (updatesResp : HttpResult (List DepartmentUpdate))

/-- One event applied to a state; an event whose control is not rendered, or
is disabled, leaves the state unchanged. -/
def step (toLowerCase : String → String) (API : String) (s : State) : Event → State
  | Event.mount resp => fetchUpdates API s resp
  | Event.clickOpenDialog i =>
    match s.updates.get? i with
    | some update => handleOpenDialog s update
    | none => s
  | Event.setDialogOpen b => { s with dialogOpen := b }
  | Event.setSearchQuery v => if dialogShown s then { s with searchQuery := v } else s
  | Event.clickStudent j =>
    if dialogShown s then
      match (filteredStudents toLowerCase s).get? j with
      | some student => toggleStudent s student.id
      | none => s
    else s
  | Event.clickSelectAll =>
    if dialogShown s && decide (s.students.length > 0) then toggleAllStudents s else s
  | Event.clickMark resp updatesResp =>
    if dialogShown s && !markDisabled s then handleMarkAttendance API s resp updatesResp else s

/-- The state reached from `s` by a sequence of events. -/
def runFrom (toLowerCase : String → String) (API : String) (s : State) (evs : List Event) :
    State :=
  evs.foldl (step toLowerCase API) s

/-- The state reached from the initial state. -/
def run (toLowerCase : String → String) (API : String) (evs : List Event) : State :=
  runFrom toLowerCase API init evs

/-- The invariant of the tab: no student is listed, none is selected, and
every request sent is the one of `fetchUpdates`. -/
def Inv (API : String) (s : State) : Prop :=
  s.students = [] ∧ s.selectedStudents = [] ∧ ∀ r ∈ s.requests, r = updatesRequest API

end EventAttendance

/-! ## Concrete inputs used by the examples below -/

namespace Examples

/-- A base URL for the examples. -/
def api : String := "https://studyhub.example/api"

/-- A workspace. -/
def algebra : Workspace := { id := "w1", name := "Algebra" }

/-- A chosen file. -/
def essay : File := { name := "essay.pdf", size := 2048, type := "application/pdf" }

/-- A task whose submission has been approved. -/
def approvedTask : Task :=
  { id := "t7", title := "Essay", description := "Write an essay", deadline := some 1000,
    submission_type := some "any", submission_status := some "approved",
    submitted_at := some "2024-01-10T20:00" }

/-- A state of the student task tab in which the approved task is the selected
one and a file has been chosen. -/
def approvedSelected : StudentTasks.State :=
  { workspaces := [algebra], selectedWorkspace := some algebra, tasks := [approvedTask],
    loading := false, submitOpen := true, selectedTask := some approvedTask,
    submitting := false, submissionType := "file", file := some essay, link := "",
    requests := [], toasts := [] }

/-- A task that requires a link and has no submission yet. -/
def linkTask : Task :=
  { id := "t1", title := "Portfolio", description := "Link to your portfolio", deadline := some 1000,
    submission_type := some "link", submission_status := some "not_submitted", submitted_at := none }

/-- A student opens the tab, clicks Submit on the link-only task, chooses a
file and submits; the server answers with success. -/
def fileForLinkTask : List StudentTasks.Event :=
  [StudentTasks.Event.mount (HttpResult.ok [algebra]) (HttpResult.ok [linkTask]),
   StudentTasks.Event.clickSubmit 0 500,
   StudentTasks.Event.setFile (some essay),
   StudentTasks.Event.submitForm (HttpResult.ok ()) (HttpResult.fail none)]

/-- A student opens the tab, clicks Submit on the task and chooses a file. -/
def fileChosen : List StudentTasks.Event :=
  [StudentTasks.Event.mount (HttpResult.ok [algebra]) (HttpResult.ok [linkTask]),
   StudentTasks.Event.clickSubmit 0 500,
   StudentTasks.Event.setFile (some essay)]

/-- A student opens the tab and clicks where the submit button of the approved
task would be. -/
def clickOnApproved : List StudentTasks.Event :=
  [StudentTasks.Event.mount (HttpResult.ok [algebra]) (HttpResult.ok [approvedTask]),
   StudentTasks.Event.clickSubmit 0 500]

/-- A pending submission. -/
def pendingSubmission : AdminTasks.Submission :=
  { id := "s1", student_name := "Asha", status := some "pending", submission_type := some "link",
    file_path := none, link := some "https://example.org/work", review_comment := none,
    submitted_at := some "2024-01-10T20:00" }

/-- The submissions of a task: one pending submission. -/
def onePending : AdminTasks.SubmissionsData :=
  { total_students := some 1, submitted_count := some 1, approved_count := some 0,
    rejected_count := some 0, pending_count := some 1, submissions := some [pendingSubmission] }

/-- A teacher opens the tab, views the submissions of the first task and
clicks Review on the first submission. -/
def reviewStarted : List AdminTasks.Event :=
  [AdminTasks.Event.mount (HttpResult.ok [algebra]) (HttpResult.ok [linkTask]),
   AdminTasks.Event.clickViewSubmissions 0 (HttpResult.ok onePending),
   AdminTasks.Event.clickReview 0]

/-- A student opens the join dialog, types a lower-case code and submits;
the server accepts. -/
def joinTyped : List JoinTab.Event :=
  [JoinTab.Event.mount (HttpResult.ok []),
   JoinTab.Event.setJoinOpen true,
   JoinTab.Event.changeInviteCode "ab12cd34",
   JoinTab.Event.submitForm (HttpResult.ok (some { message := some "Joined Algebra" }))
     (HttpResult.ok [algebra])]

/-- A registry with one workspace and no member yet. -/
def oneWorkspace : Engine.Registry :=
  { workspaces := [{ id := "w1", invite_code := "AB12CD34", owner_id := "teacher1" }],
    memberships := [] }

/-- The membership of student `stu1` in that workspace, joined at time 5. -/
def firstMembership : Engine.Membership :=
  { workspace_id := "w1", student_id := "stu1", joined_at := 5 }

/-- The registry after that student has joined. -/
def oneMember : Engine.Registry :=
  { workspaces := [{ id := "w1", invite_code := "AB12CD34", owner_id := "teacher1" }],
    memberships := [firstMembership] }

/-- A file of 11 MiB. -/
def bigFile : File := { name := "video.mp4", size := 11534336, type := "video/mp4" }

/-- A task that accepts any submission and has none yet. -/
def openTask : Task :=
  { id := "t2", title := "Demo", description := "Record a demo", deadline := some 1000,
    submission_type := some "any", submission_status := some "not_submitted", submitted_at := none }

/-- A student opens the tab, clicks Submit on the task, chooses the 11 MiB
file and submits; the server answers with success. -/
def bigFileSubmitted : List StudentTasks.Event :=
  [StudentTasks.Event.mount (HttpResult.ok [algebra]) (HttpResult.ok [openTask]),
   StudentTasks.Event.clickSubmit 0 500,
   StudentTasks.Event.setFile (some bigFile),
   StudentTasks.Event.submitForm (HttpResult.ok ()) (HttpResult.ok [openTask])]

/-- A state of the department feed showing nothing yet. -/
def feedStart : DepartmentFeed.State := DepartmentFeed.init

/-- The statistics of a student. -/
def someStats : StudentLeaderboard.MyStats :=
  { rank := 4, total_points := 30, tasks_completed := 3, events_attended := 0,
    task_completion_rate := 75, recent_activities := [] }

/-- A response of the top-performers request with eleven rows. -/
def elevenPerformers : List StudentLeaderboard.Performer :=
  (List.range 11).map (fun i =>
    { id := toString i, user_id := toString i, user_name := "Student", section_ := none,
      rank := i + 1, total_points := 100 - i, tasks_completed := 0, events_attended := 0,
      task_completion_rate := 0, rank_change := 0 })

/-- A submission made at 2024-01-10 20:00 for a task due 2024-01-10 23:59
(times written as the number YYYYMMDDhhmm), waiting for review. -/
def onTimeSubmission : Engine.SubmissionRecord :=
  { id := "s1", task_id := "t1", student_id := "stu1", submission_type := "link",
    payload := "https://example.org/work", status := Engine.SubmissionStatus.pending,
    review_comment := none, submitted_at := 202401102000, reviewed_at := none }

/-- A submission for the same task made the next morning, 2024-01-11 08:00. -/
def lateSubmission : Engine.SubmissionRecord :=
  { id := "s2", task_id := "t1", student_id := "stu2", submission_type := "link",
    payload := "https://example.org/late", status := Engine.SubmissionStatus.pending,
    review_comment := none, submitted_at := 202401110800, reviewed_at := none }

/-- The task of those submissions. -/
def dueTask : Engine.TaskRecord :=
  { id := "t1", workspace_id := some "w1", deadline := 202401102359, submission_type := "any" }

/-- An engine holding the workspace, the task and the two pending submissions,
with an empty ledger. -/
def reviewStart : Engine.ReviewState :=
  { workspaces := [{ id := "w1", invite_code := "AB12CD34", owner_id := "teacher1" }],
    tasks := [dueTask], submissions := [onTimeSubmission, lateSubmission], ledger := [] }

/-- A task whose `submission_status` is missing from the response. -/
def statuslessTask : Task :=
  { id := "t3", title := "Quiz", description := "Answer the quiz", deadline := some 1000,
    submission_type := some "any", submission_status := none, submitted_at := none }

/-- A task whose `submission_status` is a value the tab does not know. -/
def gradedTask : Task :=
  { id := "t4", title := "Lab", description := "Lab report", deadline := some 1000,
    submission_type := some "file", submission_status := some "graded", submitted_at := none }


/-- Two students with distinct ids. -/
def twoStudents : List EventAttendance.Student :=
  [EventAttendance.Student.mk "s1" "Asha" "asha@example.org" (some "A"),
   EventAttendance.Student.mk "s2" "Ravi" "ravi@example.org" none]

/-- An event of the department. -/
def workshop : DepartmentUpdate :=
  { id := "u1", title := "Workshop", description := "Hands-on session", category := "Workshop",
    event_date := some (DateString.mk "2026-03-01T10:00:00" (some 1772359200000)),
    visible_to_sections := none, interested_count := some 0, attending_count := some 0,
    is_interested := false, is_attending := false, interested_users := none,
    attending_users := none, created_by_name := "Dept Admin",
    created_at := "2026-02-01T09:00:00" }

/-- The attendance dialog of `workshop`, open over `twoStudents`, nothing
selected. -/
def attendanceDialog : EventAttendance.State :=
  { updates := [workshop], students := twoStudents, selectedUpdate := some workshop,
    selectedStudents := [], searchQuery := "", loading := false, dialogOpen := true,
    requests := [], toasts := [] }

end Examples

/-! ## Theorems -/

namespace StudentTasks

@[simp] theorem fetchTasks_selectedTask (API : String) (s : State) (r : HttpResult (List Task)) :
    (fetchTasks API s r).selectedTask = s.selectedTask := by
  unfold fetchTasks
  cases s.selectedWorkspace <;> cases r <;> rfl

@[simp] theorem fetchTasks_submitOpen (API : String) (s : State) (r : HttpResult (List Task)) :
    (fetchTasks API s r).submitOpen = s.submitOpen := by
  unfold fetchTasks
  cases s.selectedWorkspace <;> cases r <;> rfl

@[simp] theorem fetchTasks_toasts_ok (API : String) (s : State) (data : List Task) :
    (fetchTasks API s (HttpResult.ok data)).toasts = s.toasts := by
  unfold fetchTasks
  cases s.selectedWorkspace <;> rfl

theorem fetchTasks_requests (API : String) (s : State) (r : HttpResult (List Task)) :
    ∃ rest, (fetchTasks API s r).requests = s.requests ++ rest ∧
      ∀ q ∈ rest, q.method = Method.GET := by
  unfold fetchTasks
  cases hw : s.selectedWorkspace with
  | none => exact ⟨[], by simp⟩
  | some w =>
    refine ⟨[Request.mk Method.GET (API ++ "/workspaces/" ++ w.id ++ "/tasks") Body.empty], ?_, ?_⟩
    · cases r <;> rfl
    · intro q hq
      simp at hq
      rw [hq]

theorem student_fetchTasks_inv (API : String) (s : State) (r : HttpResult (List Task)) (h : Inv s) :
    Inv (fetchTasks API s r) := by
  unfold Inv at *
  simpa using h

theorem student_selectedWorkspaceEffect_inv (API : String) (old : Option Workspace) (s : State)
    (r : HttpResult (List Task)) (h : Inv s) : Inv (selectedWorkspaceEffect API old s r) := by
  unfold selectedWorkspaceEffect
  split
  · exact h
  · exact student_fetchTasks_inv API s r h

theorem student_fetchWorkspaces_inv (API : String) (s : State) (r : HttpResult (List Workspace))
    (h : Inv s) : Inv (fetchWorkspaces API s r) := by
  unfold Inv at *
  unfold fetchWorkspaces
  cases r with
  | ok data => cases data <;> exact h
  | fail d => exact h

theorem handleSubmit_selectedTask (API : String) (s : State) (resp : HttpResult Unit)
    (tr : HttpResult (List Task)) : (handleSubmit API s resp tr).selectedTask = s.selectedTask := by
  unfold handleSubmit
  split
  · rfl
  · simp only
    split
    · rfl
    · cases resp <;> simp

theorem handleSubmit_submitOpen (API : String) (s : State) (resp : HttpResult Unit)
    (tr : HttpResult (List Task)) :
    (handleSubmit API s resp tr).submitOpen = true → s.submitOpen = true := by
  unfold handleSubmit
  split
  · exact id
  · simp only
    split
    · exact id
    · cases resp <;> simp

theorem handleSubmit_inv (API : String) (s : State) (resp : HttpResult Unit)
    (tr : HttpResult (List Task)) (h : Inv s) : Inv (handleSubmit API s resp tr) := by
  unfold Inv at *
  rw [handleSubmit_selectedTask]
  exact ⟨fun ho => h.1 (handleSubmit_submitOpen API s resp tr ho), h.2⟩

theorem openSubmitDialog_inv (s : State) (task : Task) (now : Int)
    (hb : (renderTaskCard task now).submitButton.isSome = true) :
    Inv (openSubmitDialog s task) := by
  unfold Inv openSubmitDialog
  refine ⟨fun _ => by simp, ?_⟩
  intro t ht
  simp only [Option.some.injEq] at ht
  subst ht
  unfold renderTaskCard at hb
  simp only at hb
  by_contra hne
  rw [if_neg hne] at hb
  simp at hb

theorem student_step_inv (API : String) (s : State) (ev : Event) (h : Inv s) : Inv (step API s ev) := by
  cases ev with
  | mount wsResp tasksResp =>
    exact student_selectedWorkspaceEffect_inv API _ _ _ (student_fetchWorkspaces_inv API s wsResp h)
  | selectWorkspace id tasksResp =>
    simp only [step]
    split
    · exact student_selectedWorkspaceEffect_inv API _ _ _ h
    · exact h
  | clickSubmit i now =>
    simp only [step]
    split
    · split
      · split
        · rename_i hb
          exact openSubmitDialog_inv s _ now hb
        · exact h
      · exact h
    · exact h
  | setSubmissionType isLink =>
    simp only [step]
    split
    · exact h
    · exact h
  | setFile f =>
    simp only [step]
    split
    · exact h
    · exact h
  | setLink v =>
    simp only [step]
    split
    · exact h
    · exact h
  | closeDialog =>
    simp only [step]
    split
    · exact ⟨fun ho => by simp at ho, h.2⟩
    · exact h
  | submitForm resp tasksResp =>
    simp only [step]
    split
    · exact handleSubmit_inv API s resp tasksResp h
    · exact h

theorem student_runFrom_inv (API : String) (evs : List Event) :
    ∀ s : State, Inv s → Inv (runFrom API s evs) := by
  induction evs with
  | nil => intro s h; exact h
  | cons ev evs ih =>
    intro s h
    exact ih (step API s ev) (student_step_inv API s ev h)

theorem student_init_inv : Inv init := by
  unfold Inv init
  simp

theorem student_run_inv (API : String) (evs : List Event) : Inv (run API evs) :=
  student_runFrom_inv API evs init student_init_inv

theorem submitFormData_file (submissionType : String) (f : File) (link : String)
    (ht : submissionType = "file") :
    submitFormData submissionType (some f) link = some [("file", FormValue.file f)] := by
  subst ht
  rfl

theorem submitFormData_link (submissionType : String) (file : Option File) (link : String)
    (ht : submissionType = "link") (hl : link ≠ "") :
    submitFormData submissionType file link = some [("link", FormValue.text link)] := by
  subst ht
  unfold submitFormData
  have hne : decide ("link" = "file") = false := by decide
  rw [hne]
  simp [hl]

theorem submitFormData_none (submissionType : String) (file : Option File) (link : String)
    (hf : ¬ (submissionType = "file" ∧ file ≠ none))
    (hl : ¬ (submissionType = "link" ∧ link ≠ "")) :
    submitFormData submissionType file link = none := by
  unfold submitFormData
  split
  · rename_i hd
    exact absurd ⟨of_decide_eq_true hd, by simp⟩ hf
  · rw [if_neg hl]

theorem handleSubmit_sends (API : String) (s : State) (task : Task)
    (fd : List (String × FormValue)) (resp : HttpResult Unit) (tr : HttpResult (List Task))
    (hsel : s.selectedTask = some task)
    (hfd : submitFormData s.submissionType s.file s.link = some fd) :
    submissionsSent s (handleSubmit API s resp tr) =
      [Request.mk Method.POST (API ++ "/tasks/" ++ task.id ++ "/submit") (Body.formData fd)] := by
  unfold handleSubmit submissionsSent
  rw [hsel]
  simp only [hfd]
  cases resp with
  | ok u =>
    simp only
    obtain ⟨rest, hrest, hget⟩ := fetchTasks_requests API
      { s with
        selectedTask := some task,
        submitting := true,
        requests := s.requests ++
          [Request.mk Method.POST (API ++ "/tasks/" ++ task.id ++ "/submit") (Body.formData fd)],
        toasts := s.toasts ++ [Toast.success (some "Submission uploaded successfully!")],
        submitOpen := false } tr
    rw [hrest]
    simp only [List.append_assoc, List.drop_left, List.singleton_append, List.filter_cons]
    have hnone : rest.filter (fun r => r.method == Method.POST) = [] := by
      rw [List.filter_eq_nil_iff]
      intro q hq
      rw [hget q hq]
      decide
    simp [hnone]
  | fail d =>
    simp

theorem handleSubmit_refuses (API : String) (s : State) (task : Task)
    (resp : HttpResult Unit) (tr : HttpResult (List Task))
    (hsel : s.selectedTask = some task)
    (hfd : submitFormData s.submissionType s.file s.link = none) :
    (handleSubmit API s resp tr).requests = s.requests ∧
    (handleSubmit API s resp tr).toasts = s.toasts ++ [Toast.error "Please provide a file or link"] := by
  simp [handleSubmit, hsel, hfd]

theorem handleSubmit_requests_changed (API : String) (s : State) (resp : HttpResult Unit)
    (tr : HttpResult (List Task))
    (h : (handleSubmit API s resp tr).requests ≠ s.requests) : s.selectedTask ≠ none := by
  intro hnone
  apply h
  unfold handleSubmit
  rw [hnone]

/-- C2: the card of a task offers the submit action exactly when the task's
submission_status is `not_submitted` or `rejected`, hence never for `pending`
or `approved`; the deadline and the current time play no part; the label is
`Resubmit` exactly when the status is `rejected`; and a click on the card of a
listed task opens the submit dialog exactly in those two cases. -/
theorem c2_submit_action_offered_iff (task : Task) (now : Int) :
    ((renderTaskCard task now).submitButton.isSome = true ↔
      (task.submission_status = some "not_submitted" ∨ task.submission_status = some "rejected")) ∧
    ((renderTaskCard task now).submitButton = some "Resubmit" ↔
      task.submission_status = some "rejected") ∧
    ((task.submission_status = some "pending" ∨ task.submission_status = some "approved") →
      (renderTaskCard task now).submitButton = none) ∧
    (∀ (deadline : Option Int) (now' : Int),
      (renderTaskCard { task with deadline := deadline } now').submitButton =
        (renderTaskCard task now).submitButton) ∧
    (∀ (API : String) (s : State) (i : Nat), mainShown s = true → s.tasks.get? i = some task →
      step API s (Event.clickSubmit i now) =
        if task.submission_status = some "not_submitted" ∨ task.submission_status = some "rejected"
        then openSubmitDialog s task else s) := by
  refine ⟨?_, ?_, ?_, ?_, ?_⟩
  · unfold renderTaskCard
    simp only
    split <;> simp_all
  · unfold renderTaskCard
    simp only
    by_cases hr : task.submission_status = some "rejected"
    · simp [hr]
    · by_cases hn : task.submission_status = some "not_submitted"
      · simp [hn, hr]
      · simp [hn, hr]
  · intro h
    unfold renderTaskCard
    simp only
    rcases h with h | h <;> simp [h]
  · intro deadline now'
    rfl
  · intro API s i hshown hget
    simp only [step, hshown, hget, if_true]
    unfold renderTaskCard
    simp only
    split <;> simp_all

/-- C1 (counterexample): with the approved task `t7` as the selected task and
a file chosen, `handleSubmit` raises no conflict: it posts the submission, and
when the server accepts it the student is told that the submission was
uploaded.  In the running interface an attempt on the approved task reports no
error either: the click finds no button, no toast is shown and no dialog
opens. -/
theorem c1_handleSubmit_posts_for_approved_task :
    Examples.approvedSelected.selectedTask = some Examples.approvedTask ∧
    Examples.approvedTask.submission_status = some "approved" ∧
    (handleSubmit Examples.api Examples.approvedSelected (HttpResult.ok ())
        (HttpResult.ok [Examples.approvedTask])).requests =
      [Request.mk Method.POST "https://studyhub.example/api/tasks/t7/submit"
         (Body.formData [("file", FormValue.file Examples.essay)]),
       Request.mk Method.GET "https://studyhub.example/api/workspaces/w1/tasks" Body.empty] ∧
    (handleSubmit Examples.api Examples.approvedSelected (HttpResult.ok ())
        (HttpResult.ok [Examples.approvedTask])).toasts =
      [Toast.success (some "Submission uploaded successfully!")] ∧
    (run Examples.api Examples.clickOnApproved).tasks = [Examples.approvedTask] ∧
    (run Examples.api Examples.clickOnApproved).toasts = [] ∧
    (run Examples.api Examples.clickOnApproved).submitOpen = false := by
  decide

/-- C1 (amended): the guard against submitting for an approved task is the
missing button, not an error.  The card of an approved task renders no submit
button and a click on it does nothing; and whenever `handleSubmit`, run in a
state reached through the user interface, adds a request to the log, the
selected task had status `not_submitted` or `rejected` when it was chosen, in
particular not `approved`. -/
theorem c1_no_submission_for_approved_task (API : String) (evs : List Event)
    (resp : HttpResult Unit) (tr : HttpResult (List Task))
    (hsent : (handleSubmit API (run API evs) resp tr).requests ≠ (run API evs).requests) :
    (∃ t, (run API evs).selectedTask = some t ∧
      (t.submission_status = some "not_submitted" ∨ t.submission_status = some "rejected") ∧
      t.submission_status ≠ some "approved") ∧
    (∀ (task : Task) (now : Int), task.submission_status = some "approved" →
      (renderTaskCard task now).submitButton = none) ∧
    (∀ (s : State) (i : Nat) (now : Int) (task : Task), s.tasks.get? i = some task →
      task.submission_status = some "approved" → step API s (Event.clickSubmit i now) = s) := by
  refine ⟨?_, ?_, ?_⟩
  · have hne := handleSubmit_requests_changed API (run API evs) resp tr hsent
    cases hsel : (run API evs).selectedTask with
    | none => exact absurd hsel hne
    | some t =>
      have hst := (student_run_inv API evs).2 t hsel
      refine ⟨t, rfl, hst, ?_⟩
      rcases hst with h | h <;> rw [h] <;> decide
  · intro task now h
    unfold renderTaskCard
    simp [h]
  · intro s i now task hget happ
    simp only [step, hget]
    have hb : (renderTaskCard task now).submitButton.isSome = false := by
      unfold renderTaskCard
      simp [happ]
    simp [hb]

/-- C1 (witness): after the student has opened the dialog for an unsubmitted
task and chosen a file, `handleSubmit` does add a request. -/
theorem c1_no_submission_for_approved_task_witness :
    (handleSubmit Examples.api (run Examples.api Examples.fileChosen) (HttpResult.ok ())
        (HttpResult.fail none)).requests ≠ (run Examples.api Examples.fileChosen).requests ∧
    ∃ t, (run Examples.api Examples.fileChosen).selectedTask = some t ∧
      (t.submission_status = some "not_submitted" ∨ t.submission_status = some "rejected") ∧
      t.submission_status ≠ some "approved" :=
  ⟨by decide,
   (c1_no_submission_for_approved_task Examples.api Examples.fileChosen (HttpResult.ok ())
      (HttpResult.fail none) (by decide)).1⟩

/-- C3: in every state reached through the user interface in which the submit
form is shown, `handleSubmit` behaves in one of three ways.  With type `file`
and a file chosen it posts exactly one request, whose form data is the single
field `file`; with type `link` and a non-empty link it posts exactly one
request, whose form data is the single field `link`; in every other case it
sends nothing and shows `Please provide a file or link`. -/
theorem c3_form_data_has_exactly_one_field (API : String) (evs : List Event)
    (resp : HttpResult Unit) (tr : HttpResult (List Task))
    (hopen : (run API evs).submitOpen = true) :
    ∃ task, (run API evs).selectedTask = some task ∧
      (∀ f, (run API evs).submissionType = "file" → (run API evs).file = some f →
        submissionsSent (run API evs) (handleSubmit API (run API evs) resp tr) =
          [Request.mk Method.POST (API ++ "/tasks/" ++ task.id ++ "/submit")
            (Body.formData [("file", FormValue.file f)])]) ∧
      ((run API evs).submissionType = "link" → (run API evs).link ≠ "" →
        submissionsSent (run API evs) (handleSubmit API (run API evs) resp tr) =
          [Request.mk Method.POST (API ++ "/tasks/" ++ task.id ++ "/submit")
            (Body.formData [("link", FormValue.text (run API evs).link)])]) ∧
      (¬ ((run API evs).submissionType = "file" ∧ (run API evs).file ≠ none) →
        ¬ ((run API evs).submissionType = "link" ∧ (run API evs).link ≠ "") →
        (handleSubmit API (run API evs) resp tr).requests = (run API evs).requests ∧
        (handleSubmit API (run API evs) resp tr).toasts =
          (run API evs).toasts ++ [Toast.error "Please provide a file or link"]) := by
  have hne := (student_run_inv API evs).1 hopen
  cases hsel : (run API evs).selectedTask with
  | none => exact absurd hsel hne
  | some task =>
    refine ⟨task, rfl, ?_, ?_, ?_⟩
    · intro f ht hf
      apply handleSubmit_sends API _ task _ resp tr hsel
      rw [hf]
      exact submitFormData_file _ f _ ht
    · intro ht hl
      exact handleSubmit_sends API _ task _ resp tr hsel (submitFormData_link _ _ _ ht hl)
    · intro hf hl
      exact handleSubmit_refuses API _ task resp tr hsel (submitFormData_none _ _ _ hf hl)

/-- C3 (witness): the form is shown after the student has clicked Submit on a
task and chosen a file. -/
theorem c3_form_data_has_exactly_one_field_witness :
    (run Examples.api Examples.fileChosen).submitOpen = true ∧
    ∃ task, (run Examples.api Examples.fileChosen).selectedTask = some task ∧
      (∀ f, (run Examples.api Examples.fileChosen).submissionType = "file" →
        (run Examples.api Examples.fileChosen).file = some f →
        submissionsSent (run Examples.api Examples.fileChosen)
            (handleSubmit Examples.api (run Examples.api Examples.fileChosen) (HttpResult.ok ())
              (HttpResult.fail none)) =
          [Request.mk Method.POST (Examples.api ++ "/tasks/" ++ task.id ++ "/submit")
            (Body.formData [("file", FormValue.file f)])]) :=
  ⟨by decide,
   let ⟨task, hsel, hfile, _⟩ :=
     c3_form_data_has_exactly_one_field Examples.api Examples.fileChosen (HttpResult.ok ())
       (HttpResult.fail none) (by decide)
   ⟨task, hsel, hfile⟩⟩

/-- C4 (counterexample): for the task `t1`, which requires a link, the student
chooses a file; the dialog lets the form be submitted, `handleSubmit` posts the
file, and when the server accepts it the student is told that the submission
was uploaded.  No validation error is produced. -/
theorem c4_file_posted_for_link_task :
    Examples.linkTask.submission_type = some "link" ∧
    (run Examples.api Examples.fileForLinkTask).requests =
      [Request.mk Method.GET "https://studyhub.example/api/workspaces" Body.empty,
       Request.mk Method.GET "https://studyhub.example/api/workspaces/w1/tasks" Body.empty,
       Request.mk Method.POST "https://studyhub.example/api/tasks/t1/submit"
         (Body.formData [("file", FormValue.file Examples.essay)]),
       Request.mk Method.GET "https://studyhub.example/api/workspaces/w1/tasks" Body.empty] ∧
    (run Examples.api Examples.fileForLinkTask).toasts =
      [Toast.success (some "Submission uploaded successfully!"),
       Toast.error "Failed to fetch tasks"] := by
  decide

/-- C4 (amended): the student dialog does not check the payload against the
task's submission_type.  Whatever submission_type the selected task has,
`handleSubmit` sends the same requests and shows the same toasts; the
submission_type only chooses the `accept` filter of the file input (`image/*`
exactly for `image`); and when the server rejects a request that was sent, the
rejection is reported with the server's detail or `Failed to submit task`
and the dialog stays as it was. -/
theorem c4_submission_type_not_checked (API : String) (s : State) (task : Task)
    (submission_type : Option String) (resp : HttpResult Unit) (tr : HttpResult (List Task)) :
    (handleSubmit API
        { s with selectedTask := some { task with submission_type := submission_type } }
        resp tr).requests =
      (handleSubmit API { s with selectedTask := some task } resp tr).requests ∧
    (handleSubmit API
        { s with selectedTask := some { task with submission_type := submission_type } }
        resp tr).toasts =
      (handleSubmit API { s with selectedTask := some task } resp tr).toasts ∧
    (fileInputAccept (some task) = "image/*" ↔ task.submission_type = some "image") ∧
    (∀ (fd : List (String × FormValue)) (detail : Option String),
      submitFormData s.submissionType s.file s.link = some fd →
      (handleSubmit API { s with selectedTask := some task } (HttpResult.fail detail) tr).toasts =
        s.toasts ++ [Toast.error (orDefault detail "Failed to submit task")] ∧
      (handleSubmit API { s with selectedTask := some task } (HttpResult.fail detail) tr).submitOpen =
        s.submitOpen) := by
  refine ⟨?_, ?_, ?_, ?_⟩
  · unfold handleSubmit
    simp only
    cases submitFormData s.submissionType s.file s.link with
    | none => rfl
    | some fd =>
      cases resp with
      | ok u =>
        simp only
        unfold fetchTasks
        simp only
        cases s.selectedWorkspace with
        | none => rfl
        | some w => cases tr <;> rfl
      | fail d => rfl
  · unfold handleSubmit
    simp only
    cases submitFormData s.submissionType s.file s.link with
    | none => rfl
    | some fd =>
      cases resp with
      | ok u =>
        simp only
        unfold fetchTasks
        simp only
        cases s.selectedWorkspace with
        | none => rfl
        | some w => cases tr <;> rfl
      | fail d => rfl
  · unfold fileInputAccept
    simp only
    split
    · simp_all
    · rename_i h
      simp only [h, iff_false]
      decide
  · intro fd detail hfd
    simp [handleSubmit, hfd]

end StudentTasks

namespace AdminTasks

@[simp] theorem fetchTasks_selectedSubmission (API : String) (s : State)
    (r : HttpResult (List Task)) :
    (fetchTasks API s r).selectedSubmission = s.selectedSubmission := by
  unfold fetchTasks
  cases s.selectedWorkspace <;> cases r <;> rfl

@[simp] theorem fetchTasks_reviewOpen (API : String) (s : State) (r : HttpResult (List Task)) :
    (fetchTasks API s r).reviewOpen = s.reviewOpen := by
  unfold fetchTasks
  cases s.selectedWorkspace <;> cases r <;> rfl

@[simp] theorem viewSubmissions_selectedSubmission (API : String) (s : State) (task : Option Task)
    (r : HttpResult SubmissionsData) :
    (viewSubmissions API s task r).selectedSubmission = s.selectedSubmission := by
  unfold viewSubmissions
  cases task <;> cases r <;> rfl

@[simp] theorem viewSubmissions_reviewOpen (API : String) (s : State) (task : Option Task)
    (r : HttpResult SubmissionsData) :
    (viewSubmissions API s task r).reviewOpen = s.reviewOpen := by
  unfold viewSubmissions
  cases task <;> cases r <;> rfl

theorem admin_fetchTasks_inv (API : String) (s : State) (r : HttpResult (List Task)) (h : Inv s) :
    Inv (fetchTasks API s r) := by
  unfold Inv at *
  simpa using h

theorem viewSubmissions_inv (API : String) (s : State) (task : Option Task)
    (r : HttpResult SubmissionsData) (h : Inv s) : Inv (viewSubmissions API s task r) := by
  unfold Inv at *
  simpa using h

theorem admin_selectedWorkspaceEffect_inv (API : String) (old : Option Workspace) (s : State)
    (r : HttpResult (List Task)) (h : Inv s) : Inv (selectedWorkspaceEffect API old s r) := by
  unfold selectedWorkspaceEffect
  split
  · exact h
  · exact admin_fetchTasks_inv API s r h

theorem admin_fetchWorkspaces_inv (API : String) (s : State) (r : HttpResult (List Workspace))
    (h : Inv s) : Inv (fetchWorkspaces API s r) := by
  unfold Inv at *
  unfold fetchWorkspaces
  cases r with
  | ok data => cases data <;> exact h
  | fail d => exact h

theorem handleCreateTask_inv (API : String) (s : State) (resp : HttpResult Unit)
    (tr : HttpResult (List Task)) (h : Inv s) : Inv (handleCreateTask API s resp tr) := by
  unfold handleCreateTask
  split
  · exact h
  · cases resp with
    | ok u =>
      simp only
      unfold Inv at *
      simpa using h
    | fail d => exact h

theorem submitReview_inv (API : String) (s : State) (status : String) (resp : HttpResult Unit)
    (sr : HttpResult SubmissionsData) (h : Inv s) : Inv (submitReview API s status resp sr) := by
  unfold submitReview
  split
  · exact h
  · cases resp with
    | ok u =>
      simp only
      unfold Inv at *
      simp only [viewSubmissions_selectedSubmission, viewSubmissions_reviewOpen]
      exact ⟨fun ho => by simp at ho, h.2⟩
    | fail d => exact h

theorem handleReview_inv (s : State) (submission : Submission)
    (hb : reviewButtonShown submission = true) : Inv (handleReview s submission) := by
  unfold Inv handleReview
  refine ⟨fun _ => by simp, ?_⟩
  intro sub hsub
  simp only [Option.some.injEq] at hsub
  subst hsub
  unfold reviewButtonShown at hb
  exact of_decide_eq_true hb

theorem admin_step_inv (API : String) (s : State) (ev : Event) (h : Inv s) : Inv (step API s ev) := by
  cases ev with
  | mount wsResp tasksResp =>
    exact admin_selectedWorkspaceEffect_inv API _ _ _ (admin_fetchWorkspaces_inv API s wsResp h)
  | selectWorkspace id tasksResp =>
    simp only [step]
    split
    · exact admin_selectedWorkspaceEffect_inv API _ _ _ h
    · exact h
  | setDialogOpen b =>
    simp only [step]
    split <;> exact h
  | setTitle v =>
    simp only [step]
    split <;> exact h
  | setDescription v =>
    simp only [step]
    split <;> exact h
  | setDeadline v =>
    simp only [step]
    split <;> exact h
  | setSubmissionType item =>
    simp only [step]
    split <;> exact h
  | submitCreate resp tasksResp =>
    simp only [step]
    split
    · exact handleCreateTask_inv API s resp tasksResp h
    · exact h
  | clickViewSubmissions i resp =>
    simp only [step]
    split
    · split
      · exact viewSubmissions_inv API s _ resp h
      · exact h
    · exact h
  | closeSubmissions =>
    simp only [step]
    split <;> exact h
  | clickReview j =>
    simp only [step]
    split
    · split
      · split
        · split
          · rename_i hb
            exact handleReview_inv s _ hb
          · exact h
        · exact h
      · exact h
    · exact h
  | setReviewComment v =>
    simp only [step]
    split <;> exact h
  | closeReview =>
    simp only [step]
    split
    · exact ⟨fun ho => by simp at ho, h.2⟩
    · exact h
  | clickDecision approve resp subsResp =>
    simp only [step]
    split
    · exact submitReview_inv API s _ resp subsResp h
    · exact h

theorem admin_runFrom_inv (API : String) (evs : List Event) :
    ∀ s : State, Inv s → Inv (runFrom API s evs) := by
  induction evs with
  | nil => intro s h; exact h
  | cons ev evs ih =>
    intro s h
    exact ih (step API s ev) (admin_step_inv API s ev h)

theorem admin_init_inv : Inv init := by
  unfold Inv init
  simp

theorem admin_run_inv (API : String) (evs : List Event) : Inv (run API evs) :=
  admin_runFrom_inv API evs init admin_init_inv

/-- C5: in every state of the teacher's tab reached through the user
interface in which the review dialog is open (the only place from which
`submitReview` can be invoked), the selected submission had status `pending`
when it was selected, and `submitReview` posts to that submission's review
URL.  The Review button of a submission card is rendered exactly for status
`pending`, so never for `approved` or `rejected`, and a click on the card of a
submission that is not pending changes nothing. -/
theorem c5_review_only_for_pending (API : String) (evs : List Event) (status : String)
    (resp : HttpResult Unit) (sr : HttpResult SubmissionsData)
    (hopen : (run API evs).reviewOpen = true) :
    (∃ sub, (run API evs).selectedSubmission = some sub ∧ sub.status = some "pending" ∧
      postsSent (run API evs) (submitReview API (run API evs) status resp sr) =
        [Request.mk Method.POST (API ++ "/submissions/" ++ sub.id ++ "/review")
          (Body.json [("status", status), ("comment", (run API evs).reviewComment)])]) ∧
    (∀ submission : Submission,
      reviewButtonShown submission = true ↔ submission.status = some "pending") ∧
    (∀ submission : Submission,
      submission.status = some "approved" ∨ submission.status = some "rejected" →
      reviewButtonShown submission = false) ∧
    (∀ (s : State) (j : Nat) (subs : List Submission) (submission : Submission),
      s.submissions.submissions = some subs → subs.get? j = some submission →
      submission.status ≠ some "pending" → step API s (Event.clickReview j) = s) := by
  refine ⟨?_, ?_, ?_, ?_⟩
  · have hne := (admin_run_inv API evs).1 hopen
    cases hsel : (run API evs).selectedSubmission with
    | none => exact absurd hsel hne
    | some sub =>
      refine ⟨sub, rfl, (admin_run_inv API evs).2 sub hsel, ?_⟩
      unfold submitReview postsSent
      rw [hsel]
      cases resp with
      | ok u =>
        simp only
        unfold viewSubmissions
        cases (run API evs).selectedTask with
        | none => simp
        | some t => cases sr <;> simp
      | fail d => simp
  · intro submission
    unfold reviewButtonShown
    simp
  · intro submission h
    unfold reviewButtonShown
    rcases h with h | h <;> rw [h] <;> decide
  · intro s j subs submission hsubs hget hne
    simp only [step, hsubs, hget]
    have hb : reviewButtonShown submission = false := by
      unfold reviewButtonShown
      simpa using hne
    simp [hb]

/-- C5 (witness): the review dialog is open after a teacher has clicked
Review on a pending submission. -/
theorem c5_review_only_for_pending_witness :
    (run Examples.api Examples.reviewStarted).reviewOpen = true ∧
    ∃ sub, (run Examples.api Examples.reviewStarted).selectedSubmission = some sub ∧
      sub.status = some "pending" :=
  ⟨by decide,
   let ⟨sub, hsel, hst, _⟩ :=
     (c5_review_only_for_pending Examples.api Examples.reviewStarted "approved" (HttpResult.ok ())
       (HttpResult.fail none) (by decide)).1
   ⟨sub, hsel, hst⟩⟩

end AdminTasks

namespace StudentDashboard

theorem url_ne_of_length (a b : String) (h : a.length ≠ b.length) : (a == b) = false := by
  rw [beq_eq_false_iff_ne]
  intro hab
  exact h (by rw [hab])

/-- C6: for every task id, every value of `completed` and every outcome of
the requests, `toggleTaskCompletion` adds exactly one request to
`/tasks/{taskId}/complete` to the log: a DELETE without body when `completed`
is true, a POST without body when it is false. -/
theorem c6_toggle_requests_opposite_state (API : String) (s : State) (taskId : String)
    (completed : Bool) (resp : HttpResult Unit)
    (dataResp : HttpResult (List Material × List SimpleTask)) :
    requestsTo (API ++ "/tasks/" ++ taskId ++ "/complete") s
        (toggleTaskCompletion API s taskId completed resp dataResp) =
      [Request.mk (if completed then Method.DELETE else Method.POST)
        (API ++ "/tasks/" ++ taskId ++ "/complete") Body.empty] ∧
    (requestsTo (API ++ "/tasks/" ++ taskId ++ "/complete") s
        (toggleTaskCompletion API s taskId true resp dataResp)).map (fun r => r.method) =
      [Method.DELETE] ∧
    (requestsTo (API ++ "/tasks/" ++ taskId ++ "/complete") s
        (toggleTaskCompletion API s taskId false resp dataResp)).map (fun r => r.method) =
      [Method.POST] := by
  have hm : (API ++ "/materials" == API ++ "/tasks/" ++ taskId ++ "/complete") = false := by
    apply url_ne_of_length
    simp only [String.length_append]
    have h1 : "/materials".length = 10 := by decide
    have h2 : "/tasks/".length = 7 := by decide
    have h3 : "/complete".length = 9 := by decide
    omega
  have ht : (API ++ "/tasks" == API ++ "/tasks/" ++ taskId ++ "/complete") = false := by
    apply url_ne_of_length
    simp only [String.length_append]
    have h1 : "/tasks".length = 6 := by decide
    have h2 : "/tasks/".length = 7 := by decide
    have h3 : "/complete".length = 9 := by decide
    omega
  have key : ∀ c : Bool,
      requestsTo (API ++ "/tasks/" ++ taskId ++ "/complete") s
          (toggleTaskCompletion API s taskId c resp dataResp) =
        [Request.mk (if c then Method.DELETE else Method.POST)
          (API ++ "/tasks/" ++ taskId ++ "/complete") Body.empty] := by
    intro c
    unfold requestsTo toggleTaskCompletion fetchData
    cases resp with
    | ok u =>
      cases dataResp with
      | ok data => simp [List.filter_cons, hm, ht]
      | fail d => simp [List.filter_cons, hm, ht]
    | fail d => simp [List.filter_cons]
  refine ⟨key completed, ?_, ?_⟩
  · rw [key true]
    rfl
  · rw [key false]
    rfl

end StudentDashboard

namespace JoinTab

theorem asciiUpperChar_idem (c : Char) : asciiUpperChar (asciiUpperChar c) = asciiUpperChar c := by
  by_cases h : 'a' ≤ c ∧ c ≤ 'z'
  · have h1 : 97 ≤ c.toNat := by
      have := h.1
      rw [Char.le_def] at this
      exact this
    have h2 : c.toNat ≤ 122 := by
      have := h.2
      rw [Char.le_def] at this
      exact this
    have hc : c = Char.ofNat c.toNat := (Char.ofNat_toNat c).symm
    generalize c.toNat = n at h1 h2 hc
    subst hc
    interval_cases n <;> decide
  · unfold asciiUpperChar
    rw [if_neg h, if_neg h]

theorem asciiUpper_idem (s : String) : asciiUpper (asciiUpper s) = asciiUpper s := by
  unfold asciiUpper
  simp only [List.map_map]
  congr 1
  apply List.map_congr_left
  intro c _
  exact asciiUpperChar_idem c

theorem asciiUpper_empty : asciiUpper "" = "" := by
  decide

theorem postedInviteCodes_append (API : String) (xs ys : List Request) :
    postedInviteCodes API (xs ++ ys) = postedInviteCodes API xs ++ postedInviteCodes API ys := by
  unfold postedInviteCodes
  exact List.filterMap_append _ _ _

theorem postedInviteCodes_get (API : String) (url : String) :
    postedInviteCodes API [Request.mk Method.GET url Body.empty] = [] := by
  simp [postedInviteCodes]

theorem postedInviteCodes_join (API : String) (code : String) :
    postedInviteCodes API
      [Request.mk Method.POST (API ++ "/workspaces/join") (Body.json [("invite_code", code)])] =
      [code] := by
  simp [postedInviteCodes]

theorem fetchWorkspaces_inviteCode (API : String) (s : State) (r : HttpResult (List Workspace)) :
    (fetchWorkspaces API s r).inviteCode = s.inviteCode := by
  unfold fetchWorkspaces
  cases r <;> rfl

theorem fetchWorkspaces_requests (API : String) (s : State) (r : HttpResult (List Workspace)) :
    (fetchWorkspaces API s r).requests =
      s.requests ++ [Request.mk Method.GET (API ++ "/workspaces") Body.empty] := by
  unfold fetchWorkspaces
  cases r <;> rfl

theorem join_fetchWorkspaces_inv (up : String → String) (API : String) (s : State)
    (r : HttpResult (List Workspace)) (h : Inv up API s) : Inv up API (fetchWorkspaces API s r) := by
  unfold Inv at *
  rw [fetchWorkspaces_inviteCode, fetchWorkspaces_requests, postedInviteCodes_append,
    postedInviteCodes_get, List.append_nil]
  exact h

theorem handleJoin_requests (API : String) (s : State) (resp : HttpResult (Option JoinData))
    (wr : HttpResult (List Workspace)) :
    postedInviteCodes API (handleJoin API s resp wr).requests =
      postedInviteCodes API s.requests ++ [s.inviteCode] := by
  unfold handleJoin
  cases resp with
  | ok data =>
    cases data with
    | none => simp only [postedInviteCodes_append, postedInviteCodes_join]
    | some d =>
      simp only [fetchWorkspaces_requests, postedInviteCodes_append, postedInviteCodes_join,
        postedInviteCodes_get, List.append_nil]
  | fail d => simp only [postedInviteCodes_append, postedInviteCodes_join]

theorem handleJoin_inviteCode (API : String) (s : State) (resp : HttpResult (Option JoinData))
    (wr : HttpResult (List Workspace)) :
    (handleJoin API s resp wr).inviteCode = s.inviteCode ∨
      (handleJoin API s resp wr).inviteCode = "" := by
  unfold handleJoin
  cases resp with
  | ok data =>
    cases data with
    | none => exact Or.inl rfl
    | some d =>
      right
      simp only [fetchWorkspaces_inviteCode]
  | fail d => exact Or.inl rfl

theorem handleJoin_inv (up : String → String) (hempty : up "" = "") (API : String) (s : State)
    (resp : HttpResult (Option JoinData)) (wr : HttpResult (List Workspace))
    (h : Inv up API s) : Inv up API (handleJoin API s resp wr) := by
  unfold Inv at *
  constructor
  · rcases handleJoin_inviteCode API s resp wr with hc | hc
    · rw [hc]
      exact h.1
    · rw [hc]
      exact hempty
  · rw [handleJoin_requests]
    intro code hcode
    rw [List.mem_append] at hcode
    rcases hcode with hcode | hcode
    · exact h.2 code hcode
    · rw [List.mem_singleton] at hcode
      rw [hcode]
      exact h.1

theorem join_step_inv (up : String → String) (hidem : ∀ v, up (up v) = up v) (hempty : up "" = "")
    (API : String) (s : State) (ev : Event) (h : Inv up API s) : Inv up API (step up API s ev) := by
  cases ev with
  | mount wsResp => exact join_fetchWorkspaces_inv up API s wsResp h
  | setJoinOpen b =>
    simp only [step]
    split <;> exact h
  | changeInviteCode v =>
    simp only [step]
    split
    · exact ⟨hidem v, h.2⟩
    · exact h
  | submitForm resp wsResp =>
    simp only [step]
    split
    · exact handleJoin_inv up hempty API s resp wsResp h
    · exact h

theorem join_runFrom_inv (up : String → String) (hidem : ∀ v, up (up v) = up v) (hempty : up "" = "")
    (API : String) (evs : List Event) :
    ∀ s : State, Inv up API s → Inv up API (runFrom up API s evs) := by
  induction evs with
  | nil => intro s h; exact h
  | cons ev evs ih =>
    intro s h
    exact ih (step up API s ev) (join_step_inv up hidem hempty API s ev h)

/-- C7: let `toUpperCase` be the runtime's upper-casing, an idempotent function
that maps the empty string to itself.  After every sequence of events of the
join form (mount, opening and closing the dialog, input changes, submissions
with any outcome) the stored `inviteCode` equals its own upper-casing, and so
does every `invite_code` that `handleJoin` has posted. -/
theorem c7_invite_code_uppercased (toUpperCase : String → String)
    (hidem : ∀ v, toUpperCase (toUpperCase v) = toUpperCase v)
    (hempty : toUpperCase "" = "") (API : String) (evs : List Event) :
    toUpperCase (run toUpperCase API evs).inviteCode = (run toUpperCase API evs).inviteCode ∧
    ∀ code ∈ postedInviteCodes API (run toUpperCase API evs).requests,
      toUpperCase code = code := by
  apply join_runFrom_inv toUpperCase hidem hempty API evs init
  unfold Inv init
  refine ⟨hempty, ?_⟩
  intro code hcode
  simp [postedInviteCodes] at hcode

/-- C7 (witness): with ASCII upper-casing, typing `ab12cd34` and submitting
posts `AB12CD34`. -/
theorem c7_invite_code_uppercased_witness :
    postedInviteCodes Examples.api (run asciiUpper Examples.api Examples.joinTyped).requests =
      ["AB12CD34"] ∧
    (asciiUpper (run asciiUpper Examples.api Examples.joinTyped).inviteCode =
        (run asciiUpper Examples.api Examples.joinTyped).inviteCode ∧
      ∀ code ∈ postedInviteCodes Examples.api (run asciiUpper Examples.api Examples.joinTyped).requests,
        asciiUpper code = code) :=
  ⟨by decide,
   c7_invite_code_uppercased asciiUpper asciiUpper_idem asciiUpper_empty Examples.api
     Examples.joinTyped⟩

/-- C8: when the join request fails, `handleJoin` shows one error toast,
carrying the server's detail when there is a non-empty one and `Failed to join
workspace` otherwise, and leaves the workspace list, the entered invite code
and the open state of the dialog as they were.  When it succeeds the dialog
is closed and the code cleared; and whenever `handleJoin` changes the open
state of the dialog or the invite code, the request had succeeded. -/
theorem c8_join_failure_surfaced (API : String) (s : State) (wsResp : HttpResult (List Workspace)) :
    (∀ detail : Option String,
      (handleJoin API s (HttpResult.fail detail) wsResp).toasts =
        s.toasts ++ [Toast.error (orDefault detail "Failed to join workspace")] ∧
      (handleJoin API s (HttpResult.fail detail) wsResp).workspaces = s.workspaces ∧
      (handleJoin API s (HttpResult.fail detail) wsResp).inviteCode = s.inviteCode ∧
      (handleJoin API s (HttpResult.fail detail) wsResp).joinOpen = s.joinOpen) ∧
    (∀ d : String, d ≠ "" → orDefault (some d) "Failed to join workspace" = d) ∧
    orDefault none "Failed to join workspace" = "Failed to join workspace" ∧
    orDefault (some "") "Failed to join workspace" = "Failed to join workspace" ∧
    (∀ data : JoinData,
      (handleJoin API s (HttpResult.ok (some data)) wsResp).joinOpen = false ∧
      (handleJoin API s (HttpResult.ok (some data)) wsResp).inviteCode = "" ∧
      (handleJoin API s (HttpResult.ok (some data)) wsResp).toasts =
        s.toasts ++ [Toast.success data.message] ++
          (match wsResp with
           | HttpResult.ok _ => []
           | HttpResult.fail _ => [Toast.error "Failed to load workspaces"])) ∧
    (∀ resp : HttpResult (Option JoinData),
      ((handleJoin API s resp wsResp).joinOpen ≠ s.joinOpen ∨
        (handleJoin API s resp wsResp).inviteCode ≠ s.inviteCode) →
      ∃ data, resp = HttpResult.ok (some data)) := by
  refine ⟨?_, ?_, rfl, rfl, ?_, ?_⟩
  · intro detail
    exact ⟨rfl, rfl, rfl, rfl⟩
  · intro d hd
    unfold orDefault
    simp [hd]
  · intro data
    unfold handleJoin fetchWorkspaces
    cases wsResp <;> simp
  · intro resp h
    cases resp with
    | ok data =>
      cases data with
      | none => simp [handleJoin] at h
      | some d => exact ⟨d, rfl⟩
    | fail d => simp [handleJoin] at h

end JoinTab

namespace Engine

theorem membershipCount_append (reg : Registry) (m : Membership) (workspace student : String) :
    membershipCount { reg with memberships := reg.memberships ++ [m] } workspace student =
      membershipCount reg workspace student +
        (if (m.workspace_id == workspace && m.student_id == student) = true then 1 else 0) := by
  unfold membershipCount
  simp only [List.filter_append, List.length_append]
  congr 1
  by_cases h : (m.workspace_id == workspace && m.student_id == student) = true
  · simp [List.filter_cons, h]
  · simp [List.filter_cons, h]

theorem membershipCount_pos_of_find (reg : Registry) (m : Membership) (workspace student : String)
    (h : reg.memberships.find? (fun m => m.workspace_id == workspace && m.student_id == student) =
      some m) :
    1 ≤ membershipCount reg workspace student := by
  unfold membershipCount
  have hmem := List.mem_of_find?_eq_some h
  have hp := List.find?_some h
  have : m ∈ reg.memberships.filter
      (fun m => m.workspace_id == workspace && m.student_id == student) :=
    List.mem_filter.mpr ⟨hmem, hp⟩
  exact List.length_pos_of_mem this

theorem membershipCount_zero_of_find (reg : Registry) (workspace student : String)
    (h : reg.memberships.find? (fun m => m.workspace_id == workspace && m.student_id == student) =
      none) :
    membershipCount reg workspace student = 0 := by
  unfold membershipCount
  rw [List.length_eq_zero, List.filter_eq_nil_iff]
  intro m hm
  have := List.find?_eq_none.mp h m hm
  simpa using this

/-- C9 (modelled from the spec): on a registry that satisfies uniqueness per
pair, `join` is idempotent.  If the first call succeeds with membership `m`
and registry `reg1`, a second call with the same code and student (at any
later time) succeeds, returns the same `m` and leaves `reg1` as it is; `reg1`
holds exactly one `Membership` record of that workspace and student and is
again unique per pair.  The first call succeeds whenever some workspace has
the code; when none has, both calls fail with `NotFoundError`. -/
theorem c9_join_idempotent (reg : Registry) (code student : String) (t1 t2 : Nat)
    (huniq : reg.uniquePerPair) :
    (∀ (m : Membership) (reg1 : Registry), join reg code student t1 = Except.ok (m, reg1) →
      join reg1 code student t2 = Except.ok (m, reg1) ∧
      m.student_id = student ∧
      membershipCount reg1 m.workspace_id student = 1 ∧
      reg1.uniquePerPair) ∧
    ((∃ w ∈ reg.workspaces, w.invite_code = code) →
      ∃ m reg1, join reg code student t1 = Except.ok (m, reg1)) ∧
    ((∀ w ∈ reg.workspaces, w.invite_code ≠ code) →
      join reg code student t1 = Except.error EngineError.NotFoundError ∧
      join reg code student t2 = Except.error EngineError.NotFoundError) := by
  refine ⟨?_, ?_, ?_⟩
  · intro m reg1 hjoin
    unfold join at hjoin
    cases hw : reg.workspaces.find? (fun w => w.invite_code == code) with
    | none =>
      rw [hw] at hjoin
      cases hjoin
    | some w =>
      rw [hw] at hjoin
      simp only at hjoin
      cases hm : reg.memberships.find?
          (fun m => m.workspace_id == w.id && m.student_id == student) with
      | some m0 =>
        rw [hm] at hjoin
        simp only [Except.ok.injEq, Prod.mk.injEq] at hjoin
        obtain ⟨h1, h2⟩ := hjoin
        subst h1
        subst h2
        have hp := List.find?_some hm
        simp only [Bool.and_eq_true, beq_iff_eq] at hp
        refine ⟨?_, hp.2, ?_, huniq⟩
        · unfold join
          rw [hw]
          simp only
          rw [hm]
        · rw [hp.1]
          have h1 := membershipCount_pos_of_find reg m0 w.id student hm
          have h2 := huniq w.id student
          omega
      | none =>
        rw [hm] at hjoin
        simp only [Except.ok.injEq, Prod.mk.injEq] at hjoin
        obtain ⟨h1, h2⟩ := hjoin
        subst h1
        subst h2
        refine ⟨?_, rfl, ?_, ?_⟩
        · unfold join
          simp only
          rw [hw]
          simp only
          rw [List.find?_append, hm]
          simp
        · rw [membershipCount_append, membershipCount_zero_of_find reg w.id student hm]
          simp
        · intro workspace st
          rw [membershipCount_append]
          by_cases hpair : (w.id == workspace && student == st) = true
          · simp only [Bool.and_eq_true, beq_iff_eq] at hpair
            obtain ⟨h1, h2⟩ := hpair
            subst h1
            subst h2
            rw [membershipCount_zero_of_find reg w.id student hm]
            simp
          · simp only [hpair]
            have := huniq workspace st
            simpa using this
  · rintro ⟨w, hw, hcode⟩
    unfold join
    cases hfind : reg.workspaces.find? (fun w => w.invite_code == code) with
    | none =>
      have := List.find?_eq_none.mp hfind w hw
      simp [hcode] at this
    | some w0 =>
      simp only
      cases reg.memberships.find?
          (fun m => m.workspace_id == w0.id && m.student_id == student) with
      | some m0 => exact ⟨m0, reg, rfl⟩
      | none => exact ⟨_, _, rfl⟩
  · intro hnone
    have hfind : reg.workspaces.find? (fun w => w.invite_code == code) = none := by
      rw [List.find?_eq_none]
      intro w hw
      simpa using hnone w hw
    unfold join
    rw [hfind]
    exact ⟨rfl, rfl⟩

/-- C9 (witness): joining the workspace with code `AB12CD34` twice leaves one
record, and the second call returns what the first returned. -/
theorem c9_join_idempotent_witness :
    Examples.oneWorkspace.uniquePerPair ∧
    join Examples.oneWorkspace "AB12CD34" "stu1" 5 =
      Except.ok (Examples.firstMembership, Examples.oneMember) ∧
    join Examples.oneMember "AB12CD34" "stu1" 9 =
      Except.ok (Examples.firstMembership, Examples.oneMember) ∧
    membershipCount Examples.oneMember "w1" "stu1" = 1 :=
  have huniq : Examples.oneWorkspace.uniquePerPair := fun _ _ => Nat.zero_le 1
  have h := (c9_join_idempotent Examples.oneWorkspace "AB12CD34" "stu1" 5 9 huniq).1
    Examples.firstMembership Examples.oneMember rfl
  ⟨huniq, rfl, h.1, h.2.2.1⟩

theorem foldl_points (student : String) (ledger : Ledger) :
    ∀ acc : Int,
      ledger.foldl (fun acc e => if e.student_id == student then acc + e.delta else acc) acc =
        acc + ((entriesOf ledger student).map (fun e => e.delta)).sum := by
  induction ledger with
  | nil => intro acc; simp [entriesOf]
  | cons e es ih =>
    intro acc
    rw [List.foldl_cons, ih]
    unfold entriesOf at *
    by_cases h : (e.student_id == student) = true
    · simp only [h, if_true, List.filter_cons, List.map_cons, List.sum_cons]
      omega
    · simp only [h, List.filter_cons]
      simp

/-- C10 (modelled from the spec): the `total_points` of a student is the sum of
the deltas of that student's ledger entries, for every ledger: it is 0 on the
empty ledger and every `award` changes it by exactly the awarded delta for the
awarded student and not at all for the others, so it never diverges from the
ledger.  The student leaderboard tab shows the `total_points` it receives as
it is, computing nothing of its own. -/
theorem c10_total_points_is_ledger_sum (ledger : Ledger) (student : String) :
    totalPoints ledger student = ((entriesOf ledger student).map (fun e => e.delta)).sum ∧
    totalPoints [] student = 0 ∧
    (∀ (awarded : String) (reason : Reason) (delta : Int) (description : String) (timestamp : Nat),
      totalPoints (award ledger awarded reason delta description timestamp) student =
        totalPoints ledger student + (if awarded = student then delta else 0)) ∧
    (∀ (API : String) (s : StudentLeaderboard.State) (stats : StudentLeaderboard.MyStats)
        (top : List StudentLeaderboard.Performer),
      StudentLeaderboard.totalPointsShown
          (StudentLeaderboard.fetchLeaderboardData API s (HttpResult.ok (stats, top))) =
        some stats.total_points) := by
  refine ⟨?_, rfl, ?_, ?_⟩
  · unfold totalPoints
    rw [foldl_points]
    simp
  · intro awarded reason delta description timestamp
    unfold totalPoints award
    rw [List.foldl_append]
    by_cases h : awarded = student
    · simp [h]
    · simp [h]
  · intro API s stats top
    rfl

end Engine

namespace StudentTasks

/-- C19 (failing input): the student chooses a file of 11 MiB, more than the
10 MB announced by the label of the file input, and submits.  `handleSubmit`
posts the file, and when the server accepts it the student is told that the
submission was uploaded; no error is reported. -/
theorem c19_large_file_is_posted :
    10 * 1024 * 1024 < Examples.bigFile.size ∧
    (run Examples.api Examples.bigFileSubmitted).requests =
      [Request.mk Method.GET "https://studyhub.example/api/workspaces" Body.empty,
       Request.mk Method.GET "https://studyhub.example/api/workspaces/w1/tasks" Body.empty,
       Request.mk Method.POST "https://studyhub.example/api/tasks/t2/submit"
         (Body.formData [("file", FormValue.file Examples.bigFile)]),
       Request.mk Method.GET "https://studyhub.example/api/workspaces/w1/tasks" Body.empty] ∧
    (run Examples.api Examples.bigFileSubmitted).toasts =
      [Toast.success (some "Submission uploaded successfully!")] := by
  decide

/-- C20: the card of a task shows the banner "This task is overdue!" (and the
overdue styling) exactly when the deadline is a valid date strictly before the
current time and the submission_status is `not_submitted`.  A task at exactly
its deadline is not overdue, and a task whose status is `pending`, `approved`
or `rejected` is never flagged, whatever the time. -/
theorem c20_overdue_iff (task : Task) (now : Int) :
    ((renderTaskCard task now).overdueBanner = true ↔
      (∃ d, task.deadline = some d ∧ d < now) ∧ task.submission_status = some "not_submitted") ∧
    ((renderTaskCard task now).isOverdue = (renderTaskCard task now).overdueBanner) ∧
    (task.deadline = some now → (renderTaskCard task now).overdueBanner = false) ∧
    ((task.submission_status = some "pending" ∨ task.submission_status = some "approved" ∨
        task.submission_status = some "rejected") →
      (renderTaskCard task now).overdueBanner = false) := by
  have key : (renderTaskCard task now).overdueBanner = true ↔
      (∃ d, task.deadline = some d ∧ d < now) ∧ task.submission_status = some "not_submitted" := by
    unfold renderTaskCard deadlinePassed
    cases hd : task.deadline with
    | none => simp
    | some d => simp
  refine ⟨key, ?_, ?_, ?_⟩
  · unfold renderTaskCard
    simp
  · intro hd
    rw [Bool.eq_false_iff]
    intro hb
    obtain ⟨⟨d, hd', hlt⟩, _⟩ := key.mp hb
    rw [hd] at hd'
    simp only [Option.some.injEq] at hd'
    omega
  · intro hst
    rw [Bool.eq_false_iff]
    intro hb
    have h2 := (key.mp hb).2
    rcases hst with h | h | h <;> rw [h] at h2 <;> simp at h2

end StudentTasks

namespace DeptLeaderboard

/-- C13: for every integer `rankChange`, both copies of
`getRankChangeIndicator` show the green upward indicator with the text `+n`
exactly when the number is positive, the red downward indicator with the
number itself exactly when it is negative, and a grey marker without icon
exactly when it is zero: `New` for students and `-` for the department
leaderboard.  The two copies agree on every non-zero input. -/
theorem c13_rank_change_indicator (rankChange : Int) :
    (rankChange > 0 →
      StudentLeaderboard.getRankChangeIndicator rankChange =
        { icon := some "TrendingUp", className := "text-green-600",
          text := "+" ++ toString rankChange } ∧
      getRankChangeIndicator rankChange =
        { icon := some "TrendingUp", className := "text-green-600",
          text := "+" ++ toString rankChange }) ∧
    (rankChange < 0 →
      StudentLeaderboard.getRankChangeIndicator rankChange =
        { icon := some "TrendingDown", className := "text-red-600", text := toString rankChange } ∧
      getRankChangeIndicator rankChange =
        { icon := some "TrendingDown", className := "text-red-600", text := toString rankChange }) ∧
    (rankChange = 0 →
      StudentLeaderboard.getRankChangeIndicator rankChange =
        { icon := none, className := "text-gray-400", text := "New" } ∧
      getRankChangeIndicator rankChange =
        { icon := none, className := "text-gray-400", text := "-" }) ∧
    (((StudentLeaderboard.getRankChangeIndicator rankChange).icon = some "TrendingUp" ↔
        rankChange > 0) ∧
      ((getRankChangeIndicator rankChange).icon = some "TrendingUp" ↔ rankChange > 0)) ∧
    (((StudentLeaderboard.getRankChangeIndicator rankChange).icon = some "TrendingDown" ↔
        rankChange < 0) ∧
      ((getRankChangeIndicator rankChange).icon = some "TrendingDown" ↔ rankChange < 0)) ∧
    (((StudentLeaderboard.getRankChangeIndicator rankChange).icon = none ↔ rankChange = 0) ∧
      ((getRankChangeIndicator rankChange).icon = none ↔ rankChange = 0)) ∧
    (rankChange ≠ 0 →
      StudentLeaderboard.getRankChangeIndicator rankChange = getRankChangeIndicator rankChange) := by
  unfold StudentLeaderboard.getRankChangeIndicator getRankChangeIndicator
  rcases lt_trichotomy rankChange 0 with h | h | h
  · have h1 : ¬ rankChange > 0 := by omega
    have h2 : rankChange ≠ 0 := by omega
    simp [h, h1, h2]
  · subst h
    simp
  · have h1 : ¬ rankChange < 0 := by omega
    have h2 : rankChange ≠ 0 := by omega
    simp [h, h1, h2]

end DeptLeaderboard

namespace EventAttendance

/-- C17: for every list of department updates that the server returns, the
Event Attendance tab shows exactly the updates whose `event_date` is neither
null nor empty, in the order received: the list shown is a sublist of the
response, an update is shown if and only if it is in the response and has an
event date, and none without one is shown. -/
theorem c17_only_events_listed (API : String) (s : State) (data : List DepartmentUpdate) :
    eventsShown (fetchUpdates API s (HttpResult.ok data)) =
      data.filter (fun u => u.hasEventDate) ∧
    (eventsShown (fetchUpdates API s (HttpResult.ok data))).Sublist data ∧
    (∀ u, u ∈ eventsShown (fetchUpdates API s (HttpResult.ok data)) ↔
      u ∈ data ∧ ∃ d, u.event_date = some d ∧ d.text ≠ "") ∧
    (∀ u ∈ eventsShown (fetchUpdates API s (HttpResult.ok data)), u.event_date ≠ none) := by
  have hshown : eventsShown (fetchUpdates API s (HttpResult.ok data)) =
      data.filter (fun u => u.hasEventDate) := rfl
  have hdate : ∀ u : DepartmentUpdate,
      u.hasEventDate = true ↔ ∃ d, u.event_date = some d ∧ d.text ≠ "" := by
    intro u
    unfold DepartmentUpdate.hasEventDate
    cases u.event_date with
    | none => simp
    | some d => simp
  refine ⟨hshown, ?_, ?_, ?_⟩
  · rw [hshown]
    exact List.filter_sublist data
  · intro u
    rw [hshown, List.mem_filter, hdate]
  · intro u hu
    rw [hshown, List.mem_filter, hdate] at hu
    obtain ⟨_, d, hd, _⟩ := hu
    rw [hd]
    simp

end EventAttendance

namespace DepartmentFeed

/-- C16 (failing input): the calendar request of `fetchUpcomingEvents` fails.
The handler shows no toast and changes nothing that is rendered; it only
writes to the console.  The sibling `fetchUpdates` of the same component, in
the same situation, shows the toast `Failed to fetch updates`. -/
theorem c16_fetchUpcomingEvents_failure_is_silent (API : String) (s : State) (now : Int)
    (detail : Option String) :
    (fetchUpcomingEvents API s now (HttpResult.fail detail)).toasts = s.toasts ∧
    (fetchUpcomingEvents API s now (HttpResult.fail detail)).upcomingEvents = s.upcomingEvents ∧
    (fetchUpcomingEvents API s now (HttpResult.fail detail)).updates = s.updates ∧
    (fetchUpcomingEvents API s now (HttpResult.fail detail)).loading = s.loading ∧
    (fetchUpcomingEvents API s now (HttpResult.fail detail)).selectedCategory =
      s.selectedCategory ∧
    (fetchUpcomingEvents API s now (HttpResult.fail detail)).consoleErrors =
      s.consoleErrors ++ ["Failed to fetch upcoming events"] ∧
    (fetchUpdates API s (HttpResult.fail detail)).toasts =
      s.toasts ++ [Toast.error "Failed to fetch updates"] :=
  ⟨rfl, rfl, rfl, rfl, rfl, rfl, rfl⟩

end DepartmentFeed

namespace DepartmentUpdates

theorem toggleSectionForm_mem (prev : FormData) (section_ x : String) :
    x ∈ (toggleSectionForm prev section_).visible_to_sections ↔
      if x = section_ then section_ ∉ prev.visible_to_sections
      else x ∈ prev.visible_to_sections := by
  unfold toggleSectionForm
  by_cases hc : prev.visible_to_sections.contains section_ = true
  · have hmem : section_ ∈ prev.visible_to_sections := by simpa using hc
    simp only [hc, if_true, List.mem_filter, bne_iff_ne, ne_eq]
    by_cases hx : x = section_
    · subst hx
      simp [hmem]
    · simp [hx]
  · have hmem : section_ ∉ prev.visible_to_sections := by simpa using hc
    simp only [hc, List.mem_append, List.mem_singleton]
    by_cases hx : x = section_
    · subst hx
      simp [hmem]
    · simp [hx]

theorem toggleSectionForm_nodup (prev : FormData) (section_ : String)
    (h : prev.visible_to_sections.Nodup) :
    (toggleSectionForm prev section_).visible_to_sections.Nodup := by
  unfold toggleSectionForm
  by_cases hc : prev.visible_to_sections.contains section_ = true
  · simp only [hc, if_true]
    exact h.filter _
  · have hmem : section_ ∉ prev.visible_to_sections := by simpa using hc
    rw [if_neg hc]
    rw [List.nodup_append]
    refine ⟨h, List.nodup_singleton _, ?_⟩
    intro a ha hb
    rw [List.mem_singleton] at hb
    subst hb
    exact hmem ha

theorem updates_fetchUpdates_formData (API : String) (s : State)
    (r : HttpResult (List DepartmentUpdate)) : (fetchUpdates API s r).formData = s.formData := by
  unfold fetchUpdates
  cases r <;> rfl

theorem updates_handleSubmit_formData (API : String) (s : State) (resp : HttpResult Unit)
    (ur : HttpResult (List DepartmentUpdate)) :
    (handleSubmit API s resp ur).formData = s.formData ∨
      (handleSubmit API s resp ur).formData = emptyForm := by
  unfold handleSubmit
  cases resp with
  | ok u =>
    right
    simp only [updates_fetchUpdates_formData]
  | fail d => exact Or.inl rfl

theorem updates_handleDelete_formData (API : String) (s : State) (updateId : String)
    (confirmed : Bool) (resp : HttpResult Unit) (ur : HttpResult (List DepartmentUpdate)) :
    (handleDelete API s updateId confirmed resp ur).formData = s.formData := by
  unfold handleDelete
  cases confirmed with
  | false => rfl
  | true =>
    cases resp with
    | ok u => simp only [updates_fetchUpdates_formData, Bool.not_true, Bool.false_eq_true, if_false]
    | fail d => rfl

theorem updates_emptyForm_inv (s : State) (h : s.formData = emptyForm) : Inv s := by
  unfold Inv
  rw [h]
  exact ⟨List.nodup_nil, fun x hx => absurd hx (List.not_mem_nil x)⟩

theorem updates_inv_of_formData (s s' : State) (h : Inv s) (hf : s'.formData = s.formData) :
    Inv s' := by
  unfold Inv at *
  rw [hf]
  exact h

theorem updates_inv_of_sections (s s' : State) (h : Inv s)
    (hf : s'.formData.visible_to_sections = s.formData.visible_to_sections) : Inv s' := by
  unfold Inv at *
  rw [hf]
  exact h

theorem updates_step_inv (API : String) (s : State) (ev : Event) (h : Inv s) :
    Inv (step API s ev) := by
  cases ev with
  | mount resp => exact updates_inv_of_formData s _ h (updates_fetchUpdates_formData API s resp)
  | setDialogOpen b => exact h
  | setTitle v =>
    simp only [step]
    split
    · exact updates_inv_of_sections s _ h rfl
    · exact h
  | setDescription v =>
    simp only [step]
    split
    · exact updates_inv_of_sections s _ h rfl
    · exact h
  | setCategory i =>
    simp only [step]
    split
    · exact updates_inv_of_sections s _ h rfl
    · exact h
  | setEventDate v =>
    simp only [step]
    split
    · exact updates_inv_of_sections s _ h rfl
    · exact h
  | clickSection i =>
    simp only [step]
    split
    · unfold Inv toggleSection
      refine ⟨toggleSectionForm_nodup _ _ h.1, ?_⟩
      intro x hx
      rw [toggleSectionForm_mem] at hx
      by_cases hxs : x = SECTIONS.get i
      · rw [hxs]
        exact List.get_mem SECTIONS i.1 i.2
      · rw [if_neg hxs] at hx
        exact h.2 x hx
    · exact h
  | submitForm resp updatesResp =>
    simp only [step]
    split
    · rcases updates_handleSubmit_formData API s resp updatesResp with hf | hf
      · exact updates_inv_of_formData s _ h hf
      · exact updates_emptyForm_inv _ hf
    · exact h
  | clickDelete i confirmed resp updatesResp =>
    simp only [step]
    split
    · split
      · exact updates_inv_of_formData s _ h (updates_handleDelete_formData API s _ _ _ _)
      · exact h
    · exact h

theorem updates_runFrom_inv (API : String) (evs : List Event) :
    ∀ s : State, Inv s → Inv (runFrom API s evs) := by
  induction evs with
  | nil => intro s h; exact h
  | cons ev evs ih =>
    intro s h
    exact ih (step API s ev) (updates_step_inv API s ev h)

/-- C18: after every sequence of events of the Department Updates tab (section
buttons, the other form fields, opening and closing the dialog, submissions
with any outcome and the reset that follows a success, deletions),
`formData.visible_to_sections` has no duplicate and holds only labels of
`SECTIONS`, that is of A, B, C, D.  For every form, `toggleSection(s)` makes
`s` a member if and only if it was not one, keeps the membership of every
other label and leaves the other fields of the form as they were. -/
theorem c18_visible_sections_form_a_set (API : String) (evs : List Event) :
    (run API evs).formData.visible_to_sections.Nodup ∧
    (∀ x ∈ (run API evs).formData.visible_to_sections, x ∈ ["A", "B", "C", "D"]) ∧
    (∀ (prev : FormData) (section_ : String),
      (section_ ∈ (toggleSectionForm prev section_).visible_to_sections ↔
        section_ ∉ prev.visible_to_sections) ∧
      (∀ other : String, other ≠ section_ →
        (other ∈ (toggleSectionForm prev section_).visible_to_sections ↔
          other ∈ prev.visible_to_sections)) ∧
      (toggleSectionForm prev section_).title = prev.title ∧
      (toggleSectionForm prev section_).description = prev.description ∧
      (toggleSectionForm prev section_).category = prev.category ∧
      (toggleSectionForm prev section_).event_date = prev.event_date) ∧
    (∀ (s : State) (section_ : String),
      (toggleSection s section_).formData = toggleSectionForm s.formData section_) := by
  have hinv : Inv (run API evs) :=
    updates_runFrom_inv API evs init (updates_emptyForm_inv init rfl)
  refine ⟨hinv.1, hinv.2, ?_, fun _ _ => rfl⟩
  intro prev section_
  refine ⟨?_, ?_, rfl, rfl, rfl, rfl⟩
  · rw [toggleSectionForm_mem]
    simp
  · intro other hne
    rw [toggleSectionForm_mem]
    simp [hne]

end DepartmentUpdates

namespace Engine

theorem earlier_trichotomy (f g : Option Nat) :
    earlier f g = true ∨ f = g ∨ earlier g f = true := by
  cases f with
  | none =>
    cases g with
    | none => exact Or.inr (Or.inl rfl)
    | some y => exact Or.inr (Or.inr rfl)
  | some x =>
    cases g with
    | none => exact Or.inl rfl
    | some y =>
      simp only [earlier, decide_eq_true_eq, Option.some.injEq]
      omega

theorem earlier_irrefl (f : Option Nat) : earlier f f = false := by
  cases f with
  | none => rfl
  | some x => simp [earlier]

theorem earlier_trans (f g h : Option Nat) (h1 : earlier f g = true) (h2 : earlier g h = true) :
    earlier f h = true := by
  cases f with
  | none => simp [earlier] at h1
  | some x =>
    cases g with
    | none => simp [earlier] at h2
    | some y =>
      cases h with
      | none => rfl
      | some z =>
        simp only [earlier, decide_eq_true_eq] at *
        omega

theorem earlier_asymm (f g : Option Nat) (h1 : earlier f g = true) : earlier g f = false := by
  cases f with
  | none => simp [earlier] at h1
  | some x =>
    cases g with
    | none => rfl
    | some y =>
      simp only [earlier, decide_eq_true_eq, decide_eq_false_iff_not] at *
      omega

theorem standsBefore_iff (ledger : Ledger) (a b : String) :
    standsBefore ledger a b = true ↔
      (totalPoints ledger b < totalPoints ledger a ∨
        (totalPoints ledger a = totalPoints ledger b ∧
          (earlier (firstEarned ledger a) (firstEarned ledger b) = true ∨
            (firstEarned ledger a = firstEarned ledger b ∧ a ≤ b)))) := by
  unfold standsBefore
  simp only [Bool.or_eq_true, Bool.and_eq_true, decide_eq_true_eq]

theorem standsBefore_total (ledger : Ledger) (a b : String) :
    standsBefore ledger a b = true ∨ standsBefore ledger b a = true := by
  rw [standsBefore_iff, standsBefore_iff]
  rcases lt_trichotomy (totalPoints ledger a) (totalPoints ledger b) with h | h | h
  · exact Or.inr (Or.inl h)
  · rcases earlier_trichotomy (firstEarned ledger a) (firstEarned ledger b) with hf | hf | hf
    · exact Or.inl (Or.inr ⟨h, Or.inl hf⟩)
    · rcases le_total a b with hab | hab
      · exact Or.inl (Or.inr ⟨h, Or.inr ⟨hf, hab⟩⟩)
      · exact Or.inr (Or.inr ⟨h.symm, Or.inr ⟨hf.symm, hab⟩⟩)
    · exact Or.inr (Or.inr ⟨h.symm, Or.inl hf⟩)
  · exact Or.inl (Or.inl h)

theorem standsBefore_trans (ledger : Ledger) (a b c : String)
    (hab : standsBefore ledger a b = true) (hbc : standsBefore ledger b c = true) :
    standsBefore ledger a c = true := by
  rw [standsBefore_iff] at *
  rcases hab with h1 | ⟨h1, h1'⟩
  · rcases hbc with h2 | ⟨h2, _⟩
    · exact Or.inl (by omega)
    · exact Or.inl (by omega)
  · rcases hbc with h2 | ⟨h2, h2'⟩
    · exact Or.inl (by omega)
    · refine Or.inr ⟨by omega, ?_⟩
      rcases h1' with e1 | ⟨e1, l1⟩
      · rcases h2' with e2 | ⟨e2, _⟩
        · exact Or.inl (earlier_trans _ _ _ e1 e2)
        · rw [← e2]
          exact Or.inl e1
      · rcases h2' with e2 | ⟨e2, l2⟩
        · rw [e1]
          exact Or.inl e2
        · exact Or.inr ⟨e1.trans e2, le_trans l1 l2⟩

theorem standsBefore_antisymm (ledger : Ledger) (a b : String)
    (hab : standsBefore ledger a b = true) (hba : standsBefore ledger b a = true) : a = b := by
  rw [standsBefore_iff] at *
  rcases hab with h1 | ⟨h1, h1'⟩
  · rcases hba with h2 | ⟨h2, _⟩
    · omega
    · omega
  · rcases hba with h2 | ⟨_, h2'⟩
    · omega
    · rcases h1' with e1 | ⟨e1, l1⟩
      · rcases h2' with e2 | ⟨e2, _⟩
        · rw [earlier_asymm _ _ e1] at e2
          cases e2
        · rw [e2, earlier_irrefl] at e1
          cases e1
      · rcases h2' with e2 | ⟨_, l2⟩
        · rw [e1, earlier_irrefl] at e2
          cases e2
        · exact le_antisymm l1 l2

theorem rowBefore_snapshot (input : StandingsInput) (a b : String) (i j : Nat) :
    rowBefore input.ledger (snapshot input a i) (snapshot input b j) ↔
      standsBefore input.ledger a b = true := by
  rw [standsBefore_iff]
  rfl

theorem mem_assignRanks (input : StandingsInput) (l : List String) :
    ∀ (start : Nat) (row : LeaderboardSnapshot), row ∈ assignRanks input start l →
      ∃ student ∈ l, ∃ k, row = snapshot input student k := by
  induction l with
  | nil => intro start row h; simp [assignRanks] at h
  | cons s rest ih =>
    intro start row h
    simp only [assignRanks, List.mem_cons] at h
    rcases h with h | h
    · exact ⟨s, List.mem_cons_self _ _, start, h⟩
    · obtain ⟨student, hmem, k, hk⟩ := ih (start + 1) row h
      exact ⟨student, List.mem_cons_of_mem _ hmem, k, hk⟩

theorem assignRanks_ids (input : StandingsInput) (l : List String) :
    ∀ start : Nat, (assignRanks input start l).map (fun r => r.student_id) = l := by
  induction l with
  | nil => intro start; rfl
  | cons s rest ih =>
    intro start
    simp only [assignRanks, List.map_cons, ih]
    rfl

theorem assignRanks_pairwise (input : StandingsInput) (l : List String)
    (h : l.Pairwise (fun a b => standsBefore input.ledger a b = true)) :
    ∀ start : Nat, (assignRanks input start l).Pairwise (rowBefore input.ledger) := by
  induction l with
  | nil => intro start; exact List.Pairwise.nil
  | cons s rest ih =>
    intro start
    rw [List.pairwise_cons] at h
    simp only [assignRanks, List.pairwise_cons]
    refine ⟨?_, ih h.2 (start + 1)⟩
    intro row hrow
    obtain ⟨student, hmem, k, hk⟩ := mem_assignRanks input rest (start + 1) row hrow
    rw [hk, rowBefore_snapshot]
    exact h.1 student hmem

theorem assignRanks_get (input : StandingsInput) (l : List String) :
    ∀ (start i : Nat) (row : LeaderboardSnapshot), (assignRanks input start l).get? i = some row →
      row.rank = start + i ∧ row.total_points = totalPoints input.ledger row.student_id := by
  induction l with
  | nil => intro start i row h; simp [assignRanks] at h
  | cons s rest ih =>
    intro start i row h
    cases i with
    | zero =>
      simp only [assignRanks, List.get?_cons_zero, Option.some.injEq] at h
      subst h
      exact ⟨rfl, rfl⟩
    | succ i =>
      simp only [assignRanks, List.get?_cons_succ] at h
      obtain ⟨h1, h2⟩ := ih (start + 1) i row h
      exact ⟨by omega, h2⟩

theorem assignRanks_students (input : StandingsInput) (students : List StudentRecord)
    (l : List String) :
    ∀ start : Nat,
      assignRanks { input with students := students } start l = assignRanks input start l := by
  induction l with
  | nil => intro start; rfl
  | cons s rest ih =>
    intro start
    simp only [assignRanks, ih]
    rfl

theorem sorted_ids (ledger : Ledger) (l : List String) :
    (l.insertionSort (fun a b => standsBefore ledger a b = true)).Pairwise
      (fun a b => standsBefore ledger a b = true) := by
  haveI : IsTotal String (fun a b => standsBefore ledger a b = true) :=
    ⟨standsBefore_total ledger⟩
  haveI : IsTrans String (fun a b => standsBefore ledger a b = true) :=
    ⟨standsBefore_trans ledger⟩
  exact List.sorted_insertionSort _ l

theorem sorted_ids_unique (ledger : Ledger) (l l' : List String) (h : l'.Perm l) :
    l'.insertionSort (fun a b => standsBefore ledger a b = true) =
      l.insertionSort (fun a b => standsBefore ledger a b = true) := by
  haveI : IsAntisymm String (fun a b => standsBefore ledger a b = true) :=
    ⟨standsBefore_antisymm ledger⟩
  apply List.eq_of_perm_of_sorted _ (sorted_ids ledger l') (sorted_ids ledger l)
  exact ((List.perm_insertionSort _ l').trans h).trans (List.perm_insertionSort _ l).symm

/-- C11 (modelled from the spec): the standings are a total order with
deterministic tie-breaks.  The rows of `computeStandings` are the students of
the scope; of any two rows the earlier one has more points, or the same points
and the earlier first point-earning entry, or both equal and the lower (or
same) student identifier; the row at position i, counting from 1, has rank i
and carries the student's ledger total.  The underlying order compares any two
students and never both ways unless they are the same student, so the result
does not depend on the order in which the students are supplied.  The
department leaderboard tab shows the rows it receives in the order received,
each with the rank it carries. -/
theorem c11_standings_total_order (input : StandingsInput) (scope : Scope) :
    ((computeStandings input scope).map (fun r => r.student_id)).Perm
      (studentsInScope input scope) ∧
    (computeStandings input scope).Pairwise (rowBefore input.ledger) ∧
    (∀ (i : Nat) (row : LeaderboardSnapshot), (computeStandings input scope).get? i = some row →
      row.rank = i + 1 ∧ row.total_points = totalPoints input.ledger row.student_id) ∧
    (∀ a b : String,
      standsBefore input.ledger a b = true ∨ standsBefore input.ledger b a = true) ∧
    (∀ a b : String,
      standsBefore input.ledger a b = true → standsBefore input.ledger b a = true → a = b) ∧
    (∀ students : List StudentRecord,
      (studentsInScope { input with students := students } scope).Perm
          (studentsInScope input scope) →
        computeStandings { input with students := students } scope =
          computeStandings input scope) ∧
    (∀ (API department : String) (s : DeptLeaderboard.State)
        (rows : List StudentLeaderboard.Performer)
        (topResp : HttpResult (List StudentLeaderboard.Performer)),
      DeptLeaderboard.rowsShown
          (DeptLeaderboard.fetchLeaderboard API department s (HttpResult.ok rows) topResp) =
        rows) := by
  refine ⟨?_, ?_, ?_, standsBefore_total input.ledger, standsBefore_antisymm input.ledger, ?_, ?_⟩
  · unfold computeStandings
    rw [assignRanks_ids]
    exact List.perm_insertionSort _ _
  · unfold computeStandings
    exact assignRanks_pairwise input _ (sorted_ids input.ledger _) 1
  · intro i row h
    unfold computeStandings at h
    obtain ⟨h1, h2⟩ := assignRanks_get input _ 1 i row h
    exact ⟨by omega, h2⟩
  · intro students hperm
    unfold computeStandings
    rw [assignRanks_students]
    congr 1
    exact sorted_ids_unique input.ledger _ _ hperm
  · intro API department s rows topResp
    unfold DeptLeaderboard.rowsShown DeptLeaderboard.fetchLeaderboard
    cases topResp <;> rfl

end Engine

namespace StudentLeaderboard

/-- C12 (counterexample): the top-performers request answers with eleven rows;
the tab renders all eleven under "Top 10 students in your department". -/
theorem c12_eleven_performers_shown :
    Examples.elevenPerformers.length = 11 ∧
    (topPerformersShown (fetchLeaderboardData Examples.api init
      (HttpResult.ok (Examples.someStats, Examples.elevenPerformers)))).length = 11 := by
  decide

/-- C12 (amended): the student tab shows the top-performers response as
received: the same rows in the same order, none dropped and none added, so
the list shown has at most 10 students exactly when the response has.  The
limit is applied where the list is produced: `top-performers` is the first 10
rows of the standings of the department and so never has more than 10. -/
theorem c12_top_performers_shown_as_received (API : String) (s : State) (stats : MyStats)
    (top : List Performer) :
    topPerformersShown (fetchLeaderboardData API s (HttpResult.ok (stats, top))) = top ∧
    ((topPerformersShown (fetchLeaderboardData API s (HttpResult.ok (stats, top)))).length ≤ 10 ↔
      top.length ≤ 10) ∧
    (∀ (input : Engine.StandingsInput) (department : String),
      (Engine.topPerformers input department).length ≤ 10 ∧
      Engine.topPerformers input department =
        (Engine.computeStandings input { department := department, section_ := none }).take 10) := by
  have h : topPerformersShown (fetchLeaderboardData API s (HttpResult.ok (stats, top))) = top := rfl
  refine ⟨h, by rw [h], ?_⟩
  intro input department
  refine ⟨?_, rfl⟩
  unfold Engine.topPerformers
  exact List.length_take_le 10 _

end StudentLeaderboard

namespace Engine

theorem entriesOf_award (ledger : Ledger) (awarded student : String) (reason : Reason)
    (delta : Int) (description : String) (timestamp : Nat) :
    entriesOf (award ledger awarded reason delta description timestamp) student =
      entriesOf ledger student ++
        (if awarded = student then
          [{ id := ledger.length, student_id := awarded, delta := delta, reason := reason,
             description := description, timestamp := timestamp }]
         else []) := by
  unfold entriesOf award
  rw [List.filter_append]
  congr 1
  by_cases h : awarded = student
  · simp [List.filter_cons, h]
  · simp [List.filter_cons, h]

theorem markOne_of_mem (eventId : String) (now : Nat) (st : AttendanceState) (student : String)
    (h : (eventId, student) ∈ st.attendance) : markOne eventId now st student = st := by
  unfold markOne
  have hc : st.attendance.contains (eventId, student) = true := by simpa using h
  rw [if_pos hc]

theorem markOne_marked (eventId : String) (now : Nat) (st : AttendanceState) (student : String) :
    (eventId, student) ∈ (markOne eventId now st student).attendance := by
  unfold markOne
  by_cases hc : st.attendance.contains (eventId, student) = true
  · rw [if_pos hc]
    simpa using hc
  · rw [if_neg hc]
    simp

theorem markOne_mono (eventId : String) (now : Nat) (st : AttendanceState) (student : String)
    (p : String × String) (h : p ∈ st.attendance) :
    p ∈ (markOne eventId now st student).attendance := by
  unfold markOne
  by_cases hc : st.attendance.contains (eventId, student) = true
  · rw [if_pos hc]
    exact h
  · rw [if_neg hc]
    exact List.mem_append_left _ h

theorem markOne_entries_other (eventId : String) (now : Nat) (st : AttendanceState)
    (student other : String) (h : student ≠ other ∨ (eventId, student) ∈ st.attendance) :
    entriesOf (markOne eventId now st student).ledger other = entriesOf st.ledger other := by
  unfold markOne
  by_cases hc : st.attendance.contains (eventId, student) = true
  · rw [if_pos hc]
  · rw [if_neg hc]
    have hnot : (eventId, student) ∉ st.attendance := by simpa using hc
    rcases h with h | h
    · simp only [entriesOf_award, if_neg h, List.append_nil]
    · exact absurd h hnot

theorem markOne_entries_new (eventId : String) (now : Nat) (st : AttendanceState)
    (student : String) (h : (eventId, student) ∉ st.attendance) :
    entriesOf (markOne eventId now st student).ledger student =
      entriesOf st.ledger student ++
        [{ id := st.ledger.length, student_id := student, delta := 20,
           reason := Reason.event_attended, description := "Event attendance",
           timestamp := now }] := by
  unfold markOne
  have hc : ¬ st.attendance.contains (eventId, student) = true := by simpa using h
  rw [if_neg hc]
  simp only [entriesOf_award, if_true]
  rfl

/-- C14 (modelled from the spec): `markAttendance` is idempotent per (event,
student).  After `markAttendance(e, [s1, s2])`, a second call
`markAttendance(e, [s1])` changes nothing at all, so the ledger of `s2` (and
of everyone else) is unaffected by it.  After both calls the ledger of `s1`
holds, beyond what it held before, exactly one entry if `s1` had not been
marked for `e` (an `event_attended` entry of +20) and none if it had; on a
fresh engine it holds exactly that one entry. -/
theorem c14_markAttendance_idempotent (st : AttendanceState) (eventId s1 s2 : String)
    (t1 t2 : Nat) :
    markAttendance (markAttendance st eventId [s1, s2] t1) eventId [s1] t2 =
      markAttendance st eventId [s1, s2] t1 ∧
    ((eventId, s1) ∉ st.attendance →
      entriesOf (markAttendance (markAttendance st eventId [s1, s2] t1) eventId [s1] t2).ledger s1 =
        entriesOf st.ledger s1 ++
          [{ id := st.ledger.length, student_id := s1, delta := 20,
             reason := Reason.event_attended, description := "Event attendance",
             timestamp := t1 }] ∧
      attendedCount (markAttendance (markAttendance st eventId [s1, s2] t1) eventId [s1] t2).ledger
          s1 = attendedCount st.ledger s1 + 1) ∧
    ((eventId, s1) ∈ st.attendance →
      entriesOf (markAttendance (markAttendance st eventId [s1, s2] t1) eventId [s1] t2).ledger s1 =
        entriesOf st.ledger s1) ∧
    entriesOf (markAttendance (markAttendance st eventId [s1, s2] t1) eventId [s1] t2).ledger s2 =
      entriesOf (markAttendance st eventId [s1, s2] t1).ledger s2 ∧
    entriesOf (markAttendance (markAttendance { attendance := [], ledger := [] } eventId [s1, s2] t1)
        eventId [s1] t2).ledger s1 =
      [{ id := 0, student_id := s1, delta := 20, reason := Reason.event_attended,
         description := "Event attendance", timestamp := t1 }] := by
  have hfirst : ∀ st0 : AttendanceState, markAttendance st0 eventId [s1, s2] t1 =
      markOne eventId t1 (markOne eventId t1 st0 s1) s2 := fun _ => rfl
  have hsecond : ∀ st0 : AttendanceState,
      markAttendance (markAttendance st0 eventId [s1, s2] t1) eventId [s1] t2 =
        markAttendance st0 eventId [s1, s2] t1 := by
    intro st0
    have hmem : (eventId, s1) ∈ (markAttendance st0 eventId [s1, s2] t1).attendance := by
      rw [hfirst]
      exact markOne_mono _ _ _ _ _ (markOne_marked eventId t1 st0 s1)
    exact markOne_of_mem eventId t2 _ s1 hmem
  have hs2 : ∀ st0 : AttendanceState,
      entriesOf (markAttendance st0 eventId [s1, s2] t1).ledger s1 =
        entriesOf (markOne eventId t1 st0 s1).ledger s1 := by
    intro st0
    rw [hfirst]
    apply markOne_entries_other
    by_cases h : s2 = s1
    · right
      rw [h]
      exact markOne_marked eventId t1 st0 s1
    · exact Or.inl h
  have hnew : ∀ st0 : AttendanceState, (eventId, s1) ∉ st0.attendance →
      entriesOf (markAttendance (markAttendance st0 eventId [s1, s2] t1) eventId [s1] t2).ledger s1 =
        entriesOf st0.ledger s1 ++
          [{ id := st0.ledger.length, student_id := s1, delta := 20,
             reason := Reason.event_attended, description := "Event attendance",
             timestamp := t1 }] := by
    intro st0 h
    rw [hsecond, hs2, markOne_entries_new eventId t1 st0 s1 h]
  refine ⟨hsecond st, ?_, ?_, ?_, ?_⟩
  · intro h
    refine ⟨hnew st h, ?_⟩
    unfold attendedCount
    rw [hnew st h, List.filter_append, List.length_append]
    rfl
  · intro h
    rw [hsecond, hs2, markOne_of_mem eventId t1 st s1 h]
  · rw [hsecond]
  · exact hnew { attendance := [], ledger := [] } (List.not_mem_nil _)

end Engine

namespace Engine

/-- C15 (modelled from the spec): let a pending submission be reviewed by the
owner of its task's workspace.  Approving it succeeds and appends exactly one
ledger entry, for the submitting student: `task_on_time` with +10 if
`submitted_at` is at or before the deadline, `task_late` with -5 if it is
after.  Rejecting it succeeds and leaves the ledger as it is. -/
theorem c15_review_appends_ledger_entry (st : ReviewState) (reviewer submissionId : String)
    (comment : Option String) (now : Nat) (sub : SubmissionRecord) (task : TaskRecord)
    (hsub : st.submissions.find? (fun x => x.id == submissionId) = some sub)
    (htask : st.tasks.find? (fun t => t.id == sub.task_id) = some task)
    (howner : ownerOf st task = some reviewer)
    (hpending : sub.status = SubmissionStatus.pending) :
    (∃ st', review st reviewer submissionId ReviewDecision.approve comment now = Except.ok st' ∧
      st'.ledger = st.ledger ++
        [{ id := st.ledger.length, student_id := sub.student_id,
           delta := if sub.submitted_at ≤ task.deadline then 10 else -5,
           reason := if sub.submitted_at ≤ task.deadline then Reason.task_on_time
                     else Reason.task_late,
           description := "Task reviewed", timestamp := now }]) ∧
    (∃ st', review st reviewer submissionId ReviewDecision.reject comment now = Except.ok st' ∧
      st'.ledger = st.ledger) := by
  constructor
  · unfold review
    rw [hsub]
    simp only
    rw [htask]
    simp only [howner, hpending, ne_eq, not_true_eq_false, if_false]
    refine ⟨_, rfl, ?_⟩
    simp only [award, classifySubmission]
    by_cases h : sub.submitted_at ≤ task.deadline
    · simp only [h, if_true]
      rfl
    · simp only [h, if_false]
      rfl
  · unfold review
    rw [hsub]
    simp only
    rw [htask]
    simp only [howner, hpending, ne_eq, not_true_eq_false, if_false]
    exact ⟨_, rfl, rfl⟩

/-- C15 (witness): the scenario of a task due 2024-01-10 23:59.  Approving the
submission of 2024-01-10 20:00 adds `+10 task_on_time` for its student;
approving the one of 2024-01-11 08:00 adds `-5 task_late`. -/
theorem c15_review_appends_ledger_entry_witness :
    (∃ st', review Examples.reviewStart "teacher1" "s1" ReviewDecision.approve none 202401120900 =
        Except.ok st' ∧
      st'.ledger =
        [{ id := 0, student_id := "stu1", delta := 10, reason := Reason.task_on_time,
           description := "Task reviewed", timestamp := 202401120900 }]) ∧
    (∃ st', review Examples.reviewStart "teacher1" "s2" ReviewDecision.approve none 202401120900 =
        Except.ok st' ∧
      st'.ledger =
        [{ id := 0, student_id := "stu2", delta := -5, reason := Reason.task_late,
           description := "Task reviewed", timestamp := 202401120900 }]) :=
  ⟨(c15_review_appends_ledger_entry Examples.reviewStart "teacher1" "s1" none 202401120900
      Examples.onTimeSubmission Examples.dueTask (by decide) (by decide) (by decide) rfl).1,
   (c15_review_appends_ledger_entry Examples.reviewStart "teacher1" "s2" none 202401120900
      Examples.lateSubmission Examples.dueTask (by decide) (by decide) (by decide) rfl).1⟩

end Engine

namespace DepartmentFeed

/-- C25: for every calendar response and every current time, the list stored
by `fetchUpcomingEvents` is the first five (or fewer) of the events whose date
is strictly after `now`, in the order received.  It has at most 5 entries,
every entry has a valid date strictly after `now`, it is a prefix of the
future events of the response (so no future event is skipped in favour of a
later-listed one) and a sublist of the response; with five or fewer future
events it is all of them. -/
theorem c25_upcoming_events_first_five (API : String) (s : State) (now : Int)
    (data : List DepartmentUpdate) :
    (fetchUpcomingEvents API s now (HttpResult.ok data)).upcomingEvents =
      (data.filter (isUpcoming now)).take 5 ∧
    (fetchUpcomingEvents API s now (HttpResult.ok data)).upcomingEvents.length ≤ 5 ∧
    (∀ e ∈ (fetchUpcomingEvents API s now (HttpResult.ok data)).upcomingEvents,
      e ∈ data ∧ ∃ t, e.eventTime = some t ∧ now < t) ∧
    (fetchUpcomingEvents API s now (HttpResult.ok data)).upcomingEvents <+:
      data.filter (isUpcoming now) ∧
    (fetchUpcomingEvents API s now (HttpResult.ok data)).upcomingEvents.Sublist data ∧
    ((data.filter (isUpcoming now)).length ≤ 5 →
      (fetchUpcomingEvents API s now (HttpResult.ok data)).upcomingEvents =
        data.filter (isUpcoming now)) := by
  have h : (fetchUpcomingEvents API s now (HttpResult.ok data)).upcomingEvents =
      (data.filter (isUpcoming now)).take 5 := rfl
  have hup : ∀ e : DepartmentUpdate, isUpcoming now e = true ↔ ∃ t, e.eventTime = some t ∧ now < t := by
    intro e
    unfold isUpcoming
    cases e.eventTime with
    | none => simp
    | some t => simp
  refine ⟨h, ?_, ?_, ?_, ?_, ?_⟩
  · rw [h]
    exact List.length_take_le 5 _
  · intro e he
    rw [h] at he
    have hmem := List.mem_of_mem_take he
    rw [List.mem_filter] at hmem
    exact ⟨hmem.1, (hup e).mp hmem.2⟩
  · rw [h]
    exact List.take_prefix 5 _
  · rw [h]
    exact (List.take_sublist 5 _).trans (List.filter_sublist data)
  · intro hlen
    rw [h]
    exact List.take_of_length_le hlen

end DepartmentFeed

namespace DepartmentUpdates

/-- C28: for every form and every section `s`, applying `toggleSection(s)`
twice gives a `visible_to_sections` with the same members as before and leaves
title, description, category and event_date unchanged; when `s` was not
selected at the start, the list is restored exactly. -/
theorem c28_toggleSection_involution (prev : FormData) (section_ : String) :
    (∀ x : String,
      x ∈ (toggleSectionForm (toggleSectionForm prev section_) section_).visible_to_sections ↔
        x ∈ prev.visible_to_sections) ∧
    (toggleSectionForm (toggleSectionForm prev section_) section_).title = prev.title ∧
    (toggleSectionForm (toggleSectionForm prev section_) section_).description =
      prev.description ∧
    (toggleSectionForm (toggleSectionForm prev section_) section_).category = prev.category ∧
    (toggleSectionForm (toggleSectionForm prev section_) section_).event_date = prev.event_date ∧
    (section_ ∉ prev.visible_to_sections →
      toggleSectionForm (toggleSectionForm prev section_) section_ = prev) ∧
    (∀ s : State,
      (toggleSection (toggleSection s section_) section_).formData =
        toggleSectionForm (toggleSectionForm s.formData section_) section_) := by
  refine ⟨?_, rfl, rfl, rfl, rfl, ?_, fun _ => rfl⟩
  · intro x
    rw [toggleSectionForm_mem]
    by_cases hx : x = section_
    · subst hx
      rw [if_pos rfl, toggleSectionForm_mem, if_pos rfl]
      exact not_not
    · rw [if_neg hx, toggleSectionForm_mem, if_neg hx]
  · intro hnot
    have hc : ¬ prev.visible_to_sections.contains section_ = true := by simpa using hnot
    have h1 : toggleSectionForm prev section_ =
        { prev with visible_to_sections := prev.visible_to_sections ++ [section_] } := by
      unfold toggleSectionForm
      rw [if_neg hc]
    rw [h1]
    unfold toggleSectionForm
    have hfilter : prev.visible_to_sections.filter (fun s => s != section_) =
        prev.visible_to_sections := by
      rw [List.filter_eq_self]
      intro a ha
      simp only [bne_iff_ne, ne_eq]
      intro hab
      exact hnot (hab ▸ ha)
    simp [List.filter_append, hfilter]

end DepartmentUpdates

namespace StudentTasks

/-- C26 (counterexample): a task whose `submission_status` is missing, and one
whose status is the unknown value `graded`, both carry the badge `Not
Submitted`, and neither is offered a submit action. -/
theorem c26_not_submitted_badge_without_submit :
    (renderTaskCard Examples.statuslessTask 500).statusInfo.text = "Not Submitted" ∧
    (renderTaskCard Examples.statuslessTask 500).submitButton = none ∧
    (renderTaskCard Examples.gradedTask 500).statusInfo.text = "Not Submitted" ∧
    (renderTaskCard Examples.gradedTask 500).submitButton = none := by
  decide

/-- C26 (amended): `getStatusInfo` gives `Approved`, `Rejected`, `Pending
Review` for `approved`, `rejected`, `pending` and `Not Submitted` for anything
else, missing values included.  The action labelled `Submit` is offered
exactly when the status is `not_submitted`; so every task offered `Submit` has
the badge `Not Submitted`, and a task with that badge is offered `Submit` if
and only if its status is exactly `not_submitted`. -/
theorem c26_badge_and_submit_action (task : Task) (now : Int) :
    (getStatusInfo (some "approved")).text = "Approved" ∧
    (getStatusInfo (some "rejected")).text = "Rejected" ∧
    (getStatusInfo (some "pending")).text = "Pending Review" ∧
    ((task.submission_status ≠ some "approved" ∧ task.submission_status ≠ some "rejected" ∧
        task.submission_status ≠ some "pending") ↔
      (renderTaskCard task now).statusInfo.text = "Not Submitted") ∧
    ((renderTaskCard task now).submitButton = some "Submit" ↔
      task.submission_status = some "not_submitted") ∧
    ((renderTaskCard task now).submitButton = some "Submit" →
      (renderTaskCard task now).statusInfo.text = "Not Submitted") ∧
    ((renderTaskCard task now).statusInfo.text = "Not Submitted" →
      ((renderTaskCard task now).submitButton.isSome = true ↔
        task.submission_status = some "not_submitted")) := by
  have hbadge : (task.submission_status ≠ some "approved" ∧
      task.submission_status ≠ some "rejected" ∧ task.submission_status ≠ some "pending") ↔
      (renderTaskCard task now).statusInfo.text = "Not Submitted" := by
    unfold renderTaskCard getStatusInfo
    simp only
    by_cases h1 : task.submission_status = some "approved"
    · simp [h1]
    · by_cases h2 : task.submission_status = some "rejected"
      · simp [h2]
      · by_cases h3 : task.submission_status = some "pending"
        · simp [h3]
        · simp [h1, h2, h3]
  have hsubmit : (renderTaskCard task now).submitButton = some "Submit" ↔
      task.submission_status = some "not_submitted" := by
    unfold renderTaskCard
    simp only
    by_cases hn : task.submission_status = some "not_submitted"
    · simp [hn]
    · by_cases hr : task.submission_status = some "rejected"
      · simp [hr]
      · simp [hn, hr]
  refine ⟨rfl, rfl, rfl, hbadge, hsubmit, ?_, ?_⟩
  · intro h
    have hs := hsubmit.mp h
    apply hbadge.mp
    rw [hs]
    decide
  · intro hb
    have hne := hbadge.mpr hb
    unfold renderTaskCard
    simp only
    by_cases hn : task.submission_status = some "not_submitted"
    · simp [hn]
    · simp [hn, hne.2.1]

end StudentTasks

namespace DepartmentFeed

/-- C24: with times as integer milliseconds, for an event at time `date` read
at time `now`: if the event is strictly after `now`, `formatEventDate` does not
return `Today`; it returns `Tomorrow` if the event is at most 24 hours ahead,
`in N days` for 2 <= N <= 6 if it is more than N-1 and at most N days ahead,
and the formatted calendar date if it is more than 6 days ahead.  `Today` is
returned exactly when the event is at most `now` and less than 24 hours in the
past. -/
theorem c24_formatEventDate_ranges (text : String) (date now : Int) :
    (now < date →
      formatEventDate { text := text, time := some date } now ≠ EventDateText.today) ∧
    (now < date → date - now ≤ 86400000 →
      formatEventDate { text := text, time := some date } now = EventDateText.tomorrow) ∧
    (∀ N : Int, 2 ≤ N → N ≤ 6 → (N - 1) * 86400000 < date - now → date - now ≤ N * 86400000 →
      formatEventDate { text := text, time := some date } now = EventDateText.inDays N) ∧
    (6 * 86400000 < date - now →
      formatEventDate { text := text, time := some date } now =
        EventDateText.localeDate (some date)) ∧
    (formatEventDate { text := text, time := some date } now = EventDateText.today ↔
      date ≤ now ∧ now - date < 86400000) ∧
    diffDays date now * 86400000 - 86400000 < date - now ∧
    date - now ≤ diffDays date now * 86400000 := by
  unfold formatEventDate diffDays
  simp only
  refine ⟨?_, ?_, ?_, ?_, ?_, ?_, ?_⟩
  · intro h
    have hd : ¬ (-((now - date) / 86400000) = 0) := by omega
    rw [if_neg hd]
    split
    · simp
    · split <;> simp
  · intro h1 h2
    have hd0 : ¬ (-((now - date) / 86400000) = 0) := by omega
    have hd1 : -((now - date) / 86400000) = 1 := by omega
    rw [if_neg hd0, if_pos hd1]
  · intro N h2 h6 hlo hhi
    have hd : -((now - date) / 86400000) = N := by omega
    rw [hd]
    have hd0 : ¬ N = 0 := by omega
    have hd1 : ¬ N = 1 := by omega
    have hd7 : N < 7 := by omega
    rw [if_neg hd0, if_neg hd1, if_pos hd7]
  · intro h
    have hd0 : ¬ (-((now - date) / 86400000) = 0) := by omega
    have hd1 : ¬ (-((now - date) / 86400000) = 1) := by omega
    have hd7 : ¬ (-((now - date) / 86400000) < 7) := by omega
    rw [if_neg hd0, if_neg hd1, if_neg hd7]
  · constructor
    · intro h
      by_cases hd0 : -((now - date) / 86400000) = 0
      · omega
      · rw [if_neg hd0] at h
        split at h
        · cases h
        · split at h <;> cases h
    · intro h
      have hd0 : -((now - date) / 86400000) = 0 := by omega
      rw [if_pos hd0]
  · omega
  · omega

end DepartmentFeed

namespace AdminDashboard

/-- C27 (failing input): the entry `Workspaces` of the admin dashboard's
`navItems` has the path `/admin/workspaces`, and no route with the path
`/workspaces` is declared, so the entry leads to no page.  The other three
entries of the admin dashboard, and all entries of the student dashboard and
of the department-admin dashboard, lead to a declared route. -/
theorem c27_workspaces_item_has_no_route :
    routeFor base routes { path := "/admin/workspaces", label := "Workspaces" } = none ∧
    navItems.map (fun item => (routeFor base routes item).map (fun r => r.element)) =
      [some "OverviewTab", none, some "MaterialsTab", some "TasksTab"] ∧
    StudentDashboard.navItems.map
        (fun item => (routeFor StudentDashboard.base StudentDashboard.routes item).map
          (fun r => r.path)) =
      [some "/", some "/tasks", some "/materials"] ∧
    DepartmentAdminDashboard.tabs.map
        (fun item => (routeFor DepartmentAdminDashboard.base DepartmentAdminDashboard.routes
          item).map (fun r => r.path)) =
      [some "/updates", some "/leaderboard", some "/attendance"] := by
  decide

end AdminDashboard

namespace AdminTasks

theorem admin_fetchTasks_taskData (API : String) (s : State) (r : HttpResult (List Task)) :
    (fetchTasks API s r).taskData = s.taskData := by
  unfold fetchTasks
  cases s.selectedWorkspace <;> cases r <;> rfl

theorem admin_effect_taskData (API : String) (old : Option Workspace) (s : State)
    (r : HttpResult (List Task)) : (selectedWorkspaceEffect API old s r).taskData = s.taskData := by
  unfold selectedWorkspaceEffect
  split
  · rfl
  · exact admin_fetchTasks_taskData API s r

theorem admin_fetchWorkspaces_taskData (API : String) (s : State)
    (r : HttpResult (List Workspace)) : (fetchWorkspaces API s r).taskData = s.taskData := by
  unfold fetchWorkspaces
  cases r with
  | ok data => cases data <;> rfl
  | fail d => rfl

theorem admin_viewSubmissions_taskData (API : String) (s : State) (task : Option Task)
    (r : HttpResult SubmissionsData) : (viewSubmissions API s task r).taskData = s.taskData := by
  unfold viewSubmissions
  cases task <;> cases r <;> rfl

theorem admin_submitReview_taskData (API : String) (s : State) (status : String)
    (resp : HttpResult Unit) (sr : HttpResult SubmissionsData) :
    (submitReview API s status resp sr).taskData = s.taskData := by
  unfold submitReview
  split
  · rfl
  · cases resp with
    | ok u => simp only [admin_viewSubmissions_taskData]
    | fail d => rfl

theorem admin_handleCreateTask_taskData (API : String) (s : State) (resp : HttpResult Unit)
    (tr : HttpResult (List Task)) :
    (handleCreateTask API s resp tr).taskData = s.taskData ∨
      (handleCreateTask API s resp tr).taskData = emptyTaskData := by
  unfold handleCreateTask
  split
  · exact Or.inl rfl
  · cases resp with
    | ok u =>
      right
      simp only [admin_fetchTasks_taskData]
    | fail d => exact Or.inl rfl

theorem admin_typeInv_of_eq (s s' : State) (h : TypeInv s) (he : s'.taskData = s.taskData) :
    TypeInv s' := by
  unfold TypeInv at *
  rw [he]
  exact h

theorem admin_typeInv_of_type (s s' : State) (h : TypeInv s)
    (he : s'.taskData.submission_type = s.taskData.submission_type) : TypeInv s' := by
  unfold TypeInv at *
  rw [he]
  exact h

theorem admin_typeInv_empty (s : State) (he : s.taskData = emptyTaskData) : TypeInv s := by
  unfold TypeInv
  rw [he]
  decide

theorem admin_step_typeInv (API : String) (s : State) (ev : Event) (h : TypeInv s) :
    TypeInv (step API s ev) := by
  cases ev with
  | mount wsResp tasksResp =>
    apply admin_typeInv_of_eq s _ h
    simp only [step, admin_effect_taskData, admin_fetchWorkspaces_taskData]
  | selectWorkspace id tasksResp =>
    simp only [step]
    split
    · apply admin_typeInv_of_eq s _ h
      simp only [admin_effect_taskData]
    · exact h
  | setDialogOpen b =>
    simp only [step]
    split <;> exact h
  | setTitle v =>
    simp only [step]
    split
    · exact admin_typeInv_of_type s _ h rfl
    · exact h
  | setDescription v =>
    simp only [step]
    split
    · exact admin_typeInv_of_type s _ h rfl
    · exact h
  | setDeadline v =>
    simp only [step]
    split
    · exact admin_typeInv_of_type s _ h rfl
    · exact h
  | setSubmissionType item =>
    simp only [step]
    split
    · unfold TypeInv
      cases item <;> simp [SubmissionTypeItem.value, submissionTypes]
    · exact h
  | submitCreate resp tasksResp =>
    simp only [step]
    split
    · rcases admin_handleCreateTask_taskData API s resp tasksResp with he | he
      · exact admin_typeInv_of_eq s _ h he
      · exact admin_typeInv_empty _ he
    · exact h
  | clickViewSubmissions i resp =>
    simp only [step]
    split
    · split
      · exact admin_typeInv_of_eq s _ h (admin_viewSubmissions_taskData API s _ resp)
      · exact h
    · exact h
  | closeSubmissions =>
    simp only [step]
    split <;> exact h
  | clickReview j =>
    simp only [step]
    split
    · split
      · split
        · split
          · exact admin_typeInv_of_eq s _ h rfl
          · exact h
        · exact h
      · exact h
    · exact h
  | setReviewComment v =>
    simp only [step]
    split <;> exact h
  | closeReview =>
    simp only [step]
    split <;> exact h
  | clickDecision approve resp subsResp =>
    simp only [step]
    split
    · exact admin_typeInv_of_eq s _ h (admin_submitReview_taskData API s _ resp subsResp)
    · exact h

theorem admin_runFrom_typeInv (API : String) (evs : List Event) :
    ∀ s : State, TypeInv s → TypeInv (runFrom API s evs) := by
  induction evs with
  | nil => intro s h; exact h
  | cons ev evs ih =>
    intro s h
    exact ih (step API s ev) (admin_step_typeInv API s ev h)

/-- C21: after every sequence of events of the teacher's task tab (form
fields, the submission-type selector, submissions with any outcome and the
reset that follows a success, everything else the tab offers),
`taskData.submission_type` is one of `any`, `image`, `file`, `link`; it is
`any` initially and after each successful creation.  With a workspace
selected, `handleCreateTask` posts exactly one request, to the tasks of that
workspace, whose payload is `taskData` followed by `workspace_id` set to the
workspace's id; with no workspace selected it sends nothing and reports
`Please select a workspace`. -/
theorem c21_created_task_submission_type (API : String) (evs : List Event) :
    ((run API evs).taskData.submission_type = "any" ∨
      (run API evs).taskData.submission_type = "image" ∨
      (run API evs).taskData.submission_type = "file" ∨
      (run API evs).taskData.submission_type = "link") ∧
    init.taskData.submission_type = "any" ∧
    (∀ (s : State) (w : Workspace) (tr : HttpResult (List Task)), s.selectedWorkspace = some w →
      (handleCreateTask API s (HttpResult.ok ()) tr).taskData.submission_type = "any") ∧
    (∀ (s : State) (w : Workspace) (resp : HttpResult Unit) (tr : HttpResult (List Task)),
      s.selectedWorkspace = some w →
      postsSent s (handleCreateTask API s resp tr) =
        [Request.mk Method.POST (API ++ "/workspaces/" ++ w.id ++ "/tasks")
          (Body.json
            [("title", s.taskData.title), ("description", s.taskData.description),
             ("deadline", s.taskData.deadline),
             ("submission_type", s.taskData.submission_type), ("workspace_id", w.id)])]) ∧
    (∀ (s : State) (resp : HttpResult Unit) (tr : HttpResult (List Task)),
      s.selectedWorkspace = none →
      (handleCreateTask API s resp tr).requests = s.requests ∧
      (handleCreateTask API s resp tr).toasts =
        s.toasts ++ [Toast.error "Please select a workspace"] ∧
      (handleCreateTask API s resp tr).taskData = s.taskData) := by
  refine ⟨?_, rfl, ?_, ?_, ?_⟩
  · have h : TypeInv (run API evs) :=
      admin_runFrom_typeInv API evs init (admin_typeInv_empty init rfl)
    unfold TypeInv submissionTypes at h
    simpa using h
  · intro s w tr hw
    unfold handleCreateTask
    rw [hw]
    simp only [admin_fetchTasks_taskData]
    rfl
  · intro s w resp tr hw
    unfold handleCreateTask postsSent
    rw [hw]
    cases resp with
    | ok u =>
      simp only
      unfold fetchTasks
      simp only [hw]
      cases tr <;> simp
    | fail d => simp
  · intro s resp tr hw
    unfold handleCreateTask
    rw [hw]
    exact ⟨rfl, rfl, rfl⟩

end AdminTasks

namespace AdminMaterials

/-- C29: a busy flag never stays set.  `handleJoin` (joining) and the
`handleCreateTask` of the assignments tab (creating) always end with the flag
false.  `handleSubmit` (submitting), `handleUpload` (uploading), the
`handleCreateTask` of the workspace task tab (creating) and
`handleMarkAttendance` (loading) end with the flag false whenever they get
past their first check, whatever the outcome of the request, including the
return of `handleSubmit` after `Please provide a file or link`; on the first
check (no selected task, no file, no workspace, no student) they return
without having touched the flag.  So each handler started with its flag false
ends with it false. -/
theorem c29_busy_flag_cleared (API : String) :
    (∀ (s : StudentTasks.State) (resp : HttpResult Unit) (tr : HttpResult (List Task)),
      (s.selectedTask ≠ none → (StudentTasks.handleSubmit API s resp tr).submitting = false) ∧
      (s.selectedTask = none → StudentTasks.handleSubmit API s resp tr = s) ∧
      (s.submitting = false → (StudentTasks.handleSubmit API s resp tr).submitting = false)) ∧
    (∀ (s : JoinTab.State) (resp : HttpResult (Option JoinTab.JoinData))
        (wr : HttpResult (List Workspace)),
      (JoinTab.handleJoin API s resp wr).joining = false) ∧
    (∀ (s : State) (resp : HttpResult Unit) (mr : HttpResult (List StudentDashboard.Material)),
      (s.uploadData.file ≠ none → (handleUpload API s resp mr).uploading = false) ∧
      (s.uploadData.file = none → (handleUpload API s resp mr).uploading = s.uploading) ∧
      (s.uploading = false → (handleUpload API s resp mr).uploading = false)) ∧
    (∀ (s : AdminTasks.State) (resp : HttpResult Unit) (tr : HttpResult (List Task)),
      (s.selectedWorkspace ≠ none → (AdminTasks.handleCreateTask API s resp tr).creating = false) ∧
      (s.selectedWorkspace = none →
        (AdminTasks.handleCreateTask API s resp tr).creating = s.creating) ∧
      (s.creating = false → (AdminTasks.handleCreateTask API s resp tr).creating = false)) ∧
    (∀ (s : AdminAssignments.State) (resp : HttpResult Unit)
        (tr : HttpResult (List StudentDashboard.SimpleTask)),
      (AdminAssignments.handleCreateTask API s resp tr).creating = false) ∧
    (∀ (s : EventAttendance.State) (resp : HttpResult Unit)
        (ur : HttpResult (List DepartmentUpdate)),
      (s.selectedStudents ≠ [] →
        (EventAttendance.handleMarkAttendance API s resp ur).loading = false) ∧
      (s.selectedStudents = [] →
        (EventAttendance.handleMarkAttendance API s resp ur).loading = s.loading) ∧
      (s.loading = false →
        (EventAttendance.handleMarkAttendance API s resp ur).loading = false)) := by
  refine ⟨?_, ?_, ?_, ?_, ?_, ?_⟩
  · intro s resp tr
    have h1 : s.selectedTask ≠ none →
        (StudentTasks.handleSubmit API s resp tr).submitting = false := by
      intro hne
      unfold StudentTasks.handleSubmit
      cases hsel : s.selectedTask with
      | none => exact absurd hsel hne
      | some task =>
        simp only
        split
        · rfl
        · rfl
    have h2 : s.selectedTask = none → StudentTasks.handleSubmit API s resp tr = s := by
      intro hnone
      unfold StudentTasks.handleSubmit
      rw [hnone]
    refine ⟨h1, h2, ?_⟩
    intro hflag
    by_cases hsel : s.selectedTask = none
    · rw [h2 hsel]
      exact hflag
    · exact h1 hsel
  · intro s resp wr
    rfl
  · intro s resp mr
    have h1 : s.uploadData.file ≠ none → (handleUpload API s resp mr).uploading = false := by
      intro hne
      unfold handleUpload
      cases hf : s.uploadData.file with
      | none => exact absurd hf hne
      | some f => rfl
    have h2 : s.uploadData.file = none → (handleUpload API s resp mr).uploading = s.uploading := by
      intro hnone
      unfold handleUpload
      rw [hnone]
    refine ⟨h1, h2, ?_⟩
    intro hflag
    by_cases hf : s.uploadData.file = none
    · rw [h2 hf]
      exact hflag
    · exact h1 hf
  · intro s resp tr
    have h1 : s.selectedWorkspace ≠ none →
        (AdminTasks.handleCreateTask API s resp tr).creating = false := by
      intro hne
      unfold AdminTasks.handleCreateTask
      cases hw : s.selectedWorkspace with
      | none => exact absurd hw hne
      | some w => rfl
    have h2 : s.selectedWorkspace = none →
        (AdminTasks.handleCreateTask API s resp tr).creating = s.creating := by
      intro hnone
      unfold AdminTasks.handleCreateTask
      rw [hnone]
    refine ⟨h1, h2, ?_⟩
    intro hflag
    by_cases hw : s.selectedWorkspace = none
    · rw [h2 hw]
      exact hflag
    · exact h1 hw
  · intro s resp tr
    rfl
  · intro s resp ur
    have h1 : s.selectedStudents ≠ [] →
        (EventAttendance.handleMarkAttendance API s resp ur).loading = false := by
      intro hne
      unfold EventAttendance.handleMarkAttendance
      have hlen : ¬ s.selectedStudents.length = 0 := by
        rw [List.length_eq_zero]
        exact hne
      rw [if_neg hlen]
    have h2 : s.selectedStudents = [] →
        (EventAttendance.handleMarkAttendance API s resp ur).loading = s.loading := by
      intro hnil
      unfold EventAttendance.handleMarkAttendance
      rw [hnil]
      rfl
    refine ⟨h1, h2, ?_⟩
    intro hflag
    by_cases hs : s.selectedStudents = []
    · rw [h2 hs]
      exact hflag
    · exact h1 hs

end AdminMaterials

namespace EventAttendance

theorem attendance_toggleStudent_nodup (s : State) (studentId : String)
    (h : s.selectedStudents.Nodup) : (toggleStudent s studentId).selectedStudents.Nodup := by
  unfold toggleStudent
  by_cases hc : s.selectedStudents.contains studentId = true
  · simp only [hc, if_true]
    exact h.filter _
  · have hmem : studentId ∉ s.selectedStudents := by simpa using hc
    simp only
    rw [if_neg hc, List.nodup_append]
    refine ⟨h, List.nodup_singleton _, ?_⟩
    intro a ha hb
    rw [List.mem_singleton] at hb
    subst hb
    exact hmem ha

theorem attendance_toggleAll_nodup (s : State)
    (hids : (s.students.map (fun st => st.id)).Nodup) :
    (toggleAllStudents s).selectedStudents.Nodup := by
  unfold toggleAllStudents
  split
  · exact List.nodup_nil
  · exact hids

theorem attendance_applyToggle_fixed (s : State) (t : Toggle) :
    (applyToggle s t).students = s.students ∧
    (applyToggle s t).selectedUpdate = s.selectedUpdate ∧
    (applyToggle s t).requests = s.requests ∧
    (applyToggle s t).toasts = s.toasts := by
  cases t with
  | student studentId => exact ⟨rfl, rfl, rfl, rfl⟩
  | all =>
    simp only [applyToggle, toggleAllStudents]
    split
    · exact ⟨rfl, rfl, rfl, rfl⟩
    · exact ⟨rfl, rfl, rfl, rfl⟩

theorem attendance_applyToggles_fixed (toggles : List Toggle) (s : State) :
    (applyToggles s toggles).students = s.students ∧
    (applyToggles s toggles).selectedUpdate = s.selectedUpdate ∧
    (applyToggles s toggles).requests = s.requests ∧
    (applyToggles s toggles).toasts = s.toasts := by
  induction toggles generalizing s with
  | nil => exact ⟨rfl, rfl, rfl, rfl⟩
  | cons t rest ih =>
    obtain ⟨h1, h2, h3, h4⟩ := ih (applyToggle s t)
    obtain ⟨g1, g2, g3, g4⟩ := attendance_applyToggle_fixed s t
    exact ⟨h1.trans g1, h2.trans g2, h3.trans g3, h4.trans g4⟩

theorem attendance_applyToggles_nodup (toggles : List Toggle) (s : State)
    (hids : (s.students.map (fun st => st.id)).Nodup) (hsel : s.selectedStudents.Nodup) :
    (applyToggles s toggles).selectedStudents.Nodup := by
  induction toggles generalizing s with
  | nil => exact hsel
  | cons t rest ih =>
    apply ih (applyToggle s t)
    · rw [(attendance_applyToggle_fixed s t).1]
      exact hids
    · cases t with
      | student studentId => exact attendance_toggleStudent_nodup s studentId hsel
      | all => exact attendance_toggleAll_nodup s hids

theorem attendance_mark_empty (API : String) (s : State) (resp : HttpResult Unit)
    (updatesResp : HttpResult (List DepartmentUpdate)) (h : s.selectedStudents = []) :
    handleMarkAttendance API s resp updatesResp =
      { s with toasts := s.toasts ++ [Toast.error "Please select at least one student"] } := by
  unfold handleMarkAttendance
  rw [h]
  rfl

theorem attendance_mark_requests (API : String) (s : State) (update : DepartmentUpdate)
    (resp : HttpResult Unit) (updatesResp : HttpResult (List DepartmentUpdate))
    (hupd : s.selectedUpdate = some update) (h : s.selectedStudents ≠ []) :
    (handleMarkAttendance API s resp updatesResp).requests =
      s.requests ++ markRequest API update s.selectedStudents ::
        (match resp with
         | HttpResult.ok _ => [updatesRequest API]
         | HttpResult.fail _ => []) := by
  have hlen : ¬ s.selectedStudents.length = 0 := by
    rw [List.length_eq_zero]
    exact h
  unfold handleMarkAttendance
  rw [if_neg hlen]
  simp only [hupd]
  cases resp with
  | ok d =>
    cases updatesResp with
    | ok data => simp [fetchUpdates, markRequest, updatesRequest]
    | fail detail => simp [fetchUpdates, markRequest, updatesRequest]
  | fail detail => simp [markRequest]

/-- C22: let the selection be built from a duplicate-free one (the empty one
of `handleOpenDialog`, say) by any sequence of `toggleStudent` and
`toggleAllStudents` over students with distinct ids, for a selected event.
Then the selection holds no id twice.  `handleMarkAttendance` sends nothing if
and only if the selection is empty.  With an empty selection it only shows
`Please select at least one student`: no request, every state cell unchanged.
With a non-empty selection the first request it sends is the POST to
`/leaderboard/mark-attendance/{id of the selected event}` whose body is exactly
the selection; after a success the only other request is the GET of
`fetchUpdates`, after a failure there is none. -/
theorem c22_mark_attendance_refused_iff_empty (API : String) (s : State)
    (update : DepartmentUpdate) (toggles : List Toggle) (resp : HttpResult Unit)
    (updatesResp : HttpResult (List DepartmentUpdate))
    (hids : (s.students.map (fun st => st.id)).Nodup)
    (hsel : s.selectedStudents.Nodup)
    (hupd : s.selectedUpdate = some update) :
    (applyToggles s toggles).selectedStudents.Nodup ∧
    ((handleMarkAttendance API (applyToggles s toggles) resp updatesResp).requests =
        (applyToggles s toggles).requests ↔ (applyToggles s toggles).selectedStudents = []) ∧
    ((applyToggles s toggles).selectedStudents = [] →
      handleMarkAttendance API (applyToggles s toggles) resp updatesResp =
        { applyToggles s toggles with
          toasts := (applyToggles s toggles).toasts ++
            [Toast.error "Please select at least one student"] }) ∧
    ((applyToggles s toggles).selectedStudents ≠ [] →
      (handleMarkAttendance API (applyToggles s toggles) resp updatesResp).requests =
        (applyToggles s toggles).requests ++
          markRequest API update (applyToggles s toggles).selectedStudents ::
            (match resp with
             | HttpResult.ok _ => [updatesRequest API]
             | HttpResult.fail _ => []) ∧
      (markRequest API update (applyToggles s toggles).selectedStudents).body =
        Body.array (applyToggles s toggles).selectedStudents ∧
      (markRequest API update (applyToggles s toggles).selectedStudents).url =
        API ++ "/leaderboard/mark-attendance/" ++ update.id) := by
  have hupd2 : (applyToggles s toggles).selectedUpdate = some update := by
    rw [(attendance_applyToggles_fixed toggles s).2.1]
    exact hupd
  refine ⟨attendance_applyToggles_nodup toggles s hids hsel, ?_, ?_, ?_⟩
  · constructor
    · intro hreq
      by_contra hne
      rw [attendance_mark_requests API _ update resp updatesResp hupd2 hne] at hreq
      have hlen := congrArg List.length hreq
      rw [List.length_append, List.length_cons] at hlen
      omega
    · intro hnil
      rw [attendance_mark_empty API _ resp updatesResp hnil]
  · intro hnil
    exact attendance_mark_empty API _ resp updatesResp hnil
  · intro hne
    exact ⟨attendance_mark_requests API _ update resp updatesResp hupd2 hne, rfl, rfl⟩

/-- C22 (example): in the dialog of `workshop` over two students, after
Select All the handler posts `["s1", "s2"]`; after Select All and a click on
the first student it posts `["s2"]`. -/
theorem c22_mark_attendance_refused_iff_empty_witness :
    (Examples.attendanceDialog.students.map (fun st => st.id)).Nodup ∧
    Examples.attendanceDialog.selectedStudents.Nodup ∧
    Examples.attendanceDialog.selectedUpdate = some Examples.workshop ∧
    (applyToggles Examples.attendanceDialog [Toggle.all, Toggle.student "s1"]).selectedStudents
      = ["s2"] ∧
    (handleMarkAttendance Examples.api
        (applyToggles Examples.attendanceDialog [Toggle.all, Toggle.student "s1"])
        (HttpResult.fail none) (HttpResult.ok [])).requests =
      [markRequest Examples.api Examples.workshop ["s2"]] ∧
    List.Nodup
      (applyToggles Examples.attendanceDialog [Toggle.all, Toggle.student "s1"]).selectedStudents :=
  ⟨by decide, by decide, rfl, by decide, by decide,
   (c22_mark_attendance_refused_iff_empty Examples.api Examples.attendanceDialog
      Examples.workshop [Toggle.all, Toggle.student "s1"] (HttpResult.fail none)
      (HttpResult.ok []) (by decide) (by decide) rfl).1⟩

end EventAttendance

namespace EventAttendance

theorem attendance_fetchUpdates_inv (API : String) (s : State)
    (resp : HttpResult (List DepartmentUpdate)) (h : Inv API s) :
    Inv API (fetchUpdates API s resp) := by
  obtain ⟨h1, h2, h3⟩ := h
  have hreq : (fetchUpdates API s resp).requests = s.requests ++ [updatesRequest API] := by
    cases resp with
    | ok data => rfl
    | fail detail => rfl
  have hst : (fetchUpdates API s resp).students = s.students := by
    cases resp with
    | ok data => rfl
    | fail detail => rfl
  have hsel : (fetchUpdates API s resp).selectedStudents = s.selectedStudents := by
    cases resp with
    | ok data => rfl
    | fail detail => rfl
  refine ⟨hst.trans h1, hsel.trans h2, ?_⟩
  intro r hr
  rw [hreq, List.mem_append, List.mem_singleton] at hr
  cases hr with
  | inl hr => exact h3 r hr
  | inr hr => exact hr

theorem attendance_filteredStudents_nil (toLowerCase : String → String) (s : State)
    (h : s.students = []) : filteredStudents toLowerCase s = [] := by
  unfold filteredStudents
  rw [h]
  rfl

theorem attendance_step_inv (toLowerCase : String → String) (API : String) (s : State)
    (ev : Event) (h : Inv API s) : Inv API (step toLowerCase API s ev) := by
  have h0 := h
  obtain ⟨h1, h2, h3⟩ := h
  cases ev with
  | mount resp =>
    simp only [step]
    exact attendance_fetchUpdates_inv API s resp h0
  | clickOpenDialog i =>
    simp only [step]
    split
    · exact ⟨rfl, rfl, h3⟩
    · exact h0
  | setDialogOpen b =>
    simp only [step]
    exact ⟨h1, h2, h3⟩
  | setSearchQuery v =>
    simp only [step]
    split
    · exact ⟨h1, h2, h3⟩
    · exact h0
  | clickStudent j =>
    simp only [step]
    rw [attendance_filteredStudents_nil toLowerCase s h1]
    split
    · exact h0
    · exact h0
  | clickSelectAll =>
    simp only [step]
    have hg : (dialogShown s && decide (s.students.length > 0)) = false := by
      rw [h1]
      simp
    rw [hg]
    exact h0
  | clickMark resp updatesResp =>
    simp only [step]
    have hg : (dialogShown s && !markDisabled s) = false := by
      unfold markDisabled
      rw [h2]
      simp
    rw [hg]
    exact h0

theorem attendance_runFrom_inv (toLowerCase : String → String) (API : String)
    (evs : List Event) : ∀ s : State, Inv API s → Inv API (runFrom toLowerCase API s evs) := by
  induction evs with
  | nil =>
    intro s h
    exact h
  | cons ev rest ih =>
    intro s h
    exact ih (step toLowerCase API s ev) (attendance_step_inv toLowerCase API s ev h)

theorem attendance_init_inv (API : String) : Inv API init := by
  refine ⟨rfl, rfl, ?_⟩
  intro r hr
  cases hr

/-- C23: `fetchStudents` stores the empty list whatever the state.  In every
state that the Event Attendance tab reaches from its initial state, by any
sequence of mounts, clicks on the Mark Attendance button of an event card,
openings and closings of the dialog, search inputs, clicks on student rows, on
Select All and on the dialog's Mark Attendance button, with any responses of
the server: `students` is empty, so is `filteredStudents`, a click on a
student row or on Select All changes nothing, `selectedStudents` is empty, the
dialog's Mark Attendance button is disabled, every request sent so far is the
GET of `fetchUpdates` (none is a POST), and `handleMarkAttendance`, were it
called all the same, would send no request. -/
theorem c23_students_never_listed (toLowerCase : String → String) (API : String)
    (evs : List Event) :
    (∀ s : State, (fetchStudents s).students = []) ∧
    (run toLowerCase API evs).students = [] ∧
    filteredStudents toLowerCase (run toLowerCase API evs) = [] ∧
    (∀ j, step toLowerCase API (run toLowerCase API evs) (Event.clickStudent j) =
      run toLowerCase API evs) ∧
    step toLowerCase API (run toLowerCase API evs) Event.clickSelectAll =
      run toLowerCase API evs ∧
    (run toLowerCase API evs).selectedStudents = [] ∧
    markDisabled (run toLowerCase API evs) = true ∧
    (∀ r ∈ (run toLowerCase API evs).requests,
      r = updatesRequest API ∧ r.method = Method.GET) ∧
    (∀ resp updatesResp r,
      r ∈ (step toLowerCase API (run toLowerCase API evs)
            (Event.clickMark resp updatesResp)).requests → r.method ≠ Method.POST) ∧
    (∀ resp updatesResp,
      (handleMarkAttendance API (run toLowerCase API evs) resp updatesResp).requests =
        (run toLowerCase API evs).requests) := by
  have hinv : Inv API (run toLowerCase API evs) :=
    attendance_runFrom_inv toLowerCase API evs init (attendance_init_inv API)
  obtain ⟨h1, h2, h3⟩ := hinv
  have hfil := attendance_filteredStudents_nil toLowerCase (run toLowerCase API evs) h1
  have hdis : markDisabled (run toLowerCase API evs) = true := by
    unfold markDisabled
    rw [h2]
    simp
  refine ⟨fun s => rfl, h1, hfil, ?_, ?_, h2, hdis, ?_, ?_, ?_⟩
  · intro j
    simp only [step]
    rw [hfil]
    split
    · rfl
    · rfl
  · simp only [step]
    have hg : (dialogShown (run toLowerCase API evs) &&
        decide ((run toLowerCase API evs).students.length > 0)) = false := by
      rw [h1]
      simp
    rw [hg]
    rfl
  · intro r hr
    have hreq := h3 r hr
    refine ⟨hreq, ?_⟩
    rw [hreq]
    rfl
  · intro resp updatesResp r hr
    have hg : (dialogShown (run toLowerCase API evs) &&
        !markDisabled (run toLowerCase API evs)) = false := by
      rw [hdis]
      simp
    simp only [step] at hr
    rw [hg] at hr
    have hreq := h3 r hr
    rw [hreq]
    intro hcontra
    cases hcontra
  · intro resp updatesResp
    rw [attendance_mark_empty API _ resp updatesResp h2]

end EventAttendance

end StudyHub
